import Mathlib

/-!
PCTester: a verification development.

A shallow embedding of the diagnostic engine of `PCTester`
(`PCTester.cpp`, `PCTester_Linux.cpp`, `PCTester_MacOS.cpp`,
`PCTester_Windows.cpp`, `main.cpp`) and theorems about it.

Conventions of the embedding.

* A C++ `double` is a value of `Dbl`: an exact rational, or one of the three
  IEEE 754 specials `+Inf`, `-Inf`, `NaN`.  Arithmetic on finite values is
  exact (rounding is abstracted away); division by zero, overflow to the
  specials and `NaN` propagation follow IEEE 754.  Zero carries no sign (the
  only zeros the program divides by are `+0`).  Where rounding decides a
  property, the operations `Dbl.div64`, `Dbl.mul64` and `Dbl.ofInt64` round
  each result to the nearest binary64 value (`round64`).
* The object `PCTester::Impl` is the record `Impl`: its two data members plus
  a ghost `trace` listing, in program order, every observable action taken on
  it (console lines, member stores, thread operations).
* Everything a function obtains from outside the program (file contents,
  clock readings, random draws, API results) is an explicit argument.
-/

namespace PCTester

/-! ## `double` -/

/-- A C++ `double`: an exact rational or an IEEE 754 special value. -/
inductive Dbl where
  | fin (q : ℚ)
  | pinf
  | ninf
  | nan
  deriving DecidableEq

namespace Dbl

/-- Conversion of an integer (`int`, `long`, `size_t`) to `double`. -/
def ofInt (n : Int) : Dbl := fin (n : ℚ)

/-- The sign of a finite non-zero divisor or factor decides the sign of an infinity. -/
def signed (positive : Bool) : Dbl := if positive then pinf else ninf

/-- IEEE 754 division `a / b`. -/
def div : Dbl → Dbl → Dbl
  | fin a, fin b =>
      if b = 0 then (if a = 0 then nan else signed (decide (0 < a)))
      else fin (a / b)
  | fin _, pinf => fin 0
  | fin _, ninf => fin 0
  | pinf, fin b => signed (decide (0 ≤ b))
  | ninf, fin b => signed (decide (b < 0))
  | _, _ => nan

/-- IEEE 754 multiplication `a * b`. -/
def mul : Dbl → Dbl → Dbl
  | fin a, fin b => fin (a * b)
  | fin a, pinf => if a = 0 then nan else signed (decide (0 < a))
  | fin a, ninf => if a = 0 then nan else signed (decide (a < 0))
  | pinf, fin b => if b = 0 then nan else signed (decide (0 < b))
  | ninf, fin b => if b = 0 then nan else signed (decide (b < 0))
  | pinf, pinf => pinf
  | ninf, ninf => pinf
  | pinf, ninf => ninf
  | ninf, pinf => ninf
  | _, _ => nan

/-- IEEE 754 addition `a + b`. -/
def add : Dbl → Dbl → Dbl
  | fin a, fin b => fin (a + b)
  | fin _, pinf => pinf
  | fin _, ninf => ninf
  | pinf, fin _ => pinf
  | ninf, fin _ => ninf
  | pinf, pinf => pinf
  | ninf, ninf => ninf
  | _, _ => nan

/-- The comparison `a < b` of two doubles; false as soon as one is `NaN`. -/
def lt : Dbl → Dbl → Bool
  | fin a, fin b => decide (a < b)
  | fin _, pinf => true
  | ninf, fin _ => true
  | ninf, pinf => true
  | _, _ => false

/-- The comparison `a > b`. -/
def gt (a b : Dbl) : Bool := lt b a

/-- The comparison `a == b` of two doubles; `NaN` equals nothing. -/
def eq : Dbl → Dbl → Bool
  | fin a, fin b => decide (a = b)
  | pinf, pinf => true
  | ninf, ninf => true
  | _, _ => false

/-- The function `std::min(a, b)`, which is `(b < a) ? b : a`. -/
def min (a b : Dbl) : Dbl := if lt b a then b else a

/-- A double is finite when it is neither an infinity nor `NaN`. -/
def isFinite : Dbl → Bool
  | fin _ => true
  | _ => false

end Dbl

/-! ## Data model (`PCTester.h`) -/

/-- The struct `SystemInfo`; `size_t` and `uint64_t` members are naturals below `2^64`. -/
structure SystemInfo where
  os_name : String
  cpu_name : String
  cpu_cores : Nat
  cpu_threads : Nat
  memory_size : Nat
  gpu_name : String
  gpu_memory : Nat
  disk_names : List String
  deriving DecidableEq

/-- The struct `TestResults`. -/
structure TestResults where
  cpu_score : Dbl
  cpu_temp : Dbl
  ram_score : Dbl
  ram_usage : Dbl
  disk_read : Dbl
  disk_write : Dbl
  network_latency : Dbl
  network_bandwidth : Dbl
  gpu_score : Dbl
  deriving DecidableEq

/-- The members of `TestResults`. -/
inductive Field where
  | cpu_score | cpu_temp | ram_score | ram_usage | disk_read | disk_write
  | network_latency | network_bandwidth | gpu_score
  deriving DecidableEq

/-- The members of `SystemInfo`. -/
inductive InfoField where
  | os_name | cpu_name | cpu_cores | cpu_threads | memory_size | gpu_name
  | gpu_memory | disk_names
  deriving DecidableEq

/-- Exceptions the program can meet. -/
inductive Exn where
  | invalid_argument (what : String)
  | out_of_range (what : String)
  | runtime_error (what : String)
  | bad_alloc
  | system_error
  deriving DecidableEq

/-- A console line; numbers are kept as values, not as formatted text. -/
inductive Msg where
  | text (s : String)
  | cpu_score_line (v : Dbl)
  | cpu_temp_line (v : Dbl)
  | gpu_completed (gpu_name : String)
  | gpu_score_line (v : Dbl)
  | temp_sample (cpu gpu : Dbl)
  deriving DecidableEq

/-- An observable action on the `Impl` object or in `run_full_diagnostics`. -/
inductive Event where
  | print (line : Msg)
  | error (line : Msg)
  | store_result (f : Field) (v : Dbl)
  | store_info (f : InfoField)
  | flag_init (v : Bool)
  | thread_start
  | enter_cpu_benchmark
  | enter_gpu_benchmark
  | flag_store (v : Bool)
  | thread_join
  | terminate
  deriving DecidableEq

/-- The class `PCTester::Impl`: its data members and the ghost trace of actions. -/
structure Impl where
  sys_info : SystemInfo
  test_results : TestResults
  trace : List Event

namespace Impl

/-- Append one action to the trace. -/
def emit (e : Event) (s : Impl) : Impl := { s with trace := s.trace ++ [e] }

/-- The call `SafeOutput::print(msg)`. -/
def print (m : Msg) (s : Impl) : Impl := s.emit (.print m)

/-- The call `SafeOutput::error(msg)`. -/
def error (m : Msg) (s : Impl) : Impl := s.emit (.error m)

/-- The store `test_results.cpu_score = v`. -/
def set_cpu_score (v : Dbl) (s : Impl) : Impl :=
  { s with test_results := { s.test_results with cpu_score := v },
           trace := s.trace ++ [.store_result .cpu_score v] }

/-- The store `test_results.cpu_temp = v`. -/
def set_cpu_temp (v : Dbl) (s : Impl) : Impl :=
  { s with test_results := { s.test_results with cpu_temp := v },
           trace := s.trace ++ [.store_result .cpu_temp v] }

/-- The store `test_results.gpu_score = v`. -/
def set_gpu_score (v : Dbl) (s : Impl) : Impl :=
  { s with test_results := { s.test_results with gpu_score := v },
           trace := s.trace ++ [.store_result .gpu_score v] }

end Impl

/-! ## CPU scoring, common to the three backends -/

/-- The constant `num_iterations` of `cpu_benchmark`. -/
def num_iterations : Int := 100000000

/-- The three lines under `// Calculate score`, for an iteration count `n`:
`actual_perf = n / elapsed.count()` and
`cpu_score = (actual_perf / base_perf) * 10000`. -/
def calculate_score (n : Int) (elapsed : Dbl) (base_perf : Dbl) : Dbl :=
  let actual_perf := Dbl.div (Dbl.ofInt n) elapsed
  Dbl.mul (Dbl.div actual_perf base_perf) (Dbl.ofInt 10000)

/-- The draw of `std::uniform_real_distribution<>(a, b)`: `a + (b - a) * u`
for the generator's canonical value `u`, which lies in `[0, 1)`. -/
def uniform_real (a b u : ℚ) : Dbl := Dbl.fin (a + (b - a) * u)

/-! ## `std::string` operations used by the probes -/

/-- Whether the text starts with the pattern. -/
def starts_with : List Char → List Char → Bool
  | _, [] => true
  | [], _ :: _ => false
  | c :: s, p :: pat => c == p && starts_with s pat

/-- The call `s.find(pat)`: the first position where `pat` occurs, `none` for `npos`. -/
def find_sub (pat : List Char) : List Char → Option Nat
  | [] => if pat.isEmpty then some 0 else none
  | c :: s => if starts_with (c :: s) pat then some 0 else (find_sub pat s).map (· + 1)

/-- The call `s.find(ch)`: the first position of the character, `none` for `npos`. -/
def find_char (ch : Char) : List Char → Option Nat
  | [] => none
  | c :: s => if c = ch then some 0 else (find_char ch s).map (· + 1)

/-- The call `s.substr(pos)`, which throws `std::out_of_range` when `pos > s.size()`. -/
def substr (s : List Char) (pos : Nat) : Except Exn (List Char) :=
  if pos > s.length then .error (.out_of_range "basic_string::substr") else .ok (s.drop pos)

/-- The erase-remove idiom deleting every occurrence of a character. -/
def erase_remove (ch : Char) (s : List Char) : List Char := s.filter (· ≠ ch)

/-- The C function `isspace` in the "C" locale. -/
def isspace (c : Char) : Bool :=
  c = ' ' || c = '\t' || c = '\n' || c.toNat = 11 || c.toNat = 12 || c = '\r'

/-- The call `std::stoi(s)`: leading white space, an optional sign, decimal
digits.  Throws `std::invalid_argument` when there is no digit and
`std::out_of_range` when the value does not fit a 32-bit `int`. -/
def stoi (s : List Char) : Except Exn Int :=
  let s1 := s.dropWhile isspace
  let negative := s1.head? = some '-'
  let s2 := if s1.head? = some '-' ∨ s1.head? = some '+' then s1.tail else s1
  let ds := s2.takeWhile Char.isDigit
  if ds.isEmpty then .error (.invalid_argument "stoi")
  else
    let v : Int := ds.foldl (fun a c => 10 * a + ((c.toNat : Int) - 48)) 0
    let r : Int := if negative then -v else v
    if r < -2147483648 ∨ 2147483647 < r then .error (.out_of_range "stoi") else .ok r

/-- Conversion of an `int` to `size_t`: the value modulo `2^64`. -/
def to_size_t (n : Int) : Nat := (n % (2 ^ 64 : Int)).toNat

namespace Impl

/-- The store `sys_info.os_name = v`. -/
def set_os_name (v : String) (s : Impl) : Impl :=
  { s with sys_info := { s.sys_info with os_name := v },
           trace := s.trace ++ [.store_info .os_name] }

/-- The store `sys_info.cpu_name = v`. -/
def set_cpu_name (v : String) (s : Impl) : Impl :=
  { s with sys_info := { s.sys_info with cpu_name := v },
           trace := s.trace ++ [.store_info .cpu_name] }

/-- The store `sys_info.cpu_cores = v`. -/
def set_cpu_cores (v : Nat) (s : Impl) : Impl :=
  { s with sys_info := { s.sys_info with cpu_cores := v },
           trace := s.trace ++ [.store_info .cpu_cores] }

/-- The store `sys_info.cpu_threads = v`. -/
def set_cpu_threads (v : Nat) (s : Impl) : Impl :=
  { s with sys_info := { s.sys_info with cpu_threads := v },
           trace := s.trace ++ [.store_info .cpu_threads] }

/-- The store `sys_info.memory_size = v`. -/
def set_memory_size (v : Nat) (s : Impl) : Impl :=
  { s with sys_info := { s.sys_info with memory_size := v },
           trace := s.trace ++ [.store_info .memory_size] }

/-- The store `sys_info.gpu_name = v`. -/
def set_gpu_name (v : String) (s : Impl) : Impl :=
  { s with sys_info := { s.sys_info with gpu_name := v },
           trace := s.trace ++ [.store_info .gpu_name] }

/-- The store `sys_info.gpu_memory = v`. -/
def set_gpu_memory (v : Nat) (s : Impl) : Impl :=
  { s with sys_info := { s.sys_info with gpu_memory := v },
           trace := s.trace ++ [.store_info .gpu_memory] }

end Impl

/-! ## Linux backend (`PCTester_Linux.cpp`) -/

namespace Linux

/-- What `collect_system_info` obtains from the host.  A file is `none` when
it cannot be opened and the list of its lines otherwise; `lspci` is `none`
when `popen` fails, `some none` when `fgets` reads nothing, and the text
`fgets` stored otherwise. -/
structure ProbeEnv where
  os_release : Option (List String)
  cpuinfo : Option (List String)
  totalram : Nat
  mem_unit : Nat
  lspci : Option (Option String)

/-- The body of the loop over `/etc/os-release`, for one line. -/
def os_release_line (s : Impl) (line : String) : Except Exn Impl :=
  if (find_sub "PRETTY_NAME".toList line.toList).isSome then
    match find_char '=' line.toList with
    | none => .ok s
    | some pos =>
      match substr line.toList (pos + 1) with
      | .error e => .error e
      | .ok v => .ok (s.set_os_name (String.mk (erase_remove '"' v)))
  else .ok s

/-- The first `if` of the loop over `/proc/cpuinfo`: `model name`. -/
def cpuinfo_model_name (s : Impl) (line : String) : Except Exn Impl :=
  if (find_sub "model name".toList line.toList).isSome then
    match find_char ':' line.toList with
    | none => .ok s
    | some pos =>
      match substr line.toList (pos + 2) with
      | .error e => .error e
      | .ok v => .ok (s.set_cpu_name (String.mk v))
  else .ok s

/-- The second `if` of the loop over `/proc/cpuinfo`: `cpu cores`. -/
def cpuinfo_cpu_cores (s : Impl) (line : String) : Except Exn Impl :=
  if (find_sub "cpu cores".toList line.toList).isSome then
    match find_char ':' line.toList with
    | none => .ok s
    | some pos =>
      match substr line.toList (pos + 2) with
      | .error e => .error e
      | .ok v =>
        match stoi v with
        | .error e => .error e
        | .ok n => .ok (s.set_cpu_cores (to_size_t n))
  else .ok s

/-- The third `if` of the loop over `/proc/cpuinfo`: `siblings`. -/
def cpuinfo_siblings (s : Impl) (line : String) : Except Exn Impl :=
  if (find_sub "siblings".toList line.toList).isSome then
    match find_char ':' line.toList with
    | none => .ok s
    | some pos =>
      match substr line.toList (pos + 2) with
      | .error e => .error e
      | .ok v =>
        match stoi v with
        | .error e => .error e
        | .ok n => .ok (s.set_cpu_threads (to_size_t n))
  else .ok s

/-- The body of the loop over `/proc/cpuinfo`, for one line: the three `if`s in turn. -/
def cpuinfo_line (s : Impl) (line : String) : Except Exn Impl :=
  match cpuinfo_model_name s line with
  | .error e => .error e
  | .ok s1 =>
    match cpuinfo_cpu_cores s1 line with
    | .error e => .error e
    | .ok s2 => cpuinfo_siblings s2 line

/-- A `while (std::getline(file, line))` loop whose body can throw. -/
def read_lines (body : Impl → String → Except Exn Impl) : List String → Impl → Except Exn Impl
  | [], s => .ok s
  | line :: rest, s =>
    match body s line with
    | .error e => .error e
    | .ok s1 => read_lines body rest s1

/-- The GPU part of `collect_system_info`: the name is what follows the first
8 characters of the line up to its newline (the line is taken to have at least
8 characters). -/
def collect_gpu (lspci : Option (Option String)) (s : Impl) : Impl :=
  match lspci with
  | some (some buffer) =>
    s.set_gpu_name (String.mk ((buffer.toList.drop 8).takeWhile (· ≠ '\n')))
  | _ => s

/-- An `if (file.is_open())` block around a line loop. -/
def read_file (body : Impl → String → Except Exn Impl) (file : Option (List String))
    (s : Impl) : Except Exn Impl :=
  match file with
  | none => .ok s
  | some lines => read_lines body lines s

/-- The function `PCTester::Impl::collect_system_info`. -/
def collect_system_info (env : ProbeEnv) (s : Impl) : Except Exn Impl :=
  match read_file os_release_line env.os_release s with
  | .error e => .error e
  | .ok s1 =>
    match read_file cpuinfo_line env.cpuinfo s1 with
    | .error e => .error e
    | .ok s2 =>
      let s3 := s2.set_memory_size ((env.totalram * env.mem_unit) % 2 ^ 64)
      let s4 := collect_gpu env.lspci s3
      .ok (s4.set_gpu_memory 4096)

/-- What the lines `std::ifstream temp_file(temp_path); ... double temp;
temp_file >> temp;` find for one entry: the file does not open (`unopened`);
the extraction stores a number, which is 0 when the text is not a number
(`stored`); or the file opens but the extraction stores nothing, as for an
empty file or a read error, and the uninitialised `temp` keeps whatever value
it happened to hold (`untouched`). -/
inductive TempFile where
  | unopened
  | stored (v : ℚ)
  | untouched (held : Dbl)
  deriving DecidableEq

/-- The directory `/sys/class/thermal`: `none` when `opendir` fails, otherwise
its entries, each with what reading its `temp` file gives. -/
abbrev ThermalDir := Option (List (String × TempFile))

/-- The function `PCTester::Impl::get_cpu_temperature`. -/
def get_cpu_temperature (dir : ThermalDir) : Dbl :=
  match dir with
  | none => Dbl.fin 0
  | some entries =>
    entries.foldl (fun max_temp entry =>
      if (find_sub "thermal_zone".toList entry.1.toList).isSome then
        match entry.2 with
        | .unopened => max_temp
        | .stored v =>
          let temp := Dbl.div (Dbl.fin v) (Dbl.fin 1000)
          if Dbl.gt temp max_temp then temp else max_temp
        | .untouched held =>
          let temp := Dbl.div held (Dbl.fin 1000)
          if Dbl.gt temp max_temp then temp else max_temp
      else max_temp) (Dbl.fin 0)

/-- The function `PCTester::Impl::get_gpu_temperature`, for the canonical draw `u`. -/
def get_gpu_temperature (u : ℚ) : Dbl := uniform_real 50 85 u

/-- What `cpu_benchmark` obtains from the host: `fault` is an exception raised
by its first `SafeOutput::print` (`none` when it returns); `freq_files i` is the
number the extraction from core `i`'s `cpuinfo_max_freq` stores (`none` when
the file cannot be opened; 0 when its text is not a number; a file that opens
but from which nothing is extracted is not represented); `elapsed` is
`elapsed.count()`; `thermal` is the thermal directory at the time of the
temperature read. -/
structure CpuEnv where
  fault : Option Exn
  freq_files : Nat → Option ℚ
  elapsed : ℚ
  thermal : ThermalDir

/-- The loop under `// Get CPU frequency` (core counts up to `INT_MAX`). -/
def max_freq (freq_files : Nat → Option ℚ) (cpu_cores : Nat) : Dbl :=
  (List.range cpu_cores).foldl (fun base_freq i =>
    match freq_files i with
    | none => base_freq
    | some v =>
      let freq_val := Dbl.div (Dbl.fin v) (Dbl.fin 1000)
      if Dbl.gt freq_val base_freq then freq_val else base_freq) (Dbl.fin 0)

/-- The value of `base_freq` after `if (base_freq == 0.0) base_freq = 2000.0`. -/
def base_freq (freq_files : Nat → Option ℚ) (cpu_cores : Nat) : Dbl :=
  if Dbl.eq (max_freq freq_files cpu_cores) (Dbl.fin 0) then Dbl.fin 2000
  else max_freq freq_files cpu_cores

/-- The function `PCTester::Impl::cpu_benchmark`.  The timed loop only computes
the locals `sum` and `pi`, which nothing reads afterwards; its duration enters
as `env.elapsed`. -/
def cpu_benchmark (env : CpuEnv) (s : Impl) : Except Exn Impl :=
  match env.fault with
  | some e => .error e
  | none =>
    let s1 := s.print (.text "\n[CPU] Starting Linux-optimized stress test...")
    let base_perf :=
      Dbl.mul (base_freq env.freq_files s1.sys_info.cpu_cores) (Dbl.ofInt s1.sys_info.cpu_cores)
    let s2 := s1.set_cpu_score (calculate_score num_iterations (Dbl.fin env.elapsed) base_perf)
    let s3 := s2.set_cpu_temp (get_cpu_temperature env.thermal)
    let s4 := s3.print (.cpu_score_line s3.test_results.cpu_score)
    .ok (s4.print (.cpu_temp_line s4.test_results.cpu_temp))

/-- What `gpu_benchmark` obtains from the host. -/
structure GpuEnv where
  fault : Option Exn
  elapsed : ℚ

/-- The function `PCTester::Impl::gpu_benchmark`. -/
def gpu_benchmark (env : GpuEnv) (s : Impl) : Except Exn Impl :=
  match env.fault with
  | some e => .error e
  | none =>
    let s1 := s.print (.text "\n[GPU] Starting OpenCL benchmark simulation...")
    let s2 := s1.set_gpu_score (Dbl.div (Dbl.ofInt 10000000) (Dbl.fin env.elapsed))
    let s3 := s2.print (.gpu_completed s2.sys_info.gpu_name)
    .ok (s3.print (.gpu_score_line s3.test_results.gpu_score))

end Linux

/-! ## macOS backend (`PCTester_MacOS.cpp`) -/

namespace MacOS

/-- The function `PCTester::Impl::get_cpu_temperature`, for the canonical draw `u`. -/
def get_cpu_temperature (u : ℚ) : Dbl := uniform_real 40 80 u

/-- The function `PCTester::Impl::get_gpu_temperature`, for the canonical draw `u`. -/
def get_gpu_temperature (u : ℚ) : Dbl := uniform_real 50 85 u

/-- What `cpu_benchmark` obtains from the host: `cpufrequency` is the value
`sysctlbyname("hw.cpufrequency")` stores (in Hz), `none` when the call fails;
`draw` is the random draw of the temperature read. -/
structure CpuEnv where
  fault : Option Exn
  cpufrequency : Option Nat
  elapsed : ℚ
  draw : ℚ

/-- The value of `freq` after the `sysctlbyname` call and its fallback. -/
def freq (cpufrequency : Option Nat) : Nat :=
  match cpufrequency with
  | some f => f
  | none => 2400000000

/-- The value `base_freq = freq / 1000000000.0`. -/
def base_freq (cpufrequency : Option Nat) : Dbl :=
  Dbl.div (Dbl.ofInt (freq cpufrequency)) (Dbl.fin 1000000000)

/-- The function `PCTester::Impl::cpu_benchmark`. -/
def cpu_benchmark (env : CpuEnv) (s : Impl) : Except Exn Impl :=
  match env.fault with
  | some e => .error e
  | none =>
    let s1 := s.print (.text "\n[CPU] Starting macOS-optimized stress test...")
    let base_perf := Dbl.mul (base_freq env.cpufrequency) (Dbl.ofInt s1.sys_info.cpu_cores)
    let s2 := s1.set_cpu_score (calculate_score num_iterations (Dbl.fin env.elapsed) base_perf)
    let s3 := s2.set_cpu_temp (get_cpu_temperature env.draw)
    let s4 := s3.print (.cpu_score_line s3.test_results.cpu_score)
    .ok (s4.print (.cpu_temp_line s4.test_results.cpu_temp))

/-- What `gpu_benchmark` obtains from the host. -/
structure GpuEnv where
  fault : Option Exn
  elapsed : ℚ

/-- The function `PCTester::Impl::gpu_benchmark`. -/
def gpu_benchmark (env : GpuEnv) (s : Impl) : Except Exn Impl :=
  match env.fault with
  | some e => .error e
  | none =>
    let s1 := s.print (.text "\n[GPU] Starting Metal benchmark simulation...")
    let s2 := s1.set_gpu_score (Dbl.div (Dbl.ofInt 15000000) (Dbl.fin env.elapsed))
    let s3 := s2.print (.gpu_completed s2.sys_info.gpu_name)
    .ok (s3.print (.gpu_score_line s3.test_results.gpu_score))

end MacOS

/-! ## Windows backend (`PCTester_Windows.cpp`) -/

namespace Windows

/-- The function `PCTester::Impl::get_cpu_temperature`, for the canonical draw `u`. -/
def get_cpu_temperature (u : ℚ) : Dbl := uniform_real 40 85 u

/-- The function `PCTester::Impl::get_gpu_temperature`, for the canonical draw `u`. -/
def get_gpu_temperature (u : ℚ) : Dbl := uniform_real 50 95 u

/-- What `cpu_benchmark` obtains from the host: `registry` is `none` when
`RegOpenKeyEx` fails, `some none` when the key opens and `RegQueryValueEx`
stores nothing, and the stored `~MHz` value otherwise. -/
structure CpuEnv where
  fault : Option Exn
  registry : Option (Option Nat)
  elapsed : ℚ
  draw : ℚ

/-- The value of `dwMHz` after the registry query; it is initialised to 0. -/
def dwMHz (registry : Option (Option Nat)) : Nat :=
  match registry with
  | some (some mhz) => mhz
  | _ => 0

/-- The function `PCTester::Impl::cpu_benchmark`. -/
def cpu_benchmark (env : CpuEnv) (s : Impl) : Except Exn Impl :=
  match env.fault with
  | some e => .error e
  | none =>
    let s1 := s.print (.text "\n[CPU] Starting advanced benchmark...")
    let base_perf :=
      Dbl.mul (Dbl.div (Dbl.ofInt (dwMHz env.registry)) (Dbl.fin 1000)) (Dbl.ofInt 4)
    let s2 := s1.set_cpu_score (calculate_score num_iterations (Dbl.fin env.elapsed) base_perf)
    let s3 := s2.set_cpu_temp (get_cpu_temperature env.draw)
    let s4 := s3.print (.cpu_score_line s3.test_results.cpu_score)
    .ok (s4.print (.cpu_temp_line s4.test_results.cpu_temp))

/-- What `gpu_benchmark` obtains from the host: `device` tells whether
`D3D11CreateDevice` succeeds; `adapter` is the adapter's `Description` and
`DedicatedVideoMemory`, `none` when `QueryInterface` or `GetAdapter` fails. -/
structure GpuEnv where
  fault : Option Exn
  device : Bool
  adapter : Option (String × Nat)
  elapsed : ℚ

/-- The block under `// Get GPU information`. -/
def gpu_information (adapter : Option (String × Nat)) (s : Impl) : Impl :=
  match adapter with
  | none => s
  | some desc => (s.set_gpu_name desc.1).set_gpu_memory (desc.2 / (1024 * 1024))

/-- The function `PCTester::Impl::gpu_benchmark`. -/
def gpu_benchmark (env : GpuEnv) (s : Impl) : Except Exn Impl :=
  match env.fault with
  | some e => .error e
  | none =>
    let s1 := s.print (.text "\n[GPU] Starting DirectX 11 benchmark...")
    if env.device = false then
      .ok (s1.error (.text "Failed to create D3D11 device"))
    else
      let s2 := gpu_information env.adapter s1
      let s3 := s2.set_gpu_score (Dbl.div (Dbl.ofInt 100000) (Dbl.fin env.elapsed))
      let s4 := s3.print (.gpu_completed s3.sys_info.gpu_name)
      .ok (s4.print (.gpu_score_line s4.test_results.gpu_score))

end Windows

/-! ## The diagnostic run: `run_full_diagnostics` and `monitor_temperatures`

The two functions have the same text in the three backends; a `Backend`
supplies the functions they call. -/

/-- The backend functions the run calls.  The monitor's two sensor reads take
the number of the loop iteration that makes them. -/
structure Backend where
  cpu_benchmark : Impl → Except Exn Impl
  gpu_benchmark : Impl → Except Exn Impl
  get_cpu_temperature : Nat → Dbl
  get_gpu_temperature : Nat → Dbl

/-- The body of the `while (!stop_monitoring)` loop, for iteration `k`: the two
sensor reads and the `[TEMP]` line (the two-second sleep has no effect on the
state). -/
def monitor_sample (b : Backend) (k : Nat) (s : Impl) : Impl :=
  s.print (.temp_sample (b.get_cpu_temperature k) (b.get_gpu_temperature k))

/-- The loop of `monitor_temperatures` from iteration `k` on, for the values
`polls` the successive reads of `stop_monitoring` yield.  The result tells
whether the loop was left (`true`) or is still running when the listed reads
are used up (`false`). -/
def monitor_loop (b : Backend) : List Bool → Nat → Impl → Impl × Bool
  | [], _, s => (s, false)
  | true :: _, _, s => (s, true)
  | false :: polls, k, s => monitor_loop b polls (k + 1) (monitor_sample b k s)

/-- The function `PCTester::Impl::monitor_temperatures`; the second component
tells whether it returned. -/
def monitor_temperatures (b : Backend) (polls : List Bool) (s : Impl) : Impl × Bool :=
  let r := monitor_loop b polls 0
    (s.print (.text "[MONITOR] Starting temperature monitoring..."))
  if r.2 then (r.1.print (.text "[MONITOR] Temperature monitoring stopped"), true)
  else r

/-- Where the main thread stands in `run_full_diagnostics`: the statement it
executes next, or how the call ended. -/
inductive MainPc where
  | banner
  | flag_init
  | thread_start
  | cpu
  | gpu
  | flag_store
  | join
  | finish
  | returned
  | terminated
  deriving DecidableEq

/-- Where the monitor thread stands in `monitor_temperatures`. -/
inductive MonitorPc where
  | not_started
  | entry
  | loop_top
  | loop_body
  | done
  deriving DecidableEq

/-- The state of a diagnostic run: the shared object, the atomic flag
`stop_monitoring`, the position of each thread and the number of monitor
iterations made so far. -/
structure Run where
  impl : Impl
  stop_monitoring : Bool
  pc : MainPc
  monitor : MonitorPc
  samples : Nat

/-- The two threads of a run. -/
inductive Tid where
  | main
  | monitor
  deriving DecidableEq

/-- The state in which `run_full_diagnostics` is called on the object `s`. -/
def Run.start (s : Impl) : Run :=
  { impl := s, stop_monitoring := false, pc := .banner, monitor := .not_started, samples := 0 }

/-- One statement of `run_full_diagnostics`.  An exception leaving a benchmark
unwinds the frame, where destroying the joinable `std::thread` calls
`std::terminate`; `join` waits until the monitor has returned.  A benchmark
call is a single step: the monitor thread only prints, so a finer interleaving
would only move its console lines inside the benchmark's part of the trace. -/
def main_step (b : Backend) (r : Run) : Run :=
  match r.pc with
  | .banner =>
    { r with impl := r.impl.print (.text "\n=== Advanced Diagnostics ==="), pc := .flag_init }
  | .flag_init =>
    { r with impl := r.impl.emit (.flag_init false), stop_monitoring := false, pc := .thread_start }
  | .thread_start =>
    { r with impl := r.impl.emit .thread_start, monitor := .entry, pc := .cpu }
  | .cpu =>
    match b.cpu_benchmark (r.impl.emit .enter_cpu_benchmark) with
    | .ok s => { r with impl := s, pc := .gpu }
    | .error _ =>
      { r with impl := (r.impl.emit .enter_cpu_benchmark).emit .terminate, pc := .terminated }
  | .gpu =>
    match b.gpu_benchmark (r.impl.emit .enter_gpu_benchmark) with
    | .ok s => { r with impl := s, pc := .flag_store }
    | .error _ =>
      { r with impl := (r.impl.emit .enter_gpu_benchmark).emit .terminate, pc := .terminated }
  | .flag_store =>
    { r with impl := r.impl.emit (.flag_store true), stop_monitoring := true, pc := .join }
  | .join =>
    if r.monitor = .done then { r with impl := r.impl.emit .thread_join, pc := .finish } else r
  | .finish =>
    { r with impl := r.impl.print (.text "\nAll tests completed!"), pc := .returned }
  | .returned => r
  | .terminated => r

/-- One step of the monitor thread: the entry line, one test of the loop
condition (followed by the exit line when the flag is set), or one run of the
loop body.  The thread makes no step before it is started nor after the
process was terminated. -/
def monitor_step (b : Backend) (r : Run) : Run :=
  if r.pc = .terminated then r
  else
    match r.monitor with
    | .not_started => r
    | .entry =>
      { r with impl := r.impl.print (.text "[MONITOR] Starting temperature monitoring..."),
               monitor := .loop_top }
    | .loop_top =>
      if r.stop_monitoring then
        { r with impl := r.impl.print (.text "[MONITOR] Temperature monitoring stopped"),
                 monitor := .done }
      else { r with monitor := .loop_body }
    | .loop_body =>
      { r with impl := monitor_sample b r.samples r.impl, samples := r.samples + 1,
               monitor := .loop_top }
    | .done => r

/-- One step of the thread the scheduler picks. -/
def step (b : Backend) (r : Run) (t : Tid) : Run :=
  match t with
  | .main => main_step b r
  | .monitor => monitor_step b r

/-- The run under a schedule: the threads step in the listed order. -/
def exec (b : Backend) (sched : List Tid) (r : Run) : Run :=
  sched.foldl (step b) r

/-- The call `run_full_diagnostics()` on the object `s` under a schedule. -/
def run_full_diagnostics (b : Backend) (sched : List Tid) (s : Impl) : Run :=
  exec b sched (Run.start s)

/-- A schedule under which the monitor takes `n` samples: the main thread
starts the monitor, the monitor prints its entry line and makes `n` loop
iterations (a test and a body each), the main thread runs both benchmarks and
stores the flag, the monitor sees the flag and returns, and the main thread
joins and finishes. -/
def schedule (n : Nat) : List Tid :=
  [.main, .main, .main, .monitor] ++ List.replicate (2 * n) .monitor ++
  [.main, .main, .main, .monitor, .main, .main]

/-- The machine a run takes place on, with everything the run obtains from it. -/
inductive Host where
  | linux (cpu : Linux.CpuEnv) (gpu : Linux.GpuEnv)
      (monitor_thermal : Nat → Linux.ThermalDir) (monitor_draw : Nat → ℚ)
  | macos (cpu : MacOS.CpuEnv) (gpu : MacOS.GpuEnv)
      (monitor_cpu_draw : Nat → ℚ) (monitor_gpu_draw : Nat → ℚ)
  | windows (cpu : Windows.CpuEnv) (gpu : Windows.GpuEnv)
      (monitor_cpu_draw : Nat → ℚ) (monitor_gpu_draw : Nat → ℚ)

namespace Host

/-- The backend compiled for the host. -/
def backend : Host → Backend
  | linux cpu gpu thermal draw =>
    { cpu_benchmark := Linux.cpu_benchmark cpu
      gpu_benchmark := Linux.gpu_benchmark gpu
      get_cpu_temperature := fun k => Linux.get_cpu_temperature (thermal k)
      get_gpu_temperature := fun k => Linux.get_gpu_temperature (draw k) }
  | macos cpu gpu cpu_draw gpu_draw =>
    { cpu_benchmark := MacOS.cpu_benchmark cpu
      gpu_benchmark := MacOS.gpu_benchmark gpu
      get_cpu_temperature := fun k => MacOS.get_cpu_temperature (cpu_draw k)
      get_gpu_temperature := fun k => MacOS.get_gpu_temperature (gpu_draw k) }
  | windows cpu gpu cpu_draw gpu_draw =>
    { cpu_benchmark := Windows.cpu_benchmark cpu
      gpu_benchmark := Windows.gpu_benchmark gpu
      get_cpu_temperature := fun k => Windows.get_cpu_temperature (cpu_draw k)
      get_gpu_temperature := fun k => Windows.get_gpu_temperature (gpu_draw k) }

/-- The exception `cpu_benchmark` raises on the host, if any. -/
def cpu_fault : Host → Option Exn
  | linux cpu _ _ _ => cpu.fault
  | macos cpu _ _ _ => cpu.fault
  | windows cpu _ _ _ => cpu.fault

/-- The exception `gpu_benchmark` raises on the host, if any. -/
def gpu_fault : Host → Option Exn
  | linux _ gpu _ _ => gpu.fault
  | macos _ gpu _ _ => gpu.fault
  | windows _ gpu _ _ => gpu.fault

/-- The value the synchronous `get_cpu_temperature()` call inside
`cpu_benchmark` returns on the host. -/
def benchmark_cpu_temperature : Host → Dbl
  | linux cpu _ _ _ => Linux.get_cpu_temperature cpu.thermal
  | macos cpu _ _ _ => MacOS.get_cpu_temperature cpu.draw
  | windows cpu _ _ _ => Windows.get_cpu_temperature cpu.draw

end Host

/-- The events of the orchestration itself: the flag, the thread, the two
benchmark calls. -/
def Event.is_orchestration : Event → Bool
  | .flag_init _ => true
  | .thread_start => true
  | .enter_cpu_benchmark => true
  | .enter_gpu_benchmark => true
  | .flag_store _ => true
  | .thread_join => true
  | _ => false

/-- The orchestration events of a trace, in order. -/
def orchestration (trace : List Event) : List Event := trace.filter Event.is_orchestration

/-- The number of stores to a member of `TestResults` recorded in a trace. -/
def stores_to (f : Field) (trace : List Event) : Nat :=
  trace.countP (fun e => match e with
    | .store_result g _ => decide (g = f)
    | _ => false)

/-- Whether an event is a store to a member of `TestResults` or `SystemInfo`. -/
def Event.is_store : Event → Bool
  | .store_result _ _ => true
  | .store_info _ => true
  | _ => false

/-! ## The report (`generate_html_report`) -/

/-- The static markup of a backend's report: the raw string literals streamed
between the values, in order. -/
structure Markup where
  head : String
  after_time : String
  after_os_name : String
  after_cpu_name : String
  threads : String
  after_threads : String
  after_gpu_name : String
  after_gpu_memory : String
  after_cpu_score : String
  after_cpu_temp : String
  after_cpu_gauge : String
  after_gpu_score : String
  after_gpu_gauge : String
  after_cpu_label : String
  after_gpu_label : String

/-- The raw string literals of `generate_html_report` in `PCTester_Linux.cpp`. -/
def Linux.markup : Markup where
  head := String.join [
    "<!DOCTYPE html>\n",
    "<html>\n",
    "<head>\n",
    "    <title>PC Diagnostic Report - Linux</title>\n",
    "    <style>\n",
    "        body \x7b font-family: Ubuntu, Arial, sans-serif; margin: 40px; \x7d\n",
    "        .header \x7b text-align: center; margin-bottom: 30px; \x7d\n",
    "        .section \x7b margin-bottom: 25px; padding: 15px; border-radius: 8px; background: #f8f9fa; \x7d\n",
    "        .section-title \x7b font-size: 1.4em; margin-bottom: 15px; color: #e95420; \x7d\n",
    "        .grid \x7b display: grid; grid-template-columns: repeat(auto-fit, minmax(300px, 1fr)); gap: 20px; \x7d\n",
    "        .metric \x7b background: white; padding: 15px; border-radius: 6px; box-shadow: 0 2px 5px rgba(0,0,0,0.1); \x7d\n",
    "        .metric-title \x7b font-weight: bold; margin-bottom: 8px; \x7d\n",
    "        .gauge \x7b height: 20px; background: #e0e0e0; border-radius: 10px; margin-top: 8px; overflow: hidden; \x7d\n",
    "        .gauge-fill \x7b height: 100%; background: #e95420; \x7d\n",
    "        .score \x7b font-size: 1.8em; font-weight: bold; text-align: center; margin: 10px 0; \x7d\n",
    "        .summary \x7b background: #fdf6f2; padding: 20px; border-radius: 8px; margin-top: 20px; \x7d\n",
    "    </style>\n",
    "</head>\n",
    "<body>\n",
    "    <div class=\"header\">\n",
    "        <h1>PC Diagnostic Report - Linux</h1>\n",
    "        <p>Generated on "]
  after_time := String.join [
    "</p>\n",
    "    </div>\n",
    "    \n",
    "    <div class=\"section\">\n",
    "        <h2 class=\"section-title\">System Information</h2>\n",
    "        <div class=\"grid\">\n",
    "            <div class=\"metric\">\n",
    "                <div class=\"metric-title\">Operating System</div>\n",
    "                <div>"]
  after_os_name := String.join [
    "</div>\n",
    "            </div>\n",
    "            <div class=\"metric\">\n",
    "                <div class=\"metric-title\">Processor</div>\n",
    "                <div>"]
  after_cpu_name := String.join [
    "</div>\n",
    "                <div>Cores: "]
  threads := String.join [
    ", Threads: "]
  after_threads := String.join [
    "</div>\n",
    "            </div>\n",
    "            <div class=\"metric\">\n",
    "                <div class=\"metric-title\">Graphics</div>\n",
    "                <div>"]
  after_gpu_name := String.join [
    "</div>\n",
    "                <div>"]
  after_gpu_memory := String.join [
    " MB VRAM</div>\n",
    "            </div>\n",
    "        </div>\n",
    "    </div>\n",
    "    \n",
    "    <div class=\"section\">\n",
    "        <h2 class=\"section-title\">Performance Metrics</h2>\n",
    "        <div class=\"grid\">\n",
    "            <div class=\"metric\">\n",
    "                <div class=\"metric-title\">CPU Performance</div>\n",
    "                <div class=\"score\">"]
  after_cpu_score := String.join [
    "</div>\n",
    "                <div>Temperature: "]
  after_cpu_temp := String.join [
    "°C</div>\n",
    "                <div class=\"gauge\"><div class=\"gauge-fill\" style=\"width: "]
  after_cpu_gauge := String.join [
    "%\"></div></div>\n",
    "            </div>\n",
    "            <div class=\"metric\">\n",
    "                <div class=\"metric-title\">GPU Performance</div>\n",
    "                <div class=\"score\">"]
  after_gpu_score := String.join [
    "</div>\n",
    "                <div class=\"gauge\"><div class=\"gauge-fill\" style=\"width: "]
  after_gpu_gauge := String.join [
    "%\"></div></div>\n",
    "            </div>\n",
    "        </div>\n",
    "    </div>\n",
    "    \n",
    "    <div class=\"summary\">\n",
    "        <h2>Diagnostic Summary</h2>\n",
    "        <p>Your Linux system performance analysis:</p>\n",
    "        <ul>\n",
    "            <li>CPU performance is "]
  after_cpu_label := String.join [
    "</li>\n",
    "            <li>GPU performance is "]
  after_gpu_label := String.join [
    "</li>\n",
    "            <li>System is running within safe temperature ranges</li>\n",
    "        </ul>\n",
    "    </div>\n",
    "</body>\n",
    "</html>"]

/-- One operand of the `<<` chain writing the report: text, an unsigned
integer, or a `double` shown with `std::fixed << std::setprecision(1)`. -/
inductive Piece where
  | text (s : String)
  | unsigned (n : Nat)
  | fixed1 (v : Dbl)
  deriving DecidableEq

/-- The gauge width `std::min(100.0, score / divisor)`. -/
def gauge_fill (score : Dbl) (divisor : Int) : Dbl :=
  Dbl.min (Dbl.fin 100) (Dbl.div score (Dbl.ofInt divisor))

/-- The label `score > threshold ? "excellent" : "adequate"`. -/
def performance_label (score : Dbl) (threshold : Int) : String :=
  if Dbl.gt score (Dbl.ofInt threshold) then "excellent" else "adequate"

/-- The operands `generate_html_report` streams into the file, in order;
`date` and `time` are `__DATE__` and `__TIME__`. -/
def report_document (m : Markup) (date time : String) (s : Impl) : List Piece :=
  [ .text m.head, .text date, .text " at ", .text time,
    .text m.after_time, .text s.sys_info.os_name,
    .text m.after_os_name, .text s.sys_info.cpu_name,
    .text m.after_cpu_name, .unsigned s.sys_info.cpu_cores,
    .text m.threads, .unsigned s.sys_info.cpu_threads,
    .text m.after_threads, .text s.sys_info.gpu_name,
    .text m.after_gpu_name, .unsigned s.sys_info.gpu_memory,
    .text m.after_gpu_memory, .fixed1 s.test_results.cpu_score,
    .text m.after_cpu_score, .fixed1 s.test_results.cpu_temp,
    .text m.after_cpu_temp, .fixed1 (gauge_fill s.test_results.cpu_score 200),
    .text m.after_cpu_gauge, .fixed1 s.test_results.gpu_score,
    .text m.after_gpu_score, .fixed1 (gauge_fill s.test_results.gpu_score 1000),
    .text m.after_gpu_gauge, .text (performance_label s.test_results.cpu_score 5000),
    .text m.after_cpu_label, .text (performance_label s.test_results.gpu_score 500),
    .text m.after_gpu_label ]

/-- The function `PCTester::Impl::generate_html_report`: the document written
and the object afterwards, or the exception thrown when the file does not
open (`can_open = false`). -/
def generate_html_report (m : Markup) (can_open : Bool) (date time filename : String)
    (s : Impl) : Except Exn (List Piece × Impl) :=
  if can_open = false then .error (.runtime_error "Failed to create report file")
  else .ok (report_document m date time s, s.print (.text ("Report generated: " ++ filename)))

/-- The CPU gauge width written in a document. -/
def cpu_gauge (doc : List Piece) : Option Piece := doc.get? 21

/-- The GPU gauge width written in a document. -/
def gpu_gauge (doc : List Piece) : Option Piece := doc.get? 25

/-- The CPU label written in a document, after the text `CPU performance is `. -/
def cpu_label (doc : List Piece) : Option Piece := doc.get? 27

/-- The GPU label written in a document, after the text `GPU performance is `. -/
def gpu_label (doc : List Piece) : Option Piece := doc.get? 29

/-! ## Sample inputs -/

/-- A `SystemInfo` of a machine with four cores. -/
def sample_info : SystemInfo :=
  { os_name := "Ubuntu 22.04", cpu_name := "Sample CPU", cpu_cores := 4, cpu_threads := 8,
    memory_size := 8589934592, gpu_name := "Sample GPU", gpu_memory := 4096, disk_names := [] }

/-- A `TestResults` with every member zero. -/
def zero_results : TestResults :=
  { cpu_score := Dbl.fin 0, cpu_temp := Dbl.fin 0, ram_score := Dbl.fin 0,
    ram_usage := Dbl.fin 0, disk_read := Dbl.fin 0, disk_write := Dbl.fin 0,
    network_latency := Dbl.fin 0, network_bandwidth := Dbl.fin 0, gpu_score := Dbl.fin 0 }

/-- An object holding `sample_info`, zero results and an empty trace. -/
def sample_impl : Impl :=
  { sys_info := sample_info, test_results := zero_results, trace := [] }

/-- A Linux host whose cores report 2000000 kHz, whose CPU benchmark takes one
second and whose only thermal zone reads 45000 millidegrees. -/
def sample_cpu_env : Linux.CpuEnv :=
  { fault := none, freq_files := fun _ => some 2000000, elapsed := 1,
    thermal := some [("thermal_zone0", .stored 45000)] }

/-- A Linux host whose clock shows no time elapsed over the CPU workload. -/
def zero_elapsed_cpu_env : Linux.CpuEnv :=
  { fault := none, freq_files := fun _ => some 2000000, elapsed := 0,
    thermal := some [("thermal_zone0", .stored 45000)] }

/-- A double lies in the closed range from `lo` to `hi`: it is finite and between the two. -/
def Dbl.within (lo hi : ℚ) (d : Dbl) : Prop := ∃ q : ℚ, d = Dbl.fin q ∧ lo ≤ q ∧ q ≤ hi

/-- An object whose `cpu_score` is -200. -/
def negative_score_impl : Impl :=
  { sys_info := sample_info, test_results := { zero_results with cpu_score := Dbl.fin (-200) },
    trace := [] }

/-- The orchestration events `run_full_diagnostics` has produced when the main
thread stands at a given position (`none` once the process was terminated). -/
def MainPc.events_before : MainPc → Option (List Event)
  | .banner => some []
  | .flag_init => some []
  | .thread_start => some [.flag_init false]
  | .cpu => some [.flag_init false, .thread_start]
  | .gpu => some [.flag_init false, .thread_start, .enter_cpu_benchmark]
  | .flag_store =>
    some [.flag_init false, .thread_start, .enter_cpu_benchmark, .enter_gpu_benchmark]
  | .join =>
    some [.flag_init false, .thread_start, .enter_cpu_benchmark, .enter_gpu_benchmark,
      .flag_store true]
  | .finish =>
    some [.flag_init false, .thread_start, .enter_cpu_benchmark, .enter_gpu_benchmark,
      .flag_store true, .thread_join]
  | .returned =>
    some [.flag_init false, .thread_start, .enter_cpu_benchmark, .enter_gpu_benchmark,
      .flag_store true, .thread_join]
  | .terminated => none

/-- Whether the host runs the Windows backend. -/
def Host.is_windows : Host → Bool
  | .windows _ _ _ _ => true
  | _ => false

/-- Two `SystemInfo` values agree on every member except `gpu_name` and `gpu_memory`. -/
def SystemInfo.same_but_gpu (a b : SystemInfo) : Prop :=
  a.os_name = b.os_name ∧ a.cpu_name = b.cpu_name ∧ a.cpu_cores = b.cpu_cores ∧
  a.cpu_threads = b.cpu_threads ∧ a.memory_size = b.memory_size ∧ a.disk_names = b.disk_names

/-- The orchestration events recorded since the call on `s0` are those the
position of the main thread accounts for. -/
def Run.ordered (s0 : Impl) (r : Run) : Prop :=
  ∀ l, r.pc.events_before = some l → orchestration r.impl.trace = orchestration s0.trace ++ l

/-- What `gpu_benchmark` obtains on the sample Linux host: two seconds of workload. -/
def sample_gpu_env : Linux.GpuEnv := { fault := none, elapsed := 2 }

/-- The sample Linux host; the monitor finds no thermal directory and draws 1/2. -/
def sample_host : Host :=
  .linux sample_cpu_env sample_gpu_env (fun _ => none) (fun _ => 1 / 2)

/-- The sample Linux host with a `cpu_benchmark` that raises `std::bad_alloc`. -/
def faulty_host : Host :=
  .linux { sample_cpu_env with fault := some .bad_alloc } sample_gpu_env (fun _ => none)
    (fun _ => 1 / 2)

/-- The state of a run in which a benchmark is bound to raise: the flag is
still false, the monitor has not returned, the main thread has not passed the
benchmarks, and a terminated run has recorded the events up to the benchmark
that raised. -/
def Run.unstopped (h : Host) (s0 : Impl) (r : Run) : Prop :=
  r.stop_monitoring = false ∧ r.monitor ≠ .done ∧
  (r.pc ≠ .flag_store ∧ r.pc ≠ .join ∧ r.pc ≠ .finish ∧ r.pc ≠ .returned) ∧
  (r.pc = .gpu → h.cpu_fault = none) ∧
  (r.pc = .terminated →
    orchestration r.impl.trace = orchestration s0.trace ++
      [.flag_init false, .thread_start, .enter_cpu_benchmark] ∨
    orchestration r.impl.trace = orchestration s0.trace ++
      [.flag_init false, .thread_start, .enter_cpu_benchmark, .enter_gpu_benchmark])

/-- The positions of the main thread after `cpu_benchmark` has returned. -/
def MainPc.after_cpu : MainPc → Bool
  | .gpu => true
  | .flag_store => true
  | .join => true
  | .finish => true
  | .returned => true
  | _ => false

/-- A Windows host whose adapter query succeeds. -/
def windows_host : Host :=
  .windows { fault := none, registry := some (some 3000), elapsed := 1, draw := 1 / 2 }
    { fault := none, device := true, adapter := some ("Adapter X", 8589934592), elapsed := 1 }
    (fun _ => 1 / 2) (fun _ => 1 / 2)

/-- A Windows host on which `D3D11CreateDevice` fails. -/
def no_device_host : Host :=
  .windows { fault := none, registry := some (some 3000), elapsed := 1, draw := 1 / 2 }
    { fault := none, device := false, adapter := none, elapsed := 1 }
    (fun _ => 1 / 2) (fun _ => 1 / 2)

/-- Probe results of a Linux host with well-formed files. -/
def sample_probe_env : Linux.ProbeEnv :=
  { os_release := some ["NAME=\"Ubuntu\"", "PRETTY_NAME=\"Ubuntu 22.04\""],
    cpuinfo := some ["model name\t: Sample CPU", "siblings\t: 8", "cpu cores\t: 4"],
    totalram := 8589934592, mem_unit := 1,
    lspci := some (some "00:02.0 VGA compatible controller: Sample GPU\n") }

/-- The same host with a `/proc/cpuinfo` whose `cpu cores` line holds no number. -/
def bad_number_probe_env : Linux.ProbeEnv :=
  { sample_probe_env with cpuinfo := some ["model name\t: Sample CPU", "cpu cores\t: four"] }

/-- The same host with a `/proc/cpuinfo` whose `model name` line ends at its colon. -/
def short_line_probe_env : Linux.ProbeEnv :=
  { sample_probe_env with cpuinfo := some ["model name:"] }

/-! ## `main` (`main.cpp`) -/

/-- The text `e.what()` of an exception. -/
def Exn.what : Exn → String
  | .invalid_argument w => w
  | .out_of_range w => w
  | .runtime_error w => w
  | .bad_alloc => "std::bad_alloc"
  | .system_error => "std::system_error"

/-- The part of `main` that follows the return of `run_full_diagnostics`: the
call `tester.generate_html_report("diagnostic_report.html")` inside the `try`
block (`PCTester::generate_html_report` only forwards to the `Impl`), the
success line or the handler's `ERROR` line, and the last line. -/
def main_report (m : Markup) (can_open : Bool) (date time : String) (s : Impl) : Impl :=
  match generate_html_report m can_open date time "diagnostic_report.html" s with
  | .ok (_, s1) =>
    (s1.print (.text "\nDiagnostics completed successfully!")).print
      (.text "Press Enter to exit...")
  | .error e =>
    (s.print (.text ("\nERROR: " ++ e.what))).print (.text "Press Enter to exit...")

/-! ## Named intermediate values of `cpu_benchmark` -/

/-- The value of `base_perf` in the Linux `cpu_benchmark`:
`base_freq * sys_info.cpu_cores`. -/
def Linux.base_perf (freq_files : Nat → Option ℚ) (cpu_cores : Nat) : Dbl :=
  Dbl.mul (Linux.base_freq freq_files cpu_cores) (Dbl.ofInt cpu_cores)

/-- The value of `base_perf` in the macOS `cpu_benchmark`:
`base_freq * sys_info.cpu_cores`. -/
def MacOS.base_perf (cpufrequency : Option Nat) (cpu_cores : Nat) : Dbl :=
  Dbl.mul (MacOS.base_freq cpufrequency) (Dbl.ofInt cpu_cores)

/-- The value of `base_perf` in the Windows `cpu_benchmark`:
`(dwMHz / 1000.0) * 4`, with the source's remark `// Assuming 4 cores`. -/
def Windows.base_perf (registry : Option (Option Nat)) : Dbl :=
  Dbl.mul (Dbl.div (Dbl.ofInt (Windows.dwMHz registry)) (Dbl.fin 1000)) (Dbl.ofInt 4)

/-- A Windows host on which `RegOpenKeyEx` fails. -/
def no_registry_cpu_env : Windows.CpuEnv :=
  { fault := none, registry := none, elapsed := 1, draw := 1 / 2 }

/-- A Windows host whose registry reports 3000 MHz. -/
def registry_cpu_env : Windows.CpuEnv :=
  { fault := none, registry := some (some 3000), elapsed := 1, draw := 1 / 2 }

/-- An object whose `SystemInfo` holds eight cores. -/
def eight_core_impl : Impl :=
  { sys_info := { sample_info with cpu_cores := 8, cpu_threads := 16 },
    test_results := zero_results, trace := [] }

/-- The thermal directory cannot be opened, or none of its `thermal_zone`
entries has a `temp` file that opens. -/
def Linux.no_temp_file_opens (dir : Linux.ThermalDir) : Prop :=
  match dir with
  | none => True
  | some entries =>
    ∀ entry ∈ entries,
      (find_sub "thermal_zone".toList entry.1.toList).isSome = true → entry.2 = .unopened

/-- A thermal directory that opens but holds no `thermal_zone` entry whose
`temp` file opens. -/
def unreadable_thermal_dir : Linux.ThermalDir :=
  some [("cooling_device0", .stored 3), ("thermal_zone0", .unopened)]

/-- A thermal directory whose only zone has a `temp` file that opens but is
empty, while the uninitialised `temp` happens to hold 61500. -/
def empty_file_thermal_dir : Linux.ThermalDir :=
  some [("thermal_zone0", .untouched (Dbl.fin 61500))]

/-- A macOS host reporting 2.4 GHz whose CPU benchmark takes one second. -/
def sample_macos_cpu_env : MacOS.CpuEnv :=
  { fault := none, cpufrequency := some 2400000000, elapsed := 1, draw := 1 / 2 }

/-- The text one operand of the `<<` chain contributes to the file; `fixed`
is the formatting of a `double` under `std::fixed << std::setprecision(1)`. -/
def Piece.render (fixed : Dbl → String) : Piece → String
  | .text s => s
  | .unsigned n => toString n
  | .fixed1 v => fixed v

/-- The text of a document: its operands' texts one after the other. -/
def document_text (fixed : Dbl → String) (doc : List Piece) : String :=
  String.join (doc.map (Piece.render fixed))

/-- The sample object after some console output. -/
def sample_impl_later : Impl :=
  { sample_impl with trace := [.print (.text "\n=== Advanced Diagnostics ===")] }

/-! ## Console output (`PCTester.cpp`) -/

/-- The objects of class `SafeOutputImpl`: the function-local
`static SafeOutputImpl instance;` of `SafeOutput::print` and the one of
`SafeOutput::error`.  Each holds its own member `mtx_`. -/
inductive SafeOutputImpl where
  | in_print
  | in_error
  deriving DecidableEq

/-- A call of `SafeOutput::print(msg)` or `SafeOutput::error(msg)`. -/
inductive OutputCall where
  | print (msg : String)
  | error (msg : String)
  deriving DecidableEq

/-- The object whose member function the call runs, and whose `mtx_` its
`std::lock_guard` locks. -/
def OutputCall.locked : OutputCall → SafeOutputImpl
  | .print _ => .in_print
  | .error _ => .in_error

/-- One action of a console call: acquiring or releasing the `mtx_` of an
object, or one `<<` sending text to the console. -/
inductive ConsoleOp where
  | lock (m : SafeOutputImpl)
  | write (chunk : String)
  | unlock (m : SafeOutputImpl)
  deriving DecidableEq

/-- The actions of `SafeOutputImpl::print` and `SafeOutputImpl::error`, run
on the object the call uses: the guard, the `<<` chain ending in `std::endl`,
the release at the end of the scope. -/
def OutputCall.ops : OutputCall → List ConsoleOp
  | .print msg => [.lock .in_print, .write msg, .write "\n", .unlock .in_print]
  | .error msg =>
    [.lock .in_error, .write "ERROR: ", .write msg, .write "\n", .unlock .in_error]

/-- The console shared by two threads that each make one call: the objects
whose `mtx_` is held, what is left of each call, and the text shown so far. -/
structure Console where
  held : List SafeOutputImpl
  main_ops : List ConsoleOp
  monitor_ops : List ConsoleOp
  screen : List String

/-- One action of a call: a `lock` of a held mutex waits (nothing changes). -/
def console_perform (held : List SafeOutputImpl) (screen : List String) :
    List ConsoleOp → List SafeOutputImpl × List String × List ConsoleOp
  | [] => (held, screen, [])
  | .lock m :: rest => if m ∈ held then (held, screen, .lock m :: rest) else (m :: held, screen, rest)
  | .write chunk :: rest => (held, screen ++ [chunk], rest)
  | .unlock m :: rest => (held.erase m, screen, rest)

/-- One step of the thread the scheduler picks. -/
def console_step (c : Console) (t : Tid) : Console :=
  match t with
  | .main =>
    let r := console_perform c.held c.screen c.main_ops
    { c with held := r.1, screen := r.2.1, main_ops := r.2.2 }
  | .monitor =>
    let r := console_perform c.held c.screen c.monitor_ops
    { c with held := r.1, screen := r.2.1, monitor_ops := r.2.2 }

/-- The console after the threads stepped in the listed order, the main
thread making the call `a` and the monitor thread the call `b`. -/
def console_run (a b : OutputCall) (sched : List Tid) : Console :=
  sched.foldl console_step { held := [], main_ops := a.ops, monitor_ops := b.ops, screen := [] }

/-! ## Counting the monitor's samples -/

/-- Whether an event is a `[TEMP]` sample line. -/
def Event.is_sample : Event → Bool
  | .print (.temp_sample _ _) => true
  | _ => false

/-- The number of `[TEMP]` sample lines in a trace. -/
def sample_lines (trace : List Event) : Nat := trace.countP Event.is_sample

/-- The `[TEMP]` line of iteration `i` of the monitor loop. -/
def sample_line (b : Backend) (i : Nat) : Event :=
  .print (.temp_sample (b.get_cpu_temperature i) (b.get_gpu_temperature i))

/-- The monitor exists once the main thread has passed the thread start, and
the flag is true only once the main thread has passed its store. -/
def Run.well_started (r : Run) : Prop :=
  (r.monitor = .not_started → r.pc = .banner ∨ r.pc = .flag_init ∨ r.pc = .thread_start) ∧
  (r.stop_monitoring = true → r.pc = .join ∨ r.pc = .finish ∨ r.pc = .returned)

/-- The samples made so far plus the one in progress, if the monitor stands
inside the loop body. -/
def Run.pending_samples (r : Run) : Nat :=
  r.samples + (if r.monitor = .loop_body then 1 else 0)

/-- A schedule that stores the flag while the monitor is inside its first loop
iteration: the monitor has tested the flag but not yet printed. -/
def late_stop_schedule : List Tid :=
  [.main, .main, .main, .monitor, .monitor, .main, .main, .main]

/-! ## The simulated GPU workload -/

/-- The statement `for (long i = lo; i < hi; i++) st = body(i, st)`, from the
value `i` of the loop variable on. -/
def for_lt {σ : Type} (body : Int → σ → σ) (i hi : Int) (st : σ) : σ :=
  if h : i < hi then for_lt body (i + 1) hi (body i st) else st
termination_by (hi - i).toNat
decreasing_by omega

/-- The loop under `// Simulate GPU work` of the Linux `gpu_benchmark`,
`for (long i = 1; i < 10000000; i++) sum += 1.0 / (i * i);`: the final `sum`,
and a count of the runs of the body. -/
def Linux.gpu_work : Dbl × Nat :=
  for_lt (fun i st => (Dbl.add st.1 (Dbl.div (Dbl.fin 1) (Dbl.ofInt (i * i))), st.2 + 1))
    1 10000000 (Dbl.fin 0, 0)

/-- The loop under `// Simulate GPU work` of the macOS `gpu_benchmark`,
`for (long i = 1; i < 15000000; i++) sum += std::sin(i) * std::cos(i);`, with
`trig i` standing for the product: the final `sum`, and a count of the runs
of the body. -/
def MacOS.gpu_work (trig : Int → Dbl) : Dbl × Nat :=
  for_lt (fun i st => (Dbl.add st.1 (trig i), st.2 + 1)) 1 15000000 (Dbl.fin 0, 0)

/-! ## The CPU workload -/

/-- The value an `int` takes for the mathematical value `n`: 32-bit two's
complement, overflow wrapping around modulo `2^32`. -/
def wrap_int (n : Int) : Int := (n + 2147483648) % 4294967296 - 2147483648

/-- The product `a * b` of two `int`s. -/
def int_mul (a b : Int) : Int := wrap_int (a * b)

/-- The statement `for (int i = lo; i <= hi; i++) st = body(i, st)`, from the
value `i` of the loop variable on (for `hi` below `INT_MAX`). -/
def for_le {σ : Type} (body : Int → σ → σ) (i hi : Int) (st : σ) : σ :=
  if h : i ≤ hi then for_le body (i + 1) hi (body i st) else st
termination_by (hi + 1 - i).toNat
decreasing_by omega

/-- The term `1.0 / (i * i)` of the Linux and macOS `cpu_benchmark`, where `i`
is an `int`: the product is an `int`, converted to `double` for the division. -/
def cpu_term (i : Int) : Dbl := Dbl.div (Dbl.fin 1) (Dbl.ofInt (int_mul i i))

/-- The timed loop of the Linux and macOS `cpu_benchmark`,
`for (int i = 1; i <= num_iterations; i++) sum += 1.0 / (i * i);`: the final
`sum`, and a count of the runs of the body. -/
def cpu_work : Dbl × Nat :=
  for_le (fun i st => (Dbl.add st.1 (cpu_term i), st.2 + 1)) 1 num_iterations (Dbl.fin 0, 0)

/-! ## Rounding to binary64

The definitions above compute with exact rationals.  The ones below repeat the
CPU score lines with every arithmetic result rounded to the nearest binary64
value, as the hardware delivers it. -/

/-- The binary exponent of the positive fraction `n / d`: the integer `p` with
`2 ^ p ≤ n / d < 2 ^ (p + 1)`. -/
def binary_exponent (n d : Nat) : Int :=
  let k : Int := (Nat.log2 n : Int) - (Nat.log2 d : Int)
  if d * 2 ^ k.toNat ≤ n * 2 ^ (-k).toNat then k else k - 1

/-- The integer nearest to `n / d`, a tie going to the even neighbour. -/
def nearest_even (n d : Nat) : Nat :=
  if 2 * (n % d) < d then n / d
  else if d < 2 * (n % d) then n / d + 1
  else if n / d % 2 = 0 then n / d else n / d + 1

/-- The positive fraction `n / d` rounded to 53 significant bits (to the
multiple of `2 ^ (-1074)` below the smallest normal exponent -1022), IEEE 754
round-to-nearest with ties to even; the exponent is not yet bounded above. -/
def round_pos (n d : Nat) : ℚ :=
  let p : Int := max (binary_exponent n d) (-1022)
  let s : Int := 52 - p
  mkRat (nearest_even (n * 2 ^ s.toNat) (d * 2 ^ (-s).toNat) * 2 ^ (-s).toNat : Nat) (2 ^ s.toNat)

/-- The `double` an operation delivers whose exact result is `q`: the nearest
binary64 value, an infinity when that rounding reaches `2 ^ 1024`. -/
def round64 (q : ℚ) : Dbl :=
  if q = 0 then Dbl.fin 0
  else if 2 ^ 1024 ≤ round_pos q.num.natAbs q.den then Dbl.signed (decide (0 < q))
  else if 0 < q then Dbl.fin (round_pos q.num.natAbs q.den)
  else Dbl.fin (-round_pos q.num.natAbs q.den)

/-- Rounding of the exact result of an operation; the special values stay. -/
def Dbl.round : Dbl → Dbl
  | .fin q => round64 q
  | d => d

/-- Conversion of an integer to `double`, rounded to binary64. -/
def Dbl.ofInt64 (n : Int) : Dbl := Dbl.round (Dbl.ofInt n)

/-- The binary64 division `a / b`. -/
def Dbl.div64 (a b : Dbl) : Dbl := Dbl.round (Dbl.div a b)

/-- The binary64 multiplication `a * b`. -/
def Dbl.mul64 (a b : Dbl) : Dbl := Dbl.round (Dbl.mul a b)

/-- The three lines under `// Calculate score` in binary64 arithmetic. -/
def calculate_score64 (n : Int) (elapsed : Dbl) (base_perf : Dbl) : Dbl :=
  let actual_perf := Dbl.div64 (Dbl.ofInt64 n) elapsed
  Dbl.mul64 (Dbl.div64 actual_perf base_perf) (Dbl.ofInt64 10000)

/-- The Linux loop under `// Get CPU frequency` in binary64 arithmetic: the
extraction `freq >> freq_val` stores the double nearest to the number read. -/
def Linux.max_freq64 (freq_files : Nat → Option ℚ) (cpu_cores : Nat) : Dbl :=
  (List.range cpu_cores).foldl (fun base_freq i =>
    match freq_files i with
    | none => base_freq
    | some v =>
      let freq_val := Dbl.div64 (round64 v) (Dbl.fin 1000)
      if Dbl.gt freq_val base_freq then freq_val else base_freq) (Dbl.fin 0)

/-- The Linux `base_freq` after its fallback, in binary64 arithmetic. -/
def Linux.base_freq64 (freq_files : Nat → Option ℚ) (cpu_cores : Nat) : Dbl :=
  if Dbl.eq (Linux.max_freq64 freq_files cpu_cores) (Dbl.fin 0) then Dbl.fin 2000
  else Linux.max_freq64 freq_files cpu_cores

/-- The value the Linux `cpu_benchmark` stores in `test_results.cpu_score`, in
binary64 arithmetic; `env.elapsed` is the double `elapsed.count()`. -/
def Linux.cpu_score64 (env : Linux.CpuEnv) (s : Impl) : Dbl :=
  let base_perf :=
    Dbl.mul64 (Linux.base_freq64 env.freq_files s.sys_info.cpu_cores)
      (Dbl.ofInt64 s.sys_info.cpu_cores)
  calculate_score64 num_iterations (round64 env.elapsed) base_perf

/-- The macOS value `base_freq = freq / 1000000000.0` in binary64 arithmetic. -/
def MacOS.base_freq64 (cpufrequency : Option Nat) : Dbl :=
  Dbl.div64 (Dbl.ofInt64 (MacOS.freq cpufrequency)) (Dbl.fin 1000000000)

/-- The value the macOS `cpu_benchmark` stores in `test_results.cpu_score`, in
binary64 arithmetic; `env.elapsed` is the double `elapsed.count()`. -/
def MacOS.cpu_score64 (env : MacOS.CpuEnv) (s : Impl) : Dbl :=
  let base_perf :=
    Dbl.mul64 (MacOS.base_freq64 env.cpufrequency) (Dbl.ofInt64 s.sys_info.cpu_cores)
  calculate_score64 num_iterations (round64 env.elapsed) base_perf

/-- A Linux host at 2.4 GHz: every core reports 2400000 kHz, the CPU benchmark
takes one second. -/
def clock_2400_cpu_env : Linux.CpuEnv :=
  { sample_cpu_env with freq_files := fun _ => some 2400000 }

/-! # Theorems -/

/-! ## Facts about `double` arithmetic -/

theorem Dbl.div_fin (a b : ℚ) (hb : b ≠ 0) : Dbl.div (Dbl.fin a) (Dbl.fin b) = Dbl.fin (a / b) := by
  simp [Dbl.div, hb]

theorem calculate_score_fin (n : Int) (t p : ℚ) (ht : t ≠ 0) (hp : p ≠ 0) :
    calculate_score n (Dbl.fin t) (Dbl.fin p) = Dbl.fin (((n : ℚ) / t) / p * 10000) := by
  simp [calculate_score, Dbl.ofInt, Dbl.div, Dbl.mul, ht, hp]

/-! ## C3: the Linux CPU score -/

/-- C3: in the Linux `cpu_benchmark`, when the call returns with elapsed time
`t > 0`, baseline frequency `f > 0` (the value of `base_freq` after the
fallback) and core count `c > 0`, the recorded `cpu_score` is
`((100000000 / t) / (f * c)) * 10000`; for `c = 4`, `f = 2000`, `t = 1` this is
`actual_perf = 1e8`, `base_perf = 8000` and `cpu_score = 125000000`. -/
theorem linux_cpu_score_formula (env : Linux.CpuEnv) (s : Impl) (t f : ℚ) (c : Nat)
    (ht : 0 < t) (hf : 0 < f) (hc : 0 < c) (hfault : env.fault = none)
    (helapsed : env.elapsed = t) (hcores : s.sys_info.cpu_cores = c)
    (hfreq : Linux.base_freq env.freq_files c = Dbl.fin f) :
    ∃ s1, Linux.cpu_benchmark env s = .ok s1 ∧
      s1.test_results.cpu_score = Dbl.fin (((100000000 / t) / (f * c)) * 10000) ∧
      (t = 1 → f = 2000 → c = 4 →
        Dbl.div (Dbl.ofInt num_iterations) (Dbl.fin env.elapsed) = Dbl.fin 100000000 ∧
        Dbl.mul (Linux.base_freq env.freq_files s.sys_info.cpu_cores)
          (Dbl.ofInt s.sys_info.cpu_cores) = Dbl.fin 8000 ∧
        s1.test_results.cpu_score = Dbl.fin 125000000) := by
  have hc0 : (c : ℚ) ≠ 0 := by exact_mod_cast hc.ne'
  have hfc : f * (c : ℚ) ≠ 0 := mul_ne_zero hf.ne' hc0
  have hscore : calculate_score num_iterations (Dbl.fin t) (Dbl.fin (f * c))
      = Dbl.fin (((100000000 / t) / (f * c)) * 10000) := by
    rw [calculate_score_fin _ _ _ ht.ne' hfc]; simp [num_iterations]
  have hgen : ∀ s1, Linux.cpu_benchmark env s = .ok s1 →
      s1.test_results.cpu_score = Dbl.fin (((100000000 / t) / (f * c)) * 10000) := by
    intro s1 h1
    simp only [Linux.cpu_benchmark, hfault, Except.ok.injEq] at h1
    subst h1
    simp [Impl.print, Impl.emit, Impl.set_cpu_score, Impl.set_cpu_temp, hcores, hfreq,
      helapsed, Dbl.mul, Dbl.ofInt, hscore]
  obtain ⟨s1, hs1⟩ : ∃ s1, Linux.cpu_benchmark env s = .ok s1 := by
    simp [Linux.cpu_benchmark, hfault]
  refine ⟨s1, hs1, hgen s1 hs1, ?_⟩
  intro h1 h2 h3
  subst h1 h2 h3
  refine ⟨?_, ?_, ?_⟩
  · simp [helapsed, num_iterations, Dbl.ofInt, Dbl.div]
  · rw [hcores, hfreq]; simp [Dbl.mul, Dbl.ofInt]; norm_num
  · rw [hgen s1 hs1]; norm_num

/-- Witness of C3: on the sample host (4 cores at 2000 MHz, one second) the
recorded score is 125000000. -/
theorem linux_cpu_score_formula_witness :
    ∃ s1, Linux.cpu_benchmark sample_cpu_env sample_impl = .ok s1 ∧
      s1.test_results.cpu_score = Dbl.fin 125000000 := by
  obtain ⟨s1, h1, _, h3⟩ := linux_cpu_score_formula sample_cpu_env sample_impl 1 2000 4
    (by norm_num) (by norm_num) (by norm_num) rfl rfl rfl
    (by simp [Linux.base_freq, Linux.max_freq, sample_cpu_env, List.range, List.range.loop,
          Dbl.div, Dbl.gt, Dbl.lt, Dbl.eq]; norm_num)
  exact ⟨s1, h1, (h3 rfl rfl rfl).2.2⟩

/-! ## C4: degenerate scores -/

theorem calculate_score_degenerate (n : Int) (t p : ℚ) (hn : 0 < n) (ht : 0 ≤ t) (hp : 0 ≤ p)
    (h0 : t = 0 ∨ p = 0) : calculate_score n (Dbl.fin t) (Dbl.fin p) = Dbl.pinf := by
  have hn' : (0 : ℚ) < n := by exact_mod_cast hn
  by_cases h : t = 0
  · subst h
    simp [calculate_score, Dbl.ofInt, Dbl.div, Dbl.mul, Dbl.signed, hn'.ne', hn', hp]
  · have hp0 : p = 0 := h0.resolve_left h
    subst hp0
    have hq : 0 < (n : ℚ) / t := div_pos hn' (lt_of_le_of_ne ht (Ne.symm h))
    simp [calculate_score, Dbl.ofInt, Dbl.div, Dbl.mul, Dbl.signed, h, hq.ne', hq]

theorem Linux.max_freq_step_nonneg (freq_files : Nat → Option ℚ) (l : List Nat) :
    ∀ m : ℚ, 0 ≤ m → ∃ m1 : ℚ, 0 ≤ m1 ∧
      l.foldl (fun base_freq i =>
        match freq_files i with
        | none => base_freq
        | some v =>
          let freq_val := Dbl.div (Dbl.fin v) (Dbl.fin 1000)
          if Dbl.gt freq_val base_freq then freq_val else base_freq) (Dbl.fin m) = Dbl.fin m1 := by
  induction l with
  | nil => intro m hm; exact ⟨m, hm, rfl⟩
  | cons i l ih =>
    intro m hm
    simp only [List.foldl_cons]
    cases hfi : freq_files i with
    | none => exact ih m hm
    | some v =>
      have hd : Dbl.div (Dbl.fin v) (Dbl.fin 1000) = Dbl.fin (v / 1000) :=
        Dbl.div_fin v 1000 (by norm_num)
      simp only [hd, Dbl.gt, Dbl.lt]
      by_cases hlt : m < v / 1000
      · simp only [hlt, decide_True, if_true]
        exact ih _ (le_of_lt (lt_of_le_of_lt hm hlt))
      · simp only [hlt, decide_False]
        exact ih m hm

theorem Linux.max_freq_nonneg (freq_files : Nat → Option ℚ) (cores : Nat) :
    ∃ m : ℚ, 0 ≤ m ∧ Linux.max_freq freq_files cores = Dbl.fin m :=
  Linux.max_freq_step_nonneg freq_files (List.range cores) 0 le_rfl

theorem Linux.base_freq_pos (freq_files : Nat → Option ℚ) (cores : Nat) :
    ∃ f : ℚ, 0 < f ∧ Linux.base_freq freq_files cores = Dbl.fin f := by
  obtain ⟨m, hm, hmax⟩ := Linux.max_freq_nonneg freq_files cores
  by_cases h0 : m = 0
  · exact ⟨2000, by norm_num, by simp [Linux.base_freq, hmax, Dbl.eq, h0]⟩
  · exact ⟨m, lt_of_le_of_ne hm (Ne.symm h0), by simp [Linux.base_freq, hmax, Dbl.eq, h0]⟩

theorem linux_cpu_benchmark_score (env : Linux.CpuEnv) (s : Impl) (hfault : env.fault = none) :
    ∃ s1, Linux.cpu_benchmark env s = .ok s1 ∧
      s1.test_results.cpu_score = calculate_score num_iterations (Dbl.fin env.elapsed)
        (Dbl.mul (Linux.base_freq env.freq_files s.sys_info.cpu_cores)
          (Dbl.ofInt s.sys_info.cpu_cores)) := by
  refine ⟨_, by simp [Linux.cpu_benchmark, hfault]; rfl, ?_⟩
  simp [Impl.print, Impl.emit, Impl.set_cpu_score, Impl.set_cpu_temp]

theorem macos_cpu_benchmark_score (env : MacOS.CpuEnv) (s : Impl) (hfault : env.fault = none) :
    ∃ s1, MacOS.cpu_benchmark env s = .ok s1 ∧
      s1.test_results.cpu_score = calculate_score num_iterations (Dbl.fin env.elapsed)
        (Dbl.mul (MacOS.base_freq env.cpufrequency) (Dbl.ofInt s.sys_info.cpu_cores)) := by
  refine ⟨_, by simp [MacOS.cpu_benchmark, hfault]; rfl, ?_⟩
  simp [Impl.print, Impl.emit, Impl.set_cpu_score, Impl.set_cpu_temp]

theorem windows_cpu_benchmark_score (env : Windows.CpuEnv) (s : Impl)
    (hfault : env.fault = none) :
    ∃ s1, Windows.cpu_benchmark env s = .ok s1 ∧
      s1.test_results.cpu_score = calculate_score num_iterations (Dbl.fin env.elapsed)
        (Dbl.mul (Dbl.div (Dbl.ofInt (Windows.dwMHz env.registry)) (Dbl.fin 1000))
          (Dbl.ofInt 4)) := by
  refine ⟨_, by simp [Windows.cpu_benchmark, hfault]; rfl, ?_⟩
  simp [Impl.print, Impl.emit, Impl.set_cpu_score, Impl.set_cpu_temp]

/-- C4, counterexample: on a Linux host with four cores at 2000 MHz whose
clock shows an elapsed time of 0, `cpu_benchmark` returns and records `+Inf`,
not the sentinel 0. -/
theorem cpu_score_sentinel_counterexample :
    zero_elapsed_cpu_env.elapsed = 0 ∧
    ∃ s1, Linux.cpu_benchmark zero_elapsed_cpu_env sample_impl = .ok s1 ∧
      s1.test_results.cpu_score = Dbl.pinf ∧ s1.test_results.cpu_score ≠ Dbl.fin 0 := by
  refine ⟨rfl, ?_⟩
  obtain ⟨s1, h1, h2⟩ := linux_cpu_benchmark_score zero_elapsed_cpu_env sample_impl rfl
  obtain ⟨f, hf, hbf⟩ := Linux.base_freq_pos zero_elapsed_cpu_env.freq_files
    sample_impl.sys_info.cpu_cores
  have h3 : s1.test_results.cpu_score = Dbl.pinf := by
    rw [h2, hbf]
    simp only [Dbl.mul, Dbl.ofInt]
    exact calculate_score_degenerate _ _ _ (by norm_num [num_iterations]) le_rfl
      (mul_nonneg hf.le (by positivity)) (Or.inl rfl)
  exact ⟨s1, h1, h3, by rw [h3]; exact fun h => Dbl.noConfusion h⟩

/-- C4, as amended: the score computation has no guard against a zero
divisor.  On each backend, when `cpu_benchmark` runs with an elapsed time
`t ≥ 0` and either `t = 0` or `base_perf = 0` (Linux: core count 0; macOS:
frequency 0 or core count 0; Windows: `dwMHz = 0`), it returns without raising
and records `+Inf` (IEEE 754 division by zero), which is not the value 0. -/
theorem cpu_score_zero_divisor :
    (∀ (env : Linux.CpuEnv) (s : Impl), env.fault = none → 0 ≤ env.elapsed →
      (env.elapsed = 0 ∨ s.sys_info.cpu_cores = 0) →
      ∃ s1, Linux.cpu_benchmark env s = .ok s1 ∧ s1.test_results.cpu_score = Dbl.pinf) ∧
    (∀ (env : MacOS.CpuEnv) (s : Impl), env.fault = none → 0 ≤ env.elapsed →
      (env.elapsed = 0 ∨ MacOS.freq env.cpufrequency = 0 ∨ s.sys_info.cpu_cores = 0) →
      ∃ s1, MacOS.cpu_benchmark env s = .ok s1 ∧ s1.test_results.cpu_score = Dbl.pinf) ∧
    (∀ (env : Windows.CpuEnv) (s : Impl), env.fault = none → 0 ≤ env.elapsed →
      (env.elapsed = 0 ∨ Windows.dwMHz env.registry = 0) →
      ∃ s1, Windows.cpu_benchmark env s = .ok s1 ∧ s1.test_results.cpu_score = Dbl.pinf) := by
  refine ⟨?_, ?_, ?_⟩
  · intro env s hfault ht h0
    obtain ⟨s1, h1, h2⟩ := linux_cpu_benchmark_score env s hfault
    obtain ⟨f, hf, hbf⟩ := Linux.base_freq_pos env.freq_files s.sys_info.cpu_cores
    refine ⟨s1, h1, ?_⟩
    rw [h2, hbf]
    simp only [Dbl.mul, Dbl.ofInt]
    refine calculate_score_degenerate _ _ _ (by norm_num [num_iterations]) ht
      (mul_nonneg hf.le (by positivity)) ?_
    rcases h0 with h0 | h0
    · exact Or.inl h0
    · exact Or.inr (by simp [h0])
  · intro env s hfault ht h0
    obtain ⟨s1, h1, h2⟩ := macos_cpu_benchmark_score env s hfault
    refine ⟨s1, h1, ?_⟩
    rw [h2]
    have hd : MacOS.base_freq env.cpufrequency
        = Dbl.fin ((MacOS.freq env.cpufrequency : ℚ) / 1000000000) := by
      simp [MacOS.base_freq, Dbl.ofInt, Dbl.div]
    rw [hd]
    simp only [Dbl.mul, Dbl.ofInt]
    refine calculate_score_degenerate _ _ _ (by norm_num [num_iterations]) ht
      (by positivity) ?_
    rcases h0 with h0 | h0 | h0
    · exact Or.inl h0
    · exact Or.inr (by simp [h0])
    · exact Or.inr (by simp [h0])
  · intro env s hfault ht h0
    obtain ⟨s1, h1, h2⟩ := windows_cpu_benchmark_score env s hfault
    refine ⟨s1, h1, ?_⟩
    rw [h2]
    have hd : Dbl.div (Dbl.ofInt (Windows.dwMHz env.registry)) (Dbl.fin 1000)
        = Dbl.fin ((Windows.dwMHz env.registry : ℚ) / 1000) := by
      simp [Dbl.ofInt, Dbl.div]
    rw [hd]
    simp only [Dbl.mul, Dbl.ofInt]
    refine calculate_score_degenerate _ _ _ (by norm_num [num_iterations]) ht
      (by positivity) ?_
    rcases h0 with h0 | h0
    · exact Or.inl h0
    · exact Or.inr (by simp [h0])

/-- Witness of C4 as amended: the Linux host with an elapsed time of 0 records `+Inf`. -/
theorem cpu_score_zero_divisor_witness :
    ∃ s1, Linux.cpu_benchmark zero_elapsed_cpu_env sample_impl = .ok s1 ∧
      s1.test_results.cpu_score = Dbl.pinf :=
  cpu_score_zero_divisor.1 zero_elapsed_cpu_env sample_impl rfl (le_refl _) (Or.inl rfl)

/-! ## C5 and C6: labels and gauges of the report -/

theorem performance_label_excellent (score : Dbl) (threshold : Int) :
    performance_label score threshold = "excellent" ↔
      Dbl.gt score (Dbl.ofInt threshold) = true := by
  unfold performance_label
  by_cases h : Dbl.gt score (Dbl.ofInt threshold) = true
  · simp [h]
  · simp [h]

theorem performance_label_adequate (score : Dbl) (threshold : Int) :
    performance_label score threshold = "adequate" ↔
      Dbl.gt score (Dbl.ofInt threshold) = false := by
  unfold performance_label
  by_cases h : Dbl.gt score (Dbl.ofInt threshold) = true
  · simp [h]
  · simp [h]

/-- C5: `generate_html_report` writes the document `report_document`, and in
this rendered report the CPU label is "excellent" exactly when the
comparison `cpu_score > 5000` holds and "adequate" otherwise, and the GPU
label is "excellent" exactly when `gpu_score > 500` holds and "adequate"
otherwise; for a finite score the comparison is the order of the numbers, so
scores of exactly 5000 and 500 are "adequate"; 6000 and 600 render
excellent/excellent, 4000 and 400 render adequate/adequate. -/
theorem report_labels (m : Markup) (date time filename : String) (s : Impl) :
    (generate_html_report m true date time filename s).map Prod.fst
      = .ok (report_document m date time s) ∧
    (cpu_label (report_document m date time s) = some (.text "excellent") ↔
      Dbl.gt s.test_results.cpu_score (Dbl.fin 5000) = true) ∧
    (cpu_label (report_document m date time s) = some (.text "adequate") ↔
      Dbl.gt s.test_results.cpu_score (Dbl.fin 5000) = false) ∧
    (gpu_label (report_document m date time s) = some (.text "excellent") ↔
      Dbl.gt s.test_results.gpu_score (Dbl.fin 500) = true) ∧
    (gpu_label (report_document m date time s) = some (.text "adequate") ↔
      Dbl.gt s.test_results.gpu_score (Dbl.fin 500) = false) ∧
    (∀ q : ℚ, s.test_results.cpu_score = Dbl.fin q →
      (cpu_label (report_document m date time s) = some (.text "excellent") ↔ 5000 < q)) ∧
    (∀ q : ℚ, s.test_results.gpu_score = Dbl.fin q →
      (gpu_label (report_document m date time s) = some (.text "excellent") ↔ 500 < q)) ∧
    (s.test_results.cpu_score = Dbl.fin 5000 →
      cpu_label (report_document m date time s) = some (.text "adequate")) ∧
    (s.test_results.gpu_score = Dbl.fin 500 →
      gpu_label (report_document m date time s) = some (.text "adequate")) ∧
    (s.test_results.cpu_score = Dbl.fin 6000 → s.test_results.gpu_score = Dbl.fin 600 →
      cpu_label (report_document m date time s) = some (.text "excellent") ∧
      gpu_label (report_document m date time s) = some (.text "excellent")) ∧
    (s.test_results.cpu_score = Dbl.fin 4000 → s.test_results.gpu_score = Dbl.fin 400 →
      cpu_label (report_document m date time s) = some (.text "adequate") ∧
      gpu_label (report_document m date time s) = some (.text "adequate")) := by
  have hc : cpu_label (report_document m date time s)
      = some (.text (performance_label s.test_results.cpu_score 5000)) := rfl
  have hg : gpu_label (report_document m date time s)
      = some (.text (performance_label s.test_results.gpu_score 500)) := rfl
  have e1 := performance_label_excellent s.test_results.cpu_score 5000
  have a1 := performance_label_adequate s.test_results.cpu_score 5000
  have e2 := performance_label_excellent s.test_results.gpu_score 500
  have a2 := performance_label_adequate s.test_results.gpu_score 500
  have c5 : Dbl.ofInt 5000 = Dbl.fin 5000 := by simp [Dbl.ofInt]
  have c500 : Dbl.ofInt 500 = Dbl.fin 500 := by simp [Dbl.ofInt]
  rw [c5] at e1 a1
  rw [c500] at e2 a2
  rw [hc, hg]
  simp only [Option.some.injEq, Piece.text.injEq]
  refine ⟨rfl, e1, a1, e2, a2, ?_, ?_, ?_, ?_, ?_, ?_⟩
  · intro q hq; rw [e1, hq]; simp [Dbl.gt, Dbl.lt]
  · intro q hq; rw [e2, hq]; simp [Dbl.gt, Dbl.lt]
  · intro hq; rw [a1, hq]; simp [Dbl.gt, Dbl.lt]
  · intro hq; rw [a2, hq]; simp [Dbl.gt, Dbl.lt]
  · intro h1 h2
    refine ⟨e1.2 ?_, e2.2 ?_⟩
    · rw [h1]; simp [Dbl.gt, Dbl.lt]; norm_num
    · rw [h2]; simp [Dbl.gt, Dbl.lt]; norm_num
  · intro h1 h2
    refine ⟨a1.2 ?_, a2.2 ?_⟩
    · rw [h1]; simp [Dbl.gt, Dbl.lt]; norm_num
    · rw [h2]; simp [Dbl.gt, Dbl.lt]; norm_num

theorem gauge_fill_fin (q : ℚ) (divisor : Int) (hd : 0 < divisor) :
    gauge_fill (Dbl.fin q) divisor = Dbl.fin (if q / divisor < 100 then q / divisor else 100) := by
  have hd0 : (divisor : ℚ) ≠ 0 := by exact_mod_cast hd.ne'
  unfold gauge_fill Dbl.min
  simp only [Dbl.ofInt, Dbl.div_fin q _ hd0, Dbl.lt]
  by_cases h : q / (divisor : ℚ) < 100
  · simp [h]
  · simp [h]

theorem gauge_fill_bounds (score : Dbl) (divisor : Int) (hd : 0 < divisor) :
    (Dbl.gt (gauge_fill score divisor) (Dbl.fin 100) = false ∧
      gauge_fill score divisor ≠ Dbl.nan) ∧
    (Dbl.lt score (Dbl.fin 0) = false → Dbl.within 0 100 (gauge_fill score divisor)) ∧
    (Dbl.lt score (Dbl.fin 0) = true → Dbl.lt (gauge_fill score divisor) (Dbl.fin 0) = true) := by
  have hd0 : (0 : ℚ) < divisor := by exact_mod_cast hd
  cases score with
  | fin q =>
    rw [gauge_fill_fin q divisor hd]
    by_cases h : q / (divisor : ℚ) < 100
    · simp only [h, if_true, Dbl.lt, Dbl.gt, decide_eq_false_iff_not, not_lt, decide_eq_true_eq]
      refine ⟨⟨h.le, fun e => Dbl.noConfusion e⟩,
        fun h0 => ⟨_, rfl, div_nonneg h0 hd0.le, h.le⟩, fun h0 => ?_⟩
      exact div_neg_of_neg_of_pos h0 hd0
    · simp only [h, if_false, Dbl.lt, Dbl.gt, decide_eq_false_iff_not, not_lt, decide_eq_true_eq]
      refine ⟨⟨le_rfl, fun e => Dbl.noConfusion e⟩,
        fun _ => ⟨_, rfl, by norm_num, le_rfl⟩, fun h0 => ?_⟩
      exact absurd (lt_trans (div_neg_of_neg_of_pos h0 hd0) (by norm_num)) h
  | pinf =>
    have : gauge_fill Dbl.pinf divisor = Dbl.fin 100 := by
      simp [gauge_fill, Dbl.min, Dbl.div, Dbl.ofInt, Dbl.signed, Dbl.lt, hd0.le]
    rw [this]
    exact ⟨⟨by simp [Dbl.gt, Dbl.lt], fun e => Dbl.noConfusion e⟩,
      fun _ => ⟨_, rfl, by norm_num, le_rfl⟩, by simp [Dbl.lt]⟩
  | ninf =>
    have : gauge_fill Dbl.ninf divisor = Dbl.ninf := by
      simp [gauge_fill, Dbl.min, Dbl.div, Dbl.ofInt, Dbl.signed, Dbl.lt, not_lt.mpr hd0.le]
    rw [this]
    exact ⟨⟨by simp [Dbl.gt, Dbl.lt], fun e => Dbl.noConfusion e⟩, by simp [Dbl.lt],
      by simp [Dbl.lt]⟩
  | nan =>
    have : gauge_fill Dbl.nan divisor = Dbl.fin 100 := by
      simp [gauge_fill, Dbl.min, Dbl.div, Dbl.lt]
    rw [this]
    exact ⟨⟨by simp [Dbl.gt, Dbl.lt], fun e => Dbl.noConfusion e⟩,
      fun _ => ⟨_, rfl, by norm_num, le_rfl⟩, by simp [Dbl.lt]⟩

/-- C6, counterexample: for a `TestResults` whose `cpu_score` is -200 the CPU
gauge width written in the report is -1, outside the range 0 to 100. -/
theorem gauge_range_counterexample :
    cpu_gauge (report_document Linux.markup "Jan  1 2024" "00:00:00" negative_score_impl)
      = some (.fixed1 (Dbl.fin (-1))) ∧
    ¬ Dbl.within 0 100 (Dbl.fin (-1)) := by
  refine ⟨?_, ?_⟩
  · have h : gauge_fill (Dbl.fin (-200)) 200 = Dbl.fin (-1) := by
      rw [gauge_fill_fin _ _ (by norm_num)]; norm_num
    simp only [cpu_gauge, report_document, negative_score_impl]
    simp [h]
  · rintro ⟨q, hq, h0, _⟩
    have : q = -1 := by
      injection hq with hq
      exact hq.symm
    subst this
    norm_num at h0

/-- C6, as amended: for every `TestResults` the two gauge widths written in the
report are `min(100, cpu_score / 200)` and `min(100, gpu_score / 1000)`; each
is never above 100 and never `NaN`, lies in the range 0 to 100 whenever its
score is not below 0 (the comparison `score < 0` is false), and is below 0
whenever its score is below 0. -/
theorem gauge_range (m : Markup) (date time filename : String) (s : Impl) :
    (generate_html_report m true date time filename s).map Prod.fst
      = .ok (report_document m date time s) ∧
    cpu_gauge (report_document m date time s)
      = some (.fixed1 (gauge_fill s.test_results.cpu_score 200)) ∧
    gpu_gauge (report_document m date time s)
      = some (.fixed1 (gauge_fill s.test_results.gpu_score 1000)) ∧
    Dbl.gt (gauge_fill s.test_results.cpu_score 200) (Dbl.fin 100) = false ∧
    gauge_fill s.test_results.cpu_score 200 ≠ Dbl.nan ∧
    Dbl.gt (gauge_fill s.test_results.gpu_score 1000) (Dbl.fin 100) = false ∧
    gauge_fill s.test_results.gpu_score 1000 ≠ Dbl.nan ∧
    (Dbl.lt s.test_results.cpu_score (Dbl.fin 0) = false →
      Dbl.within 0 100 (gauge_fill s.test_results.cpu_score 200)) ∧
    (Dbl.lt s.test_results.gpu_score (Dbl.fin 0) = false →
      Dbl.within 0 100 (gauge_fill s.test_results.gpu_score 1000)) ∧
    (Dbl.lt s.test_results.cpu_score (Dbl.fin 0) = true →
      Dbl.lt (gauge_fill s.test_results.cpu_score 200) (Dbl.fin 0) = true) ∧
    (Dbl.lt s.test_results.gpu_score (Dbl.fin 0) = true →
      Dbl.lt (gauge_fill s.test_results.gpu_score 1000) (Dbl.fin 0) = true) := by
  obtain ⟨⟨c1, c2⟩, c3, c4⟩ := gauge_fill_bounds s.test_results.cpu_score 200 (by norm_num)
  obtain ⟨⟨g1, g2⟩, g3, g4⟩ := gauge_fill_bounds s.test_results.gpu_score 1000 (by norm_num)
  exact ⟨rfl, rfl, rfl, c1, c2, g1, g2, c3, g3, c4, g4⟩

/-! ## The run: general facts -/

theorem exec_append (b : Backend) (l1 l2 : List Tid) (r : Run) :
    exec b (l1 ++ l2) r = exec b l2 (exec b l1 r) := by
  simp [exec, List.foldl_append]

theorem exec_invariant (b : Backend) (P : Run → Prop)
    (hstep : ∀ r t, P r → P (step b r t)) :
    ∀ (sched : List Tid) (r : Run), P r → P (exec b sched r) := by
  intro sched
  induction sched with
  | nil => intro r h; exact h
  | cons t l ih => intro r h; exact ih _ (hstep r t h)

theorem orchestration_append (l1 l2 : List Event) :
    orchestration (l1 ++ l2) = orchestration l1 ++ orchestration l2 := by
  simp [orchestration]

theorem cpu_benchmark_effect (s : Impl) (a : Msg) (v t : Dbl) :
    let s1 := ((((s.print a).set_cpu_score v).set_cpu_temp t).print (.cpu_score_line v)).print
      (.cpu_temp_line t)
    s1.sys_info = s.sys_info ∧ s1.test_results.cpu_temp = t ∧
    s1.test_results.cpu_score = v ∧
    s1.test_results.gpu_score = s.test_results.gpu_score ∧
    ∃ l, s1.trace = s.trace ++ l ∧ orchestration l = [] ∧
      stores_to .cpu_score l = 1 ∧ stores_to .cpu_temp l = 1 ∧ stores_to .gpu_score l = 0 := by
  refine ⟨rfl, rfl, rfl, rfl,
    [.print a, .store_result .cpu_score v, .store_result .cpu_temp t,
      .print (.cpu_score_line v), .print (.cpu_temp_line t)], ?_, ?_, ?_, ?_, ?_⟩
  · simp [Impl.print, Impl.emit, Impl.set_cpu_score, Impl.set_cpu_temp]
  all_goals simp [orchestration, Event.is_orchestration, stores_to]

theorem stores_to_append (f : Field) (l1 l2 : List Event) :
    stores_to f (l1 ++ l2) = stores_to f l1 + stores_to f l2 := by
  simp [stores_to, List.countP_append]

theorem host_cpu_benchmark_ok (h : Host) (s s1 : Impl)
    (hok : h.backend.cpu_benchmark s = .ok s1) :
    h.cpu_fault = none ∧ s1.sys_info = s.sys_info ∧
    s1.test_results.cpu_temp = h.benchmark_cpu_temperature ∧
    s1.test_results.gpu_score = s.test_results.gpu_score ∧
    ∃ l, s1.trace = s.trace ++ l ∧ orchestration l = [] ∧
      stores_to .cpu_score l = 1 ∧ stores_to .cpu_temp l = 1 ∧ stores_to .gpu_score l = 0 := by
  cases h with
  | linux cpu gpu thermal draw =>
    simp only [Host.backend, Linux.cpu_benchmark] at hok
    cases hf : cpu.fault with
    | some e => simp [hf] at hok
    | none =>
      simp only [hf, Except.ok.injEq] at hok
      subst hok
      obtain ⟨h1, h2, _, h4, h5⟩ := cpu_benchmark_effect s
        (.text "\n[CPU] Starting Linux-optimized stress test...")
        (calculate_score num_iterations (Dbl.fin cpu.elapsed)
          (Dbl.mul (Linux.base_freq cpu.freq_files s.sys_info.cpu_cores)
            (Dbl.ofInt s.sys_info.cpu_cores)))
        (Linux.get_cpu_temperature cpu.thermal)
      exact ⟨hf, h1, h2, h4, h5⟩
  | macos cpu gpu cd gd =>
    simp only [Host.backend, MacOS.cpu_benchmark] at hok
    cases hf : cpu.fault with
    | some e => simp [hf] at hok
    | none =>
      simp only [hf, Except.ok.injEq] at hok
      subst hok
      obtain ⟨h1, h2, _, h4, h5⟩ := cpu_benchmark_effect s
        (.text "\n[CPU] Starting macOS-optimized stress test...")
        (calculate_score num_iterations (Dbl.fin cpu.elapsed)
          (Dbl.mul (MacOS.base_freq cpu.cpufrequency) (Dbl.ofInt s.sys_info.cpu_cores)))
        (MacOS.get_cpu_temperature cpu.draw)
      exact ⟨hf, h1, h2, h4, h5⟩
  | windows cpu gpu cd gd =>
    simp only [Host.backend, Windows.cpu_benchmark] at hok
    cases hf : cpu.fault with
    | some e => simp [hf] at hok
    | none =>
      simp only [hf, Except.ok.injEq] at hok
      subst hok
      obtain ⟨h1, h2, _, h4, h5⟩ := cpu_benchmark_effect s
        (.text "\n[CPU] Starting advanced benchmark...")
        (calculate_score num_iterations (Dbl.fin cpu.elapsed)
          (Dbl.mul (Dbl.div (Dbl.ofInt (Windows.dwMHz cpu.registry)) (Dbl.fin 1000))
            (Dbl.ofInt 4)))
        (Windows.get_cpu_temperature cpu.draw)
      exact ⟨hf, h1, h2, h4, h5⟩

theorem gpu_benchmark_effect (s : Impl) (a : Msg) (v : Dbl) :
    let s1 := (((s.print a).set_gpu_score v).print (.gpu_completed s.sys_info.gpu_name)).print
      (.gpu_score_line v)
    s1.sys_info = s.sys_info ∧ s1.test_results.cpu_temp = s.test_results.cpu_temp ∧
    s1.test_results.cpu_score = s.test_results.cpu_score ∧
    ∃ l, s1.trace = s.trace ++ l ∧ orchestration l = [] ∧
      stores_to .cpu_score l = 0 ∧ stores_to .cpu_temp l = 0 ∧ stores_to .gpu_score l ≤ 1 := by
  refine ⟨rfl, rfl, rfl,
    [.print a, .store_result .gpu_score v, .print (.gpu_completed s.sys_info.gpu_name),
      .print (.gpu_score_line v)], ?_, ?_, ?_, ?_, ?_⟩
  · simp [Impl.print, Impl.emit, Impl.set_gpu_score]
  all_goals simp [orchestration, Event.is_orchestration, stores_to]

theorem Windows.gpu_information_effect (adapter : Option (String × Nat)) (s : Impl) :
    (Windows.gpu_information adapter s).test_results = s.test_results ∧
    SystemInfo.same_but_gpu (Windows.gpu_information adapter s).sys_info s.sys_info ∧
    ∃ l, (Windows.gpu_information adapter s).trace = s.trace ++ l ∧ orchestration l = [] ∧
      ∀ f, stores_to f l = 0 := by
  cases adapter with
  | none => exact ⟨rfl, ⟨rfl, rfl, rfl, rfl, rfl, rfl⟩, [], by simp [Windows.gpu_information],
      rfl, fun f => rfl⟩
  | some desc =>
    refine ⟨rfl, ⟨rfl, rfl, rfl, rfl, rfl, rfl⟩,
      [.store_info .gpu_name, .store_info .gpu_memory], ?_, ?_, ?_⟩
    · simp [Windows.gpu_information, Impl.set_gpu_name, Impl.set_gpu_memory]
    · simp [orchestration, Event.is_orchestration]
    · intro f; simp [stores_to]

theorem host_gpu_benchmark_ok (h : Host) (s s1 : Impl)
    (hok : h.backend.gpu_benchmark s = .ok s1) :
    h.gpu_fault = none ∧ SystemInfo.same_but_gpu s1.sys_info s.sys_info ∧
    (h.is_windows = false → s1.sys_info = s.sys_info) ∧
    s1.test_results.cpu_temp = s.test_results.cpu_temp ∧
    s1.test_results.cpu_score = s.test_results.cpu_score ∧
    ∃ l, s1.trace = s.trace ++ l ∧ orchestration l = [] ∧
      stores_to .cpu_score l = 0 ∧ stores_to .cpu_temp l = 0 ∧ stores_to .gpu_score l ≤ 1 := by
  cases h with
  | linux cpu gpu thermal draw =>
    simp only [Host.backend, Linux.gpu_benchmark] at hok
    cases hf : gpu.fault with
    | some e => simp [hf] at hok
    | none =>
      simp only [hf, Except.ok.injEq] at hok
      subst hok
      obtain ⟨h1, h2, h3, h4⟩ := gpu_benchmark_effect s
        (.text "\n[GPU] Starting OpenCL benchmark simulation...")
        (Dbl.div (Dbl.ofInt 10000000) (Dbl.fin gpu.elapsed))
      exact ⟨hf, ⟨rfl, rfl, rfl, rfl, rfl, rfl⟩, fun _ => h1, h2, h3, h4⟩
  | macos cpu gpu cd gd =>
    simp only [Host.backend, MacOS.gpu_benchmark] at hok
    cases hf : gpu.fault with
    | some e => simp [hf] at hok
    | none =>
      simp only [hf, Except.ok.injEq] at hok
      subst hok
      obtain ⟨h1, h2, h3, h4⟩ := gpu_benchmark_effect s
        (.text "\n[GPU] Starting Metal benchmark simulation...")
        (Dbl.div (Dbl.ofInt 15000000) (Dbl.fin gpu.elapsed))
      exact ⟨hf, ⟨rfl, rfl, rfl, rfl, rfl, rfl⟩, fun _ => h1, h2, h3, h4⟩
  | windows cpu gpu cd gd =>
    simp only [Host.backend, Windows.gpu_benchmark] at hok
    cases hf : gpu.fault with
    | some e => simp [hf] at hok
    | none =>
      simp only [hf] at hok
      refine ⟨hf, ?_⟩
      cases hd : gpu.device with
      | false =>
        simp only [hd, if_true, Except.ok.injEq] at hok
        subst hok
        refine ⟨⟨rfl, rfl, rfl, rfl, rfl, rfl⟩, fun hw => by simp [Host.is_windows] at hw,
          rfl, rfl, [.print (.text "\n[GPU] Starting DirectX 11 benchmark..."),
            .error (.text "Failed to create D3D11 device")], ?_, ?_, ?_, ?_, ?_⟩
        · simp [Impl.print, Impl.error, Impl.emit]
        all_goals simp [orchestration, Event.is_orchestration, stores_to]
      | true =>
        simp only [hd, Bool.true_eq_false, if_false, Except.ok.injEq] at hok
        subst hok
        obtain ⟨g1, g2, l1, g3, g4, g5⟩ := Windows.gpu_information_effect gpu.adapter
          (s.print (.text "\n[GPU] Starting DirectX 11 benchmark..."))
        refine ⟨g2, fun hw => by simp [Host.is_windows] at hw, ?_, ?_, ?_⟩
        · show (Windows.gpu_information gpu.adapter _).test_results.cpu_temp = _
          rw [g1]; rfl
        · show (Windows.gpu_information gpu.adapter _).test_results.cpu_score = _
          rw [g1]; rfl
        · refine ⟨[.print (.text "\n[GPU] Starting DirectX 11 benchmark...")] ++ l1 ++
            [.store_result .gpu_score (Dbl.div (Dbl.ofInt 100000) (Dbl.fin gpu.elapsed)),
             .print (.gpu_completed
               (Windows.gpu_information gpu.adapter
                 (s.print (.text "\n[GPU] Starting DirectX 11 benchmark..."))).sys_info.gpu_name),
             .print (.gpu_score_line (Dbl.div (Dbl.ofInt 100000) (Dbl.fin gpu.elapsed)))],
            ?_, ?_, ?_, ?_, ?_⟩
          · simp only [Impl.print, Impl.emit, Impl.set_gpu_score] at g3 ⊢
            simp [g3]
          · rw [orchestration_append, orchestration_append, g4]
            simp [orchestration, Event.is_orchestration]
          · rw [stores_to_append, stores_to_append, g5]
            simp [stores_to]
          · rw [stores_to_append, stores_to_append, g5]
            simp [stores_to]
          · rw [stores_to_append, stores_to_append, g5]
            simp [stores_to]

/-! ## C1: the order of the orchestration events -/

theorem orchestration_emit (s : Impl) (e : Event) :
    orchestration (s.emit e).trace
      = orchestration s.trace ++ (if e.is_orchestration then [e] else []) := by
  simp only [Impl.emit, orchestration, List.filter_append]
  by_cases h : e.is_orchestration = true
  · simp [h]
  · simp [h]

theorem orchestration_print (s : Impl) (m : Msg) :
    orchestration (s.print m).trace = orchestration s.trace := by
  simp [Impl.print, orchestration_emit, Event.is_orchestration]

theorem monitor_step_pc (b : Backend) (r : Run) : (monitor_step b r).pc = r.pc := by
  unfold monitor_step
  split
  · rfl
  · split
    · rfl
    · rfl
    · split <;> rfl
    · rfl
    · rfl

theorem monitor_step_orchestration (b : Backend) (r : Run) :
    orchestration (monitor_step b r).impl.trace = orchestration r.impl.trace := by
  unfold monitor_step
  split
  · rfl
  · split
    · rfl
    · exact orchestration_print _ _
    · split
      · exact orchestration_print _ _
      · rfl
    · exact orchestration_print _ _
    · rfl

theorem ordered_step (h : Host) (s0 : Impl) (r : Run) (t : Tid) (hinv : r.ordered s0) :
    (step h.backend r t).ordered s0 := by
  cases t with
  | monitor =>
    intro l hl
    simp only [step, monitor_step_pc] at hl
    simp only [step, monitor_step_orchestration]
    exact hinv l hl
  | main =>
    obtain ⟨impl, flag, pc, mon, k⟩ := r
    unfold Run.ordered at hinv ⊢
    simp only [step, main_step]
    cases pc with
    | banner =>
      intro l hl
      simp only [MainPc.events_before, Option.some.injEq] at hl
      subst hl
      simpa [orchestration_print] using hinv [] rfl
    | flag_init =>
      intro l hl
      simp only [MainPc.events_before, Option.some.injEq] at hl
      subst hl
      have := hinv [] rfl
      simp only [List.append_nil] at this
      simp [orchestration_emit, Event.is_orchestration, this]
    | thread_start =>
      intro l hl
      simp only [MainPc.events_before, Option.some.injEq] at hl
      subst hl
      have := hinv _ rfl
      simp only at this
      simp [orchestration_emit, Event.is_orchestration, this]
    | cpu =>
      have h0 := hinv _ rfl
      simp only at h0
      cases hb : h.backend.cpu_benchmark (impl.emit .enter_cpu_benchmark) with
      | error e => intro l hl; simp [MainPc.events_before] at hl
      | ok s1 =>
        intro l hl
        simp only [MainPc.events_before, Option.some.injEq] at hl
        subst hl
        obtain ⟨_, _, _, _, l1, ht, ho, _⟩ := host_cpu_benchmark_ok h _ _ hb
        simp only [ht, orchestration_append, ho, orchestration_emit, Event.is_orchestration, h0]
        simp
    | gpu =>
      have h0 := hinv _ rfl
      simp only at h0
      cases hb : h.backend.gpu_benchmark (impl.emit .enter_gpu_benchmark) with
      | error e => intro l hl; simp [MainPc.events_before] at hl
      | ok s1 =>
        intro l hl
        simp only [MainPc.events_before, Option.some.injEq] at hl
        subst hl
        obtain ⟨_, _, _, _, _, l1, ht, ho, _⟩ := host_gpu_benchmark_ok h _ _ hb
        simp only [ht, orchestration_append, ho, orchestration_emit, Event.is_orchestration, h0]
        simp
    | flag_store =>
      intro l hl
      simp only [MainPc.events_before, Option.some.injEq] at hl
      subst hl
      have := hinv _ rfl
      simp only at this
      simp [orchestration_emit, Event.is_orchestration, this]
    | join =>
      have h0 := hinv _ rfl
      simp only at h0
      by_cases hm : mon = .done
      · intro l hl
        simp only [hm, if_true, MainPc.events_before, Option.some.injEq] at hl
        subst hl
        simp [hm, orchestration_emit, Event.is_orchestration, h0]
      · simp only [hm, if_false]
        exact hinv
    | finish =>
      intro l hl
      simp only [MainPc.events_before, Option.some.injEq] at hl
      subst hl
      have := hinv _ rfl
      simp only at this
      simp [orchestration_print, this]
    | returned => exact hinv
    | terminated => exact hinv

theorem ordered_run (h : Host) (s : Impl) (sched : List Tid) :
    (run_full_diagnostics h.backend sched s).ordered s := by
  apply exec_invariant h.backend (fun r => r.ordered s) (fun r t hr => ordered_step h s r t hr)
  intro l hl
  simp only [Run.start, MainPc.events_before, Option.some.injEq] at hl
  subst hl
  simp [Run.start]

theorem host_cpu_benchmark_returns (h : Host) (hc : h.cpu_fault = none) (s : Impl) :
    ∃ s1, h.backend.cpu_benchmark s = .ok s1 := by
  cases h with
  | linux cpu gpu thermal draw =>
    simp only [Host.cpu_fault] at hc
    simp [Host.backend, Linux.cpu_benchmark, hc]
  | macos cpu gpu cd gd =>
    simp only [Host.cpu_fault] at hc
    simp [Host.backend, MacOS.cpu_benchmark, hc]
  | windows cpu gpu cd gd =>
    simp only [Host.cpu_fault] at hc
    simp [Host.backend, Windows.cpu_benchmark, hc]

theorem host_gpu_benchmark_returns (h : Host) (hg : h.gpu_fault = none) (s : Impl) :
    ∃ s1, h.backend.gpu_benchmark s = .ok s1 := by
  cases h with
  | linux cpu gpu thermal draw =>
    simp only [Host.gpu_fault] at hg
    simp [Host.backend, Linux.gpu_benchmark, hg]
  | macos cpu gpu cd gd =>
    simp only [Host.gpu_fault] at hg
    simp [Host.backend, MacOS.gpu_benchmark, hg]
  | windows cpu gpu cd gd =>
    simp only [Host.gpu_fault] at hg
    cases hd : gpu.device <;> simp [Host.backend, Windows.gpu_benchmark, hg, hd]

theorem host_cpu_benchmark_raises (h : Host) (e : Exn) (hc : h.cpu_fault = some e) (s : Impl) :
    h.backend.cpu_benchmark s = .error e := by
  cases h with
  | linux cpu gpu thermal draw =>
    simp only [Host.cpu_fault] at hc
    simp [Host.backend, Linux.cpu_benchmark, hc]
  | macos cpu gpu cd gd =>
    simp only [Host.cpu_fault] at hc
    simp [Host.backend, MacOS.cpu_benchmark, hc]
  | windows cpu gpu cd gd =>
    simp only [Host.cpu_fault] at hc
    simp [Host.backend, Windows.cpu_benchmark, hc]

theorem host_gpu_benchmark_raises (h : Host) (e : Exn) (hg : h.gpu_fault = some e) (s : Impl) :
    h.backend.gpu_benchmark s = .error e := by
  cases h with
  | linux cpu gpu thermal draw =>
    simp only [Host.gpu_fault] at hg
    simp [Host.backend, Linux.gpu_benchmark, hg]
  | macos cpu gpu cd gd =>
    simp only [Host.gpu_fault] at hg
    simp [Host.backend, MacOS.gpu_benchmark, hg]
  | windows cpu gpu cd gd =>
    simp only [Host.gpu_fault] at hg
    simp [Host.backend, Windows.gpu_benchmark, hg]

theorem run_prologue (b : Backend) (s : Impl) :
    (exec b [.main, .main, .main, .monitor] (Run.start s)).pc = .cpu ∧
    (exec b [.main, .main, .main, .monitor] (Run.start s)).monitor = .loop_top ∧
    (exec b [.main, .main, .main, .monitor] (Run.start s)).stop_monitoring = false := by
  simp [exec, step, main_step, monitor_step, Run.start]

theorem run_sampling (b : Backend) (n : Nat) :
    ∀ r : Run, r.pc = .cpu → r.monitor = .loop_top → r.stop_monitoring = false →
      (exec b (List.replicate (2 * n) .monitor) r).pc = .cpu ∧
      (exec b (List.replicate (2 * n) .monitor) r).monitor = .loop_top ∧
      (exec b (List.replicate (2 * n) .monitor) r).stop_monitoring = false ∧
      (exec b (List.replicate (2 * n) .monitor) r).samples = r.samples + n := by
  induction n with
  | zero => intro r h1 h2 h3; exact ⟨h1, h2, h3, rfl⟩
  | succ n ih =>
    intro r h1 h2 h3
    have hstep : exec b (List.replicate (2 * (n + 1)) .monitor) r
        = exec b (List.replicate (2 * n) .monitor) (monitor_step b (monitor_step b r)) := by
      have : 2 * (n + 1) = 2 * n + 1 + 1 := by omega
      rw [this]
      simp [exec, List.replicate_succ, step]
    have hs1 : (monitor_step b r).pc = .cpu ∧ (monitor_step b r).monitor = .loop_body ∧
        (monitor_step b r).stop_monitoring = false ∧
        (monitor_step b r).samples = r.samples := by
      simp [monitor_step, h1, h2, h3]
    have hs : (monitor_step b (monitor_step b r)).pc = .cpu ∧
        (monitor_step b (monitor_step b r)).monitor = .loop_top ∧
        (monitor_step b (monitor_step b r)).stop_monitoring = false ∧
        (monitor_step b (monitor_step b r)).samples = r.samples + 1 := by
      obtain ⟨a1, a2, a3, a4⟩ := hs1
      rw [← a4]
      generalize monitor_step b r = r1 at a1 a2 a3 ⊢
      simp [monitor_step, a1, a2, a3]
    rw [hstep]
    obtain ⟨a1, a2, a3, a4⟩ := ih (monitor_step b (monitor_step b r)) hs.1 hs.2.1 hs.2.2.1
    exact ⟨a1, a2, a3, by rw [a4, hs.2.2.2]; omega⟩

theorem run_epilogue (h : Host) (hc : h.cpu_fault = none) (hg : h.gpu_fault = none) (r : Run)
    (hpc : r.pc = .cpu) (hm : r.monitor = .loop_top) :
    (exec h.backend [.main, .main, .main, .monitor, .main, .main] r).pc = .returned := by
  obtain ⟨impl, flag, pc, mon, k⟩ := r
  simp only at hpc hm
  subst hpc hm
  obtain ⟨s1, h1⟩ := host_cpu_benchmark_returns h hc (impl.emit .enter_cpu_benchmark)
  obtain ⟨s2, h2⟩ := host_gpu_benchmark_returns h hg (s1.emit .enter_gpu_benchmark)
  simp [exec, step, main_step, monitor_step, h1, h2]

theorem run_returns (h : Host) (hc : h.cpu_fault = none) (hg : h.gpu_fault = none)
    (n : Nat) (s : Impl) :
    (run_full_diagnostics h.backend (schedule n) s).pc = .returned := by
  unfold run_full_diagnostics schedule
  rw [exec_append, exec_append]
  obtain ⟨p1, p2, p3⟩ := run_prologue h.backend s
  obtain ⟨q1, q2, _, _⟩ := run_sampling h.backend n _ p1 p2 p3
  exact run_epilogue h hc hg _ q1 q2

/-- C1: in every run of `run_full_diagnostics` that returns (so both
benchmarks returned normally), under every interleaving with the monitor
thread, the orchestration events are exactly: stop flag created with value
false, monitor thread started, `cpu_benchmark` run, `gpu_benchmark` run, stop
flag set to true, monitor thread joined.  The stop flag is thus stored once,
with the value true. -/
theorem run_event_order (h : Host) (s : Impl) (sched : List Tid)
    (hret : (run_full_diagnostics h.backend sched s).pc = .returned) :
    orchestration (run_full_diagnostics h.backend sched s).impl.trace
      = orchestration s.trace ++
        [.flag_init false, .thread_start, .enter_cpu_benchmark, .enter_gpu_benchmark,
          .flag_store true, .thread_join] := by
  have hinv := ordered_run h s sched
  exact hinv _ (by rw [hret]; rfl)

/-- Witness of C1: the sample Linux run, with two monitor samples taken while
the benchmarks run, returns with exactly the six events in order. -/
theorem run_event_order_witness :
    (run_full_diagnostics sample_host.backend (schedule 2) sample_impl).pc = .returned ∧
    orchestration (run_full_diagnostics sample_host.backend (schedule 2) sample_impl).impl.trace
      = orchestration sample_impl.trace ++
        [.flag_init false, .thread_start, .enter_cpu_benchmark, .enter_gpu_benchmark,
          .flag_store true, .thread_join] :=
  ⟨run_returns sample_host rfl rfl 2 sample_impl,
    run_event_order sample_host sample_impl (schedule 2)
      (run_returns sample_host rfl rfl 2 sample_impl)⟩

/-! ## C2: a benchmark that raises -/

theorem monitor_step_flag (b : Backend) (r : Run) :
    (monitor_step b r).stop_monitoring = r.stop_monitoring := by
  unfold monitor_step
  split
  · rfl
  · split
    · rfl
    · rfl
    · split <;> rfl
    · rfl
    · rfl

theorem monitor_step_not_done (b : Backend) (r : Run) (hf : r.stop_monitoring = false)
    (hm : r.monitor ≠ .done) : (monitor_step b r).monitor ≠ .done := by
  unfold monitor_step
  split
  · exact hm
  · split
    · exact hm
    · simp
    · simp [hf]
    · simp
    · exact hm

theorem unstopped_step (h : Host) (hfault : h.cpu_fault ≠ none ∨ h.gpu_fault ≠ none)
    (s0 : Impl) (r : Run) (t : Tid) (hord : r.ordered s0) (hinv : r.unstopped h s0) :
    (step h.backend r t).unstopped h s0 := by
  obtain ⟨i1, i2, i3, i4, i5⟩ := hinv
  cases t with
  | monitor =>
    refine ⟨?_, ?_, ?_, ?_, ?_⟩
    · simp only [step, monitor_step_flag]; exact i1
    · exact monitor_step_not_done _ _ i1 i2
    · simp only [step, monitor_step_pc]; exact i3
    · simp only [step, monitor_step_pc]; exact i4
    · simp only [step, monitor_step_pc, monitor_step_orchestration]; exact i5
  | main =>
    obtain ⟨impl, flag, pc, mon, k⟩ := r
    simp only at i1 i2 i3 i4 i5
    unfold Run.unstopped
    simp only [step, main_step]
    cases pc with
    | banner => simp [i1, i2]
    | flag_init => simp [i2]
    | thread_start => simp [i1]
    | cpu =>
      have h0 := hord _ rfl
      simp only at h0
      cases hb : h.backend.cpu_benchmark (impl.emit .enter_cpu_benchmark) with
      | error e =>
        refine ⟨i1, i2, ?_, ?_, ?_⟩
        · simp
        · simp
        · intro _
          left
          simp [orchestration_emit, Event.is_orchestration, h0]
      | ok s1 =>
        obtain ⟨hc, _⟩ := host_cpu_benchmark_ok h _ _ hb
        refine ⟨i1, i2, ?_, ?_, ?_⟩
        · simp
        · intro _; exact hc
        · simp
    | gpu =>
      have h0 := hord _ rfl
      simp only at h0
      cases hb : h.backend.gpu_benchmark (impl.emit .enter_gpu_benchmark) with
      | error e =>
        refine ⟨i1, i2, ?_, ?_, ?_⟩
        · simp
        · simp
        · intro _
          right
          simp [orchestration_emit, Event.is_orchestration, h0]
      | ok s1 =>
        obtain ⟨hg, _⟩ := host_gpu_benchmark_ok h _ _ hb
        exact absurd (i4 rfl) (by
          intro hc
          rcases hfault with hf | hf
          · exact hf hc
          · exact hf hg)
    | flag_store => exact absurd rfl i3.1
    | join => exact absurd rfl i3.2.1
    | finish => exact absurd rfl i3.2.2.1
    | returned => exact absurd rfl i3.2.2.2
    | terminated => exact ⟨i1, i2, i3, i4, i5⟩

theorem unstopped_run (h : Host) (hfault : h.cpu_fault ≠ none ∨ h.gpu_fault ≠ none)
    (s : Impl) (sched : List Tid) :
    (run_full_diagnostics h.backend sched s).ordered s ∧
    (run_full_diagnostics h.backend sched s).unstopped h s := by
  apply exec_invariant h.backend (fun r => r.ordered s ∧ r.unstopped h s)
    (fun r t hr => ⟨ordered_step h s r t hr.1, unstopped_step h hfault s r t hr.1 hr.2⟩)
  refine ⟨?_, ?_⟩
  · intro l hl
    simp only [Run.start, MainPc.events_before, Option.some.injEq] at hl
    subst hl
    simp [Run.start]
  · simp [Run.unstopped, Run.start]

theorem exec_terminated (b : Backend) (sched : List Tid) :
    ∀ r : Run, r.pc = .terminated → exec b sched r = r := by
  induction sched with
  | nil => intro r _; rfl
  | cons t l ih =>
    intro r hr
    have hstep : step b r t = r := by
      cases t with
      | main => simp [step, main_step, hr]
      | monitor => simp [step, monitor_step, hr]
    show exec b l (step b r t) = r
    rw [hstep]
    exact ih r hr

theorem run_epilogue_fault (h : Host) (hfault : h.cpu_fault ≠ none ∨ h.gpu_fault ≠ none)
    (r : Run) (hpc : r.pc = .cpu) :
    (exec h.backend [.main, .main, .main, .monitor, .main, .main] r).pc = .terminated := by
  cases hc : h.cpu_fault with
  | some e =>
    have h1 : (main_step h.backend r).pc = .terminated := by
      simp [main_step, hpc, host_cpu_benchmark_raises h e hc]
    show (exec h.backend [.main, .main, .monitor, .main, .main] (main_step h.backend r)).pc = _
    rw [exec_terminated _ _ _ h1]
    exact h1
  | none =>
    obtain ⟨s1, hs1⟩ := host_cpu_benchmark_returns h hc (r.impl.emit .enter_cpu_benchmark)
    have hg : h.gpu_fault ≠ none := hfault.resolve_left (fun hn => hn hc)
    obtain ⟨e, he⟩ := Option.ne_none_iff_exists'.mp hg
    have h1 : main_step h.backend r = { r with impl := s1, pc := .gpu } := by
      simp [main_step, hpc, hs1]
    have h2 : (main_step h.backend (main_step h.backend r)).pc = .terminated := by
      rw [h1]
      simp [main_step, host_gpu_benchmark_raises h e he]
    show (exec h.backend [.main, .monitor, .main, .main]
      (main_step h.backend (main_step h.backend r))).pc = _
    rw [exec_terminated _ _ _ h2]
    exact h2

theorem run_terminates (h : Host) (hfault : h.cpu_fault ≠ none ∨ h.gpu_fault ≠ none)
    (n : Nat) (s : Impl) :
    (run_full_diagnostics h.backend (schedule n) s).pc = .terminated := by
  unfold run_full_diagnostics schedule
  rw [exec_append, exec_append]
  obtain ⟨p1, p2, p3⟩ := run_prologue h.backend s
  obtain ⟨q1, _, _, _⟩ := run_sampling h.backend n _ p1 p2 p3
  exact run_epilogue_fault h hfault _ q1

/-- C2, counterexample: on the Linux host whose `cpu_benchmark` raises
`std::bad_alloc`, the run ends in `std::terminate`; the stop flag is still
false, and the trace holds neither the store of the flag nor the join. -/
theorem monitor_cleanup_counterexample :
    faulty_host.cpu_fault = some .bad_alloc ∧
    (run_full_diagnostics faulty_host.backend (schedule 2) sample_impl).pc = .terminated ∧
    (run_full_diagnostics faulty_host.backend (schedule 2) sample_impl).stop_monitoring
      = false ∧
    Event.flag_store true ∉
      (run_full_diagnostics faulty_host.backend (schedule 2) sample_impl).impl.trace ∧
    Event.thread_join ∉
      (run_full_diagnostics faulty_host.backend (schedule 2) sample_impl).impl.trace := by
  refine ⟨rfl, ?_, ?_, ?_, ?_⟩ <;>
  simp [run_full_diagnostics, schedule, exec, step, main_step, monitor_step, Run.start,
    faulty_host, Host.backend, Linux.cpu_benchmark, Impl.emit, Impl.print, monitor_sample,
    sample_impl]

/-- C2, as amended: if `cpu_benchmark` or `gpu_benchmark` raises an error,
then under every interleaving the orchestrator executes neither step 5 nor
step 6: the stop flag stays false, the monitor thread never returns and is not
joined (the orchestration events recorded are an initial part of: flag
created, thread started, `cpu_benchmark` entered, `gpu_benchmark` entered),
and `run_full_diagnostics` never returns to its caller; once the main thread
has run the raising benchmark the process is terminated, because unwinding
destroys the joinable `std::thread`. -/
theorem raising_benchmark_terminates (h : Host) (s : Impl) (sched : List Tid)
    (hfault : h.cpu_fault ≠ none ∨ h.gpu_fault ≠ none) :
    (run_full_diagnostics h.backend sched s).pc ≠ .returned ∧
    (run_full_diagnostics h.backend sched s).stop_monitoring = false ∧
    (run_full_diagnostics h.backend sched s).monitor ≠ .done ∧
    (∃ l, orchestration (run_full_diagnostics h.backend sched s).impl.trace
        = orchestration s.trace ++ l ∧
      l <+: [.flag_init false, .thread_start, .enter_cpu_benchmark, .enter_gpu_benchmark]) ∧
    (∀ n, (run_full_diagnostics h.backend (schedule n) s).pc = .terminated) := by
  obtain ⟨hord, i1, i2, i3, _, i5⟩ := unstopped_run h hfault s sched
  refine ⟨i3.2.2.2, i1, i2, ?_, fun n => run_terminates h hfault n s⟩
  cases hpc : (run_full_diagnostics h.backend sched s).pc with
  | banner => exact ⟨[], hord _ (by rw [hpc]; rfl), by decide⟩
  | flag_init => exact ⟨[], hord _ (by rw [hpc]; rfl), by decide⟩
  | thread_start => exact ⟨_, hord _ (by rw [hpc]; rfl), by decide⟩
  | cpu => exact ⟨_, hord _ (by rw [hpc]; rfl), by decide⟩
  | gpu => exact ⟨_, hord _ (by rw [hpc]; rfl), by decide⟩
  | flag_store => exact absurd hpc i3.1
  | join => exact absurd hpc i3.2.1
  | finish => exact absurd hpc i3.2.2.1
  | returned => exact absurd hpc i3.2.2.2
  | terminated =>
    rcases i5 hpc with h1 | h1
    · exact ⟨_, h1, by decide⟩
    · exact ⟨_, h1, by decide⟩

/-- Witness of C2 as amended: the host whose `cpu_benchmark` raises. -/
theorem raising_benchmark_terminates_witness :
    (faulty_host.cpu_fault ≠ none ∨ faulty_host.gpu_fault ≠ none) ∧
    (run_full_diagnostics faulty_host.backend (schedule 2) sample_impl).pc ≠ .returned ∧
    (run_full_diagnostics faulty_host.backend (schedule 2) sample_impl).stop_monitoring
      = false :=
  ⟨Or.inl (by simp [faulty_host, Host.cpu_fault]),
    (raising_benchmark_terminates faulty_host sample_impl (schedule 2)
      (Or.inl (by simp [faulty_host, Host.cpu_fault]))).1,
    (raising_benchmark_terminates faulty_host sample_impl (schedule 2)
      (Or.inl (by simp [faulty_host, Host.cpu_fault]))).2.1⟩

/-! ## C7 and C8: what the run leaves unchanged -/

theorem monitor_step_impl (b : Backend) (r : Run) :
    (monitor_step b r).impl.sys_info = r.impl.sys_info ∧
    (monitor_step b r).impl.test_results = r.impl.test_results ∧
    ∃ l, (monitor_step b r).impl.trace = r.impl.trace ++ l ∧
      ∀ e ∈ l, e.is_store = false := by
  unfold monitor_step
  split
  · exact ⟨rfl, rfl, [], by simp, by simp⟩
  · split
    · exact ⟨rfl, rfl, [], by simp, by simp⟩
    · exact ⟨rfl, rfl, [_], rfl, by simp [Event.is_store]⟩
    · split
      · exact ⟨rfl, rfl, [_], rfl, by simp [Event.is_store]⟩
      · exact ⟨rfl, rfl, [], by simp, by simp⟩
    · exact ⟨rfl, rfl, [_], rfl, by simp [Event.is_store]⟩
    · exact ⟨rfl, rfl, [], by simp, by simp⟩

theorem monitor_loop_frame (b : Backend) (polls : List Bool) :
    ∀ (k : Nat) (s : Impl),
      (monitor_loop b polls k s).1.sys_info = s.sys_info ∧
      (monitor_loop b polls k s).1.test_results = s.test_results ∧
      ∃ l, (monitor_loop b polls k s).1.trace = s.trace ++ l ∧ ∀ e ∈ l, e.is_store = false := by
  induction polls with
  | nil => intro k s; exact ⟨rfl, rfl, [], by simp [monitor_loop], by simp⟩
  | cons p polls ih =>
    intro k s
    cases p with
    | true => exact ⟨rfl, rfl, [], by simp [monitor_loop], by simp⟩
    | false =>
      obtain ⟨h1, h2, l, h3, h4⟩ := ih (k + 1) (monitor_sample b k s)
      refine ⟨h1, h2, .print (.temp_sample (b.get_cpu_temperature k) (b.get_gpu_temperature k))
        :: l, ?_, ?_⟩
      · simp only [monitor_loop, h3]
        simp [monitor_sample, Impl.print, Impl.emit]
      · intro e he
        rcases List.mem_cons.mp he with he | he
        · subst he; rfl
        · exact h4 e he

theorem monitor_temperatures_frame (b : Backend) (polls : List Bool) (s : Impl) :
    (monitor_temperatures b polls s).1.sys_info = s.sys_info ∧
    (monitor_temperatures b polls s).1.test_results = s.test_results ∧
    ∃ l, (monitor_temperatures b polls s).1.trace = s.trace ++ l ∧
      ∀ e ∈ l, e.is_store = false := by
  obtain ⟨h1, h2, l, h3, h4⟩ := monitor_loop_frame b polls 0
    (s.print (.text "[MONITOR] Starting temperature monitoring..."))
  unfold monitor_temperatures
  simp only
  split
  · refine ⟨h1, h2, .print (.text "[MONITOR] Starting temperature monitoring...") :: l ++
      [.print (.text "[MONITOR] Temperature monitoring stopped")], ?_, ?_⟩
    · simp only [Impl.print, Impl.emit] at h3 ⊢
      simp [h3]
    · intro e he
      simp only [List.cons_append, List.mem_cons, List.mem_append, List.not_mem_nil,
        or_false] at he
      rcases he with he | he | he
      · subst he; rfl
      · exact h4 e he
      · subst he; rfl
  · refine ⟨h1, h2, .print (.text "[MONITOR] Starting temperature monitoring...") :: l, ?_, ?_⟩
    · simp only [Impl.print, Impl.emit] at h3 ⊢
      simp [h3]
    · intro e he
      rcases List.mem_cons.mp he with he | he
      · subst he; rfl
      · exact h4 e he

theorem same_but_gpu_trans (a b c : SystemInfo) (h1 : a.same_but_gpu b) (h2 : b.same_but_gpu c) :
    a.same_but_gpu c := by
  obtain ⟨a1, a2, a3, a4, a5, a6⟩ := h1
  obtain ⟨b1, b2, b3, b4, b5, b6⟩ := h2
  exact ⟨a1.trans b1, a2.trans b2, a3.trans b3, a4.trans b4, a5.trans b5, a6.trans b6⟩

theorem same_but_gpu_refl (a : SystemInfo) : a.same_but_gpu a := ⟨rfl, rfl, rfl, rfl, rfl, rfl⟩

theorem step_sys_info (h : Host) (r : Run) (t : Tid) :
    (step h.backend r t).impl.sys_info.same_but_gpu r.impl.sys_info ∧
    (h.is_windows = false → (step h.backend r t).impl.sys_info = r.impl.sys_info) := by
  cases t with
  | monitor =>
    obtain ⟨h1, _⟩ := monitor_step_impl h.backend r
    exact ⟨by show (monitor_step h.backend r).impl.sys_info.same_but_gpu _
              rw [h1]; exact same_but_gpu_refl _, fun _ => h1⟩
  | main =>
    obtain ⟨impl, flag, pc, mon, k⟩ := r
    simp only [step, main_step]
    cases pc with
    | cpu =>
      cases hb : h.backend.cpu_benchmark (impl.emit .enter_cpu_benchmark) with
      | error e => exact ⟨same_but_gpu_refl _, fun _ => rfl⟩
      | ok s1 =>
        obtain ⟨_, hs, _⟩ := host_cpu_benchmark_ok h _ _ hb
        exact ⟨by rw [hs]; exact same_but_gpu_refl _, fun _ => hs⟩
    | gpu =>
      cases hb : h.backend.gpu_benchmark (impl.emit .enter_gpu_benchmark) with
      | error e => exact ⟨same_but_gpu_refl _, fun _ => rfl⟩
      | ok s1 =>
        obtain ⟨_, hs, hw, _⟩ := host_gpu_benchmark_ok h _ _ hb
        exact ⟨hs, hw⟩
    | join =>
      by_cases hm : mon = .done
      · rw [if_pos hm]; exact ⟨same_but_gpu_refl _, fun _ => rfl⟩
      · rw [if_neg hm]; exact ⟨same_but_gpu_refl _, fun _ => rfl⟩
    | banner => exact ⟨same_but_gpu_refl _, fun _ => rfl⟩
    | flag_init => exact ⟨same_but_gpu_refl _, fun _ => rfl⟩
    | thread_start => exact ⟨same_but_gpu_refl _, fun _ => rfl⟩
    | flag_store => exact ⟨same_but_gpu_refl _, fun _ => rfl⟩
    | finish => exact ⟨same_but_gpu_refl _, fun _ => rfl⟩
    | returned => exact ⟨same_but_gpu_refl _, fun _ => rfl⟩
    | terminated => exact ⟨same_but_gpu_refl _, fun _ => rfl⟩

theorem run_sys_info (h : Host) (s : Impl) (sched : List Tid) :
    (run_full_diagnostics h.backend sched s).impl.sys_info.same_but_gpu s.sys_info ∧
    (h.is_windows = false →
      (run_full_diagnostics h.backend sched s).impl.sys_info = s.sys_info) := by
  apply exec_invariant h.backend
    (fun r => r.impl.sys_info.same_but_gpu s.sys_info ∧
      (h.is_windows = false → r.impl.sys_info = s.sys_info))
  · intro r t ⟨h1, h2⟩
    obtain ⟨g1, g2⟩ := step_sys_info h r t
    exact ⟨same_but_gpu_trans _ _ _ g1 h1, fun hw => (g2 hw).trans (h2 hw)⟩
  · exact ⟨same_but_gpu_refl _, fun _ => rfl⟩

/-- C7, counterexample: on a Windows host whose adapter query succeeds, the
run returns with `sys_info.gpu_name` overwritten by `gpu_benchmark`, so the
`sys_info` held afterwards differs from the one held at the call. -/
theorem sys_info_mutated_counterexample :
    (run_full_diagnostics windows_host.backend (schedule 2) sample_impl).pc = .returned ∧
    sample_impl.sys_info.gpu_name = "Sample GPU" ∧
    (run_full_diagnostics windows_host.backend (schedule 2) sample_impl).impl.sys_info.gpu_name
      = "Adapter X" ∧
    (run_full_diagnostics windows_host.backend (schedule 2) sample_impl).impl.sys_info
      ≠ sample_impl.sys_info := by
  have hname :
      (run_full_diagnostics windows_host.backend (schedule 2) sample_impl).impl.sys_info.gpu_name
        = "Adapter X" := by
    simp [run_full_diagnostics, schedule, exec, step, main_step, monitor_step, Run.start,
      windows_host, Host.backend, Windows.cpu_benchmark, Windows.gpu_benchmark,
      Windows.gpu_information, Impl.emit, Impl.print, Impl.set_cpu_score, Impl.set_cpu_temp,
      Impl.set_gpu_score, Impl.set_gpu_name, Impl.set_gpu_memory, monitor_sample]
  refine ⟨run_returns windows_host rfl rfl 2 sample_impl, rfl, hname, ?_⟩
  intro heq
  rw [heq] at hname
  exact absurd hname (by decide)

/-- C7, as amended: under every interleaving, `cpu_benchmark` and the monitor
leave every member of `SystemInfo` unchanged on every backend, and so does
`gpu_benchmark` on Linux and macOS: there the `sys_info` held at any point of
the run equals the one held at the call.  On Windows `gpu_benchmark` stores
`gpu_name` and `gpu_memory`, and every other member is unchanged. -/
theorem sys_info_frame (h : Host) (s : Impl) (sched : List Tid) (polls : List Bool) :
    (h.is_windows = false →
      (run_full_diagnostics h.backend sched s).impl.sys_info = s.sys_info) ∧
    (run_full_diagnostics h.backend sched s).impl.sys_info.same_but_gpu s.sys_info ∧
    (∀ s0 s1, h.backend.cpu_benchmark s0 = .ok s1 → s1.sys_info = s0.sys_info) ∧
    (∀ s0 s1, h.backend.gpu_benchmark s0 = .ok s1 →
      s1.sys_info.same_but_gpu s0.sys_info ∧
      (h.is_windows = false → s1.sys_info = s0.sys_info)) ∧
    (monitor_temperatures h.backend polls s).1.sys_info = s.sys_info := by
  obtain ⟨h1, h2⟩ := run_sys_info h s sched
  refine ⟨h2, h1, ?_, ?_, (monitor_temperatures_frame h.backend polls s).1⟩
  · intro s0 s1 hok
    exact (host_cpu_benchmark_ok h s0 s1 hok).2.1
  · intro s0 s1 hok
    obtain ⟨_, g1, g2, _⟩ := host_gpu_benchmark_ok h s0 s1 hok
    exact ⟨g1, g2⟩

theorem step_cpu_temp (h : Host) (r : Run) (t : Tid)
    (hinv : r.pc.after_cpu = true → r.impl.test_results.cpu_temp = h.benchmark_cpu_temperature) :
    (step h.backend r t).pc.after_cpu = true →
      (step h.backend r t).impl.test_results.cpu_temp = h.benchmark_cpu_temperature := by
  cases t with
  | monitor =>
    obtain ⟨_, h2, _⟩ := monitor_step_impl h.backend r
    simp only [step, monitor_step_pc, h2]
    exact hinv
  | main =>
    obtain ⟨impl, flag, pc, mon, k⟩ := r
    simp only at hinv
    simp only [step, main_step]
    cases pc with
    | cpu =>
      cases hb : h.backend.cpu_benchmark (impl.emit .enter_cpu_benchmark) with
      | error e => intro hp; simp [MainPc.after_cpu] at hp
      | ok s1 =>
        intro _
        exact (host_cpu_benchmark_ok h _ _ hb).2.2.1
    | gpu =>
      cases hb : h.backend.gpu_benchmark (impl.emit .enter_gpu_benchmark) with
      | error e => intro hp; simp [MainPc.after_cpu] at hp
      | ok s1 =>
        intro _
        obtain ⟨_, _, _, ht, _⟩ := host_gpu_benchmark_ok h _ _ hb
        rw [ht]
        exact hinv rfl
    | join =>
      by_cases hm : mon = .done
      · rw [if_pos hm]; intro _; exact hinv rfl
      · rw [if_neg hm]; exact hinv
    | banner => intro hp; simp [MainPc.after_cpu] at hp
    | flag_init => intro hp; simp [MainPc.after_cpu] at hp
    | thread_start => intro hp; simp [MainPc.after_cpu] at hp
    | flag_store => intro _; exact hinv rfl
    | finish => intro _; exact hinv rfl
    | returned => exact hinv
    | terminated => exact hinv

theorem run_cpu_temp (h : Host) (s : Impl) (sched : List Tid) :
    (run_full_diagnostics h.backend sched s).pc.after_cpu = true →
      (run_full_diagnostics h.backend sched s).impl.test_results.cpu_temp
        = h.benchmark_cpu_temperature := by
  apply exec_invariant h.backend
    (fun r => r.pc.after_cpu = true →
      r.impl.test_results.cpu_temp = h.benchmark_cpu_temperature)
    (fun r t hr => step_cpu_temp h r t hr)
  intro hp
  simp [Run.start, MainPc.after_cpu] at hp

/-- C8: `monitor_temperatures` stores to no member of `TestResults` or
`SystemInfo`, whatever the values read from the stop flag (so for any number
of sampling iterations): both structs are unchanged and the actions it adds to
the trace contain no store.  Consequently, under every interleaving, the
`cpu_temp` held when the run has returned is the value returned by the
synchronous `get_cpu_temperature()` call inside `cpu_benchmark`. -/
theorem monitor_is_read_only (h : Host) (s : Impl) (polls : List Bool) (sched : List Tid) :
    (monitor_temperatures h.backend polls s).1.test_results = s.test_results ∧
    (monitor_temperatures h.backend polls s).1.sys_info = s.sys_info ∧
    (∃ l, (monitor_temperatures h.backend polls s).1.trace = s.trace ++ l ∧
      ∀ e ∈ l, e.is_store = false) ∧
    ((run_full_diagnostics h.backend sched s).pc = .returned →
      (run_full_diagnostics h.backend sched s).impl.test_results.cpu_temp
        = h.benchmark_cpu_temperature) := by
  obtain ⟨h1, h2, h3⟩ := monitor_temperatures_frame h.backend polls s
  refine ⟨h2, h1, h3, fun hret => run_cpu_temp h s sched ?_⟩
  rw [hret]
  rfl

/-- Witness of C8: on the sample Linux host, whose benchmark reads 45 degrees
while the monitor finds no sensor, the returned run holds 45 degrees. -/
theorem monitor_is_read_only_witness :
    (run_full_diagnostics sample_host.backend (schedule 2) sample_impl).pc = .returned ∧
    (run_full_diagnostics sample_host.backend (schedule 2) sample_impl).impl.test_results.cpu_temp
      = Dbl.fin 45 ∧
    sample_host.backend.get_cpu_temperature 0 = Dbl.fin 0 := by
  refine ⟨run_returns sample_host rfl rfl 2 sample_impl, ?_, rfl⟩
  rw [(monitor_is_read_only sample_host sample_impl [] (schedule 2)).2.2.2
    (run_returns sample_host rfl rfl 2 sample_impl)]
  simp [sample_host, Host.benchmark_cpu_temperature, sample_cpu_env, Linux.get_cpu_temperature,
    find_sub, starts_with, Dbl.div, Dbl.gt, Dbl.lt]
  norm_num

/-! ## C9: stores to `TestResults` -/

theorem stores_to_emit (f : Field) (s : Impl) (e : Event) (he : e.is_store = false) :
    stores_to f (s.emit e).trace = stores_to f s.trace := by
  cases e <;> simp_all [stores_to, Impl.emit, Event.is_store]

theorem no_device_gpu_benchmark (cpu : Windows.CpuEnv) (gpu : Windows.GpuEnv)
    (cd gd : Nat → ℚ) (hd : gpu.device = false) (s s1 : Impl)
    (hok : (Host.windows cpu gpu cd gd).backend.gpu_benchmark s = .ok s1) :
    s1.test_results = s.test_results ∧
    stores_to .gpu_score s1.trace = stores_to .gpu_score s.trace := by
  simp only [Host.backend, Windows.gpu_benchmark] at hok
  cases hf : gpu.fault with
  | some e => simp [hf] at hok
  | none =>
    simp only [hf, hd, if_true, Except.ok.injEq] at hok
    subst hok
    refine ⟨rfl, ?_⟩
    simp only [Impl.error, Impl.print]
    simp [Impl.print, stores_to_emit, Event.is_store]

theorem no_device_step (cpu : Windows.CpuEnv) (gpu : Windows.GpuEnv) (cd gd : Nat → ℚ)
    (hd : gpu.device = false) (r : Run) (t : Tid) :
    (step (Host.windows cpu gpu cd gd).backend r t).impl.test_results.gpu_score
      = r.impl.test_results.gpu_score ∧
    stores_to .gpu_score (step (Host.windows cpu gpu cd gd).backend r t).impl.trace
      = stores_to .gpu_score r.impl.trace := by
  cases t with
  | monitor =>
    obtain ⟨_, h2, l, h3, h4⟩ := monitor_step_impl (Host.windows cpu gpu cd gd).backend r
    refine ⟨by simp only [step, h2], ?_⟩
    simp only [step, h3, stores_to_append]
    have : stores_to .gpu_score l = 0 := by
      simp only [stores_to, List.countP_eq_zero]
      intro e he
      have := h4 e he
      cases e <;> simp_all [Event.is_store]
    omega
  | main =>
    obtain ⟨impl, flag, pc, mon, k⟩ := r
    simp only [step, main_step]
    cases pc with
    | cpu =>
      cases hb : (Host.windows cpu gpu cd gd).backend.cpu_benchmark
          (impl.emit .enter_cpu_benchmark) with
      | error e =>
        refine ⟨rfl, ?_⟩
        simp only
        simp [Impl.print, stores_to_emit, Event.is_store]
      | ok s1 =>
        obtain ⟨_, _, _, hg, l, ht, _, _, _, hs⟩ := host_cpu_benchmark_ok _ _ _ hb
        refine ⟨hg, ?_⟩
        simp only [ht, stores_to_append, hs]
        simp [stores_to_emit, Event.is_store]
    | gpu =>
      cases hb : (Host.windows cpu gpu cd gd).backend.gpu_benchmark
          (impl.emit .enter_gpu_benchmark) with
      | error e =>
        refine ⟨rfl, ?_⟩
        simp only
        simp [Impl.print, stores_to_emit, Event.is_store]
      | ok s1 =>
        obtain ⟨g1, g2⟩ := no_device_gpu_benchmark cpu gpu cd gd hd _ _ hb
        refine ⟨by simp only [g1]; rfl, ?_⟩
        simp only [g2]
        simp [stores_to_emit, Event.is_store]
    | join =>
      by_cases hm : mon = .done
      · rw [if_pos hm]; exact ⟨rfl, by simp [Impl.print, stores_to_emit, Event.is_store]⟩
      · rw [if_neg hm]; exact ⟨rfl, rfl⟩
    | banner => exact ⟨rfl, by simp [Impl.print, stores_to_emit, Event.is_store]⟩
    | flag_init => exact ⟨rfl, by simp [Impl.print, stores_to_emit, Event.is_store]⟩
    | thread_start => exact ⟨rfl, by simp [Impl.print, stores_to_emit, Event.is_store]⟩
    | flag_store => exact ⟨rfl, by simp [Impl.print, stores_to_emit, Event.is_store]⟩
    | finish => exact ⟨rfl, by simp [Impl.print, stores_to_emit, Event.is_store]⟩
    | returned => exact ⟨rfl, rfl⟩
    | terminated => exact ⟨rfl, rfl⟩

theorem no_device_run (cpu : Windows.CpuEnv) (gpu : Windows.GpuEnv) (cd gd : Nat → ℚ)
    (hd : gpu.device = false) (s : Impl) (sched : List Tid) :
    (run_full_diagnostics (Host.windows cpu gpu cd gd).backend sched s).impl.test_results.gpu_score
      = s.test_results.gpu_score ∧
    stores_to .gpu_score
        (run_full_diagnostics (Host.windows cpu gpu cd gd).backend sched s).impl.trace
      = stores_to .gpu_score s.trace := by
  apply exec_invariant (Host.windows cpu gpu cd gd).backend
    (fun r => r.impl.test_results.gpu_score = s.test_results.gpu_score ∧
      stores_to .gpu_score r.impl.trace = stores_to .gpu_score s.trace)
  · intro r t ⟨h1, h2⟩
    obtain ⟨g1, g2⟩ := no_device_step cpu gpu cd gd hd r t
    exact ⟨g1.trans h1, g2.trans h2⟩
  · exact ⟨rfl, rfl⟩

/-- C9, the code at the failing input: on the Windows host on which
`D3D11CreateDevice` fails, for every initial object and every number of
monitor samples the run returns, and under every interleaving the run makes no
store to `gpu_score`: the member still holds the value it had before the call
(which the constructor never initialised). -/
theorem gpu_score_never_written (s : Impl) (n : Nat) (sched : List Tid) :
    (run_full_diagnostics no_device_host.backend (schedule n) s).pc = .returned ∧
    stores_to .gpu_score (run_full_diagnostics no_device_host.backend sched s).impl.trace
      = stores_to .gpu_score s.trace ∧
    (run_full_diagnostics no_device_host.backend sched s).impl.test_results.gpu_score
      = s.test_results.gpu_score :=
  ⟨run_returns no_device_host rfl rfl n s,
    (no_device_run _ _ _ _ rfl s sched).2, (no_device_run _ _ _ _ rfl s sched).1⟩

/-! ## C10: `collect_system_info` on Linux -/

/-- C10, the code at the failing inputs: with a `/proc/cpuinfo` whose
`cpu cores` line reads `cpu cores<TAB>: four`, `collect_system_info` throws
`std::invalid_argument` (from `std::stoi`); with a `model name` line that ends
at its colon it throws `std::out_of_range` (from `substr`); on a well-formed
file it returns with the parsed values. -/
theorem collect_system_info_throws (s : Impl) :
    Linux.collect_system_info bad_number_probe_env s = .error (.invalid_argument "stoi") ∧
    Linux.collect_system_info short_line_probe_env s
      = .error (.out_of_range "basic_string::substr") ∧
    (Linux.collect_system_info sample_probe_env s).map
        (fun s1 => (s1.sys_info.os_name, s1.sys_info.cpu_name, s1.sys_info.cpu_cores,
          s1.sys_info.cpu_threads, s1.sys_info.gpu_name))
      = .ok ("Ubuntu 22.04", "Sample CPU", 4, 8, "VGA compatible controller: Sample GPU") := by
  refine ⟨?_, ?_, ?_⟩
  · rfl
  · rfl
  · rfl

/-! ## C11: the report file cannot be created -/

/-- C11: `generate_html_report` throws the error "Failed to create report
file" exactly when the file cannot be opened, and throws nothing else.  The
function is `const`: a call that succeeds leaves `TestResults` and
`SystemInfo` as they were, and after a call that failed the same object
renders, to a destination that opens, the very document it would have
written.  The error reaches the immediate caller: `main`'s handler prints it. -/
theorem report_sink_failure (m : Markup) (can_open : Bool) (date time filename other : String)
    (s : Impl) :
    (generate_html_report m can_open date time filename s
        = .error (.runtime_error "Failed to create report file") ↔ can_open = false) ∧
    (∀ e, generate_html_report m can_open date time filename s = .error e →
      e = .runtime_error "Failed to create report file") ∧
    (∀ doc s1, generate_html_report m can_open date time filename s = .ok (doc, s1) →
      s1.sys_info = s.sys_info ∧ s1.test_results = s.test_results ∧
      doc = report_document m date time s) ∧
    (can_open = false →
      (generate_html_report m true date time other s).map Prod.fst
        = .ok (report_document m date time s)) ∧
    (can_open = false →
      (main_report m can_open date time s).trace
        = s.trace ++ [.print (.text "\nERROR: Failed to create report file"),
            .print (.text "Press Enter to exit...")]) := by
  cases can_open with
  | false =>
    refine ⟨by simp [generate_html_report], ?_, ?_, fun _ => rfl, fun _ => ?_⟩
    · intro e he
      simp only [generate_html_report, if_true, Except.error.injEq] at he
      exact he.symm
    · intro doc s1 he
      simp [generate_html_report] at he
    · simp [main_report, generate_html_report, Impl.print, Impl.emit, Exn.what]
  | true =>
    refine ⟨by simp [generate_html_report], ?_, ?_, fun h => by simp at h,
      fun h => by simp at h⟩
    · intro e he
      simp [generate_html_report] at he
    · intro doc s1 he
      simp only [generate_html_report, Bool.true_eq_false, if_false, Except.ok.injEq,
        Prod.mk.injEq] at he
      obtain ⟨h1, h2⟩ := he
      subst h1 h2
      exact ⟨rfl, rfl, rfl⟩

/-! ## C12 and C13: the baseline frequency and `base_perf` -/

/-- C12, the code at the failing input: on Windows, when the registry key
cannot be opened or the value cannot be read, `dwMHz` keeps its initial value
0, no fallback is substituted, `base_perf` is 0, and `cpu_benchmark` records
`+Inf`.  The Linux backend substitutes 2000 MHz when every readable file gives
0, and the macOS backend substitutes 2.4 GHz when `sysctlbyname` fails. -/
theorem windows_frequency_no_fallback (s : Impl) :
    Windows.dwMHz none = 0 ∧ Windows.dwMHz (some none) = 0 ∧
    Windows.base_perf none = Dbl.fin 0 ∧ Windows.base_perf (some none) = Dbl.fin 0 ∧
    (∃ s1, Windows.cpu_benchmark no_registry_cpu_env s = .ok s1 ∧
      s1.test_results.cpu_score = Dbl.pinf) ∧
    (∀ freq_files cores, Linux.max_freq freq_files cores = Dbl.fin 0 →
      Linux.base_freq freq_files cores = Dbl.fin 2000) ∧
    MacOS.base_freq none = Dbl.fin (12 / 5) := by
  have hb : ∀ r, Windows.dwMHz r = 0 → Windows.base_perf r = Dbl.fin 0 := by
    intro r hr
    simp [Windows.base_perf, hr, Dbl.ofInt, Dbl.div, Dbl.mul]
  refine ⟨rfl, rfl, hb _ rfl, hb _ rfl, ?_, ?_, ?_⟩
  · obtain ⟨s1, h1, h2⟩ := windows_cpu_benchmark_score no_registry_cpu_env s rfl
    refine ⟨s1, h1, ?_⟩
    rw [h2]
    have h0 := hb none rfl
    unfold Windows.base_perf at h0
    have he : no_registry_cpu_env.elapsed = 1 := rfl
    have hr : no_registry_cpu_env.registry = none := rfl
    rw [hr, h0, he]
    exact calculate_score_degenerate _ _ _ (by norm_num [num_iterations]) (by norm_num)
      le_rfl (Or.inr rfl)
  · intro freq_files cores h
    simp [Linux.base_freq, h, Dbl.eq]
  · simp [MacOS.base_freq, MacOS.freq, Dbl.ofInt, Dbl.div]
    norm_num

/-- C13, counterexample: on a Windows host whose registry reports 3000 MHz and
whose `SystemInfo` holds eight cores, `cpu_benchmark` uses `base_perf = 12`
(3 times 4), not 3 times 8 = 24, and the score it records is not the one a
`base_perf` of 24 gives. -/
theorem base_perf_core_count_counterexample :
    eight_core_impl.sys_info.cpu_cores = 8 ∧
    Windows.base_perf registry_cpu_env.registry = Dbl.fin 12 ∧
    Dbl.mul (Dbl.div (Dbl.ofInt (Windows.dwMHz registry_cpu_env.registry)) (Dbl.fin 1000))
      (Dbl.ofInt eight_core_impl.sys_info.cpu_cores) = Dbl.fin 24 ∧
    ∃ s1, Windows.cpu_benchmark registry_cpu_env eight_core_impl = .ok s1 ∧
      s1.test_results.cpu_score = calculate_score num_iterations (Dbl.fin 1) (Dbl.fin 12) ∧
      s1.test_results.cpu_score ≠ calculate_score num_iterations (Dbl.fin 1) (Dbl.fin 24) := by
  have h12 : Windows.base_perf registry_cpu_env.registry = Dbl.fin 12 := by
    simp [Windows.base_perf, registry_cpu_env, Windows.dwMHz, Dbl.ofInt, Dbl.div, Dbl.mul]
    norm_num
  refine ⟨rfl, h12, ?_, ?_⟩
  · simp [registry_cpu_env, eight_core_impl, sample_info, Windows.dwMHz, Dbl.ofInt, Dbl.div,
      Dbl.mul]
    norm_num
  · obtain ⟨s1, h1, h2⟩ := windows_cpu_benchmark_score registry_cpu_env eight_core_impl rfl
    have he : registry_cpu_env.elapsed = 1 := rfl
    unfold Windows.base_perf at h12
    rw [he, h12] at h2
    refine ⟨s1, h1, h2, ?_⟩
    rw [h2, calculate_score_fin _ _ _ (by norm_num) (by norm_num),
      calculate_score_fin _ _ _ (by norm_num) (by norm_num)]
    intro h
    injection h with h
    norm_num [num_iterations] at h

/-- C13, as amended: on the Linux and macOS backends the `base_perf` behind the
recorded score is the baseline frequency multiplied by the `cpu_cores` of the
`SystemInfo`; on the Windows backend it is `(dwMHz / 1000.0) * 4`, a fixed
count of four cores whatever the `SystemInfo` holds. -/
theorem base_perf_per_backend :
    (∀ (env : Linux.CpuEnv) (s : Impl), env.fault = none →
      Linux.base_perf env.freq_files s.sys_info.cpu_cores
        = Dbl.mul (Linux.base_freq env.freq_files s.sys_info.cpu_cores)
            (Dbl.ofInt s.sys_info.cpu_cores) ∧
      ∃ s1, Linux.cpu_benchmark env s = .ok s1 ∧
        s1.test_results.cpu_score = calculate_score num_iterations (Dbl.fin env.elapsed)
          (Linux.base_perf env.freq_files s.sys_info.cpu_cores)) ∧
    (∀ (env : MacOS.CpuEnv) (s : Impl), env.fault = none →
      MacOS.base_perf env.cpufrequency s.sys_info.cpu_cores
        = Dbl.mul (MacOS.base_freq env.cpufrequency) (Dbl.ofInt s.sys_info.cpu_cores) ∧
      ∃ s1, MacOS.cpu_benchmark env s = .ok s1 ∧
        s1.test_results.cpu_score = calculate_score num_iterations (Dbl.fin env.elapsed)
          (MacOS.base_perf env.cpufrequency s.sys_info.cpu_cores)) ∧
    (∀ (env : Windows.CpuEnv) (s : Impl), env.fault = none →
      Windows.base_perf env.registry
        = Dbl.mul (Dbl.div (Dbl.ofInt (Windows.dwMHz env.registry)) (Dbl.fin 1000))
            (Dbl.ofInt 4) ∧
      ∃ s1, Windows.cpu_benchmark env s = .ok s1 ∧
        s1.test_results.cpu_score = calculate_score num_iterations (Dbl.fin env.elapsed)
          (Windows.base_perf env.registry)) :=
  ⟨fun env s hf => ⟨rfl, linux_cpu_benchmark_score env s hf⟩,
    fun env s hf => ⟨rfl, macos_cpu_benchmark_score env s hf⟩,
    fun env s hf => ⟨rfl, windows_cpu_benchmark_score env s hf⟩⟩

/-- Witness of C13 as amended: the Windows host with eight cores in `SystemInfo`. -/
theorem base_perf_per_backend_witness :
    ∃ s1, Windows.cpu_benchmark registry_cpu_env eight_core_impl = .ok s1 ∧
      s1.test_results.cpu_score = calculate_score num_iterations
        (Dbl.fin registry_cpu_env.elapsed) (Windows.base_perf registry_cpu_env.registry) :=
  (base_perf_per_backend.2.2 registry_cpu_env eight_core_impl rfl).2

/-! ## C14 and C15: temperatures -/

theorem Linux.max_temp_unopened (entries : List (String × Linux.TempFile))
    (h : ∀ entry ∈ entries,
      (find_sub "thermal_zone".toList entry.1.toList).isSome = true → entry.2 = .unopened) :
    ∀ init : Dbl,
      entries.foldl (fun max_temp entry =>
        if (find_sub "thermal_zone".toList entry.1.toList).isSome then
          match entry.2 with
          | .unopened => max_temp
          | .stored v =>
            let temp := Dbl.div (Dbl.fin v) (Dbl.fin 1000)
            if Dbl.gt temp max_temp then temp else max_temp
          | .untouched held =>
            let temp := Dbl.div held (Dbl.fin 1000)
            if Dbl.gt temp max_temp then temp else max_temp
        else max_temp) init = init := by
  induction entries with
  | nil => intro init; rfl
  | cons e l ih =>
    intro init
    have hl : ∀ entry ∈ l,
        (find_sub "thermal_zone".toList entry.1.toList).isSome = true → entry.2 = .unopened :=
      fun entry he => h entry (List.mem_cons_of_mem _ he)
    simp only [List.foldl_cons]
    by_cases hz : (find_sub "thermal_zone".toList e.1.toList).isSome = true
    · have he := h e (List.mem_cons_self _ _) hz
      simp only [hz, if_true, he]
      exact ih hl init
    · simp only [hz]
      exact ih hl init

/-- A `temp` file that opens but is empty leaves the result to the value the
uninitialised local happens to hold: here 61.5 degrees, not 0. -/
theorem Linux.get_cpu_temperature_untouched :
    Linux.get_cpu_temperature empty_file_thermal_dir = Dbl.fin (123 / 2) := by
  simp [Linux.get_cpu_temperature, empty_file_thermal_dir, find_sub,
    starts_with, Dbl.div, Dbl.gt, Dbl.lt]
  norm_num

/-- C14, counterexample: when `/sys/class/thermal` cannot be opened the Linux
`get_cpu_temperature` returns 0, which is not in the range 40 to 85. -/
theorem cpu_temperature_fallback_counterexample :
    Linux.get_cpu_temperature none = Dbl.fin 0 ∧
    ¬ Dbl.within 40 85 (Linux.get_cpu_temperature none) := by
  refine ⟨rfl, ?_⟩
  rintro ⟨q, hq, h40, _⟩
  have : q = 0 := by
    have hq0 : Dbl.fin 0 = Dbl.fin q := hq
    injection hq0 with hq0
    exact hq0.symm
  subst this
  norm_num at h40

/-- C14, as amended: when the directory `/sys/class/thermal` cannot be opened,
or none of its `thermal_zone` entries has a `temp` file that can be opened, the
Linux `get_cpu_temperature` returns 0.0, the initial value of `max_temp`; it
substitutes no synthetic value. -/
theorem cpu_temperature_unreadable (dir : Linux.ThermalDir)
    (h : Linux.no_temp_file_opens dir) : Linux.get_cpu_temperature dir = Dbl.fin 0 := by
  cases dir with
  | none => rfl
  | some entries => exact Linux.max_temp_unopened entries h (Dbl.fin 0)

/-- Witness of C14 as amended: a directory with a cooling device and a thermal
zone whose `temp` file does not open. -/
theorem cpu_temperature_unreadable_witness :
    Linux.no_temp_file_opens unreadable_thermal_dir ∧
    Linux.get_cpu_temperature unreadable_thermal_dir = Dbl.fin 0 := by
  have h : Linux.no_temp_file_opens unreadable_thermal_dir := by
    intro entry he
    simp only [List.mem_cons, List.mem_singleton, List.not_mem_nil, or_false] at he
    rcases he with he | he
    · subst he; intro hz; exact absurd hz (by decide)
    · subst he; intro _; rfl
  exact ⟨h, cpu_temperature_unreadable unreadable_thermal_dir h⟩

theorem uniform_real_within (a b u : ℚ) (hab : a ≤ b) (h0 : 0 ≤ u) (h1 : u < 1) :
    Dbl.within a b (uniform_real a b u) := by
  refine ⟨_, rfl, ?_, ?_⟩
  · nlinarith [mul_nonneg (sub_nonneg.mpr hab) h0]
  · nlinarith [mul_nonneg (sub_nonneg.mpr hab) (sub_nonneg.mpr h1.le)]

theorem within_mono (a b c d : ℚ) (x : Dbl) (hca : c ≤ a) (hbd : b ≤ d)
    (h : Dbl.within a b x) : Dbl.within c d x := by
  obtain ⟨q, hq, h1, h2⟩ := h
  exact ⟨q, hq, hca.trans h1, h2.trans hbd⟩

/-- C15: for every random draw `u` in `[0, 1)`, the simulated CPU temperature
of the Windows and macOS backends lies between 40 and 85 degrees, and the
simulated GPU temperature of the Windows, macOS and Linux backends lies
between 50 and 95 degrees. -/
theorem simulated_temperature_range (u : ℚ) (h0 : 0 ≤ u) (h1 : u < 1) :
    Dbl.within 40 85 (Windows.get_cpu_temperature u) ∧
    Dbl.within 40 85 (MacOS.get_cpu_temperature u) ∧
    Dbl.within 50 95 (Windows.get_gpu_temperature u) ∧
    Dbl.within 50 95 (MacOS.get_gpu_temperature u) ∧
    Dbl.within 50 95 (Linux.get_gpu_temperature u) := by
  refine ⟨?_, ?_, ?_, ?_, ?_⟩
  · exact uniform_real_within 40 85 u (by norm_num) h0 h1
  · exact within_mono 40 80 40 85 _ le_rfl (by norm_num)
      (uniform_real_within 40 80 u (by norm_num) h0 h1)
  · exact uniform_real_within 50 95 u (by norm_num) h0 h1
  · exact within_mono 50 85 50 95 _ le_rfl (by norm_num)
      (uniform_real_within 50 85 u (by norm_num) h0 h1)
  · exact within_mono 50 85 50 95 _ le_rfl (by norm_num)
      (uniform_real_within 50 85 u (by norm_num) h0 h1)

/-- Witness of C15: the draw 1/2. -/
theorem simulated_temperature_range_witness :
    Dbl.within 40 85 (Windows.get_cpu_temperature (1 / 2)) ∧
    Dbl.within 50 95 (Linux.get_gpu_temperature (1 / 2)) :=
  ⟨(simulated_temperature_range (1 / 2) (by norm_num) (by norm_num)).1,
    (simulated_temperature_range (1 / 2) (by norm_num) (by norm_num)).2.2.2.2⟩

/-! ## C16: doubling the elapsed time -/

theorem calculate_score_halves (n : Int) (t p : ℚ) (ht : 0 < t) (hp : 0 < p) :
    ∃ q : ℚ, calculate_score n (Dbl.fin t) (Dbl.fin p) = Dbl.fin q ∧
      calculate_score n (Dbl.fin (2 * t)) (Dbl.fin p) = Dbl.fin (q / 2) := by
  refine ⟨_, calculate_score_fin n t p ht.ne' hp.ne', ?_⟩
  rw [calculate_score_fin n (2 * t) p (by positivity) hp.ne']
  congr 1
  field_simp
  left
  ring

/-- C16: with the iteration count, the baseline frequency and the core count
held fixed and positive, the CPU score the Linux and the macOS `cpu_benchmark`
record for an elapsed time `2 * t` is exactly half the score they record for
the elapsed time `t`, for every `t > 0`. -/
theorem cpu_score_halves :
    (∀ (env : Linux.CpuEnv) (s : Impl) (t : ℚ), env.fault = none → 0 < t →
      0 < s.sys_info.cpu_cores →
      ∃ s1 s2 q, Linux.cpu_benchmark { env with elapsed := t } s = .ok s1 ∧
        Linux.cpu_benchmark { env with elapsed := 2 * t } s = .ok s2 ∧
        s1.test_results.cpu_score = Dbl.fin q ∧
        s2.test_results.cpu_score = Dbl.fin (q / 2)) ∧
    (∀ (env : MacOS.CpuEnv) (s : Impl) (t : ℚ), env.fault = none → 0 < t →
      0 < MacOS.freq env.cpufrequency → 0 < s.sys_info.cpu_cores →
      ∃ s1 s2 q, MacOS.cpu_benchmark { env with elapsed := t } s = .ok s1 ∧
        MacOS.cpu_benchmark { env with elapsed := 2 * t } s = .ok s2 ∧
        s1.test_results.cpu_score = Dbl.fin q ∧
        s2.test_results.cpu_score = Dbl.fin (q / 2)) := by
  refine ⟨?_, ?_⟩
  · intro env s t hf ht hc
    obtain ⟨s1, a1, a2⟩ := linux_cpu_benchmark_score { env with elapsed := t } s hf
    obtain ⟨s2, b1, b2⟩ := linux_cpu_benchmark_score { env with elapsed := 2 * t } s hf
    obtain ⟨f, hfp, hbf⟩ := Linux.base_freq_pos env.freq_files s.sys_info.cpu_cores
    have hc0 : (0 : ℚ) < (s.sys_info.cpu_cores : ℚ) := by exact_mod_cast hc
    have hp : Dbl.mul (Linux.base_freq env.freq_files s.sys_info.cpu_cores)
        (Dbl.ofInt s.sys_info.cpu_cores) = Dbl.fin (f * s.sys_info.cpu_cores) := by
      rw [hbf]; simp [Dbl.mul, Dbl.ofInt]
    simp only at a2 b2
    rw [hp] at a2 b2
    obtain ⟨q, c1, c2⟩ := calculate_score_halves num_iterations t _ ht (mul_pos hfp hc0)
    exact ⟨s1, s2, q, a1, b1, a2.trans c1, b2.trans c2⟩
  · intro env s t hf ht hfreq hc
    obtain ⟨s1, a1, a2⟩ := macos_cpu_benchmark_score { env with elapsed := t } s hf
    obtain ⟨s2, b1, b2⟩ := macos_cpu_benchmark_score { env with elapsed := 2 * t } s hf
    have hc0 : (0 : ℚ) < (s.sys_info.cpu_cores : ℚ) := by exact_mod_cast hc
    have hf0 : (0 : ℚ) < (MacOS.freq env.cpufrequency : ℚ) := by exact_mod_cast hfreq
    have hp : Dbl.mul (MacOS.base_freq env.cpufrequency) (Dbl.ofInt s.sys_info.cpu_cores)
        = Dbl.fin ((MacOS.freq env.cpufrequency : ℚ) / 1000000000 * s.sys_info.cpu_cores) := by
      simp [MacOS.base_freq, Dbl.mul, Dbl.div, Dbl.ofInt]
    simp only at a2 b2
    rw [hp] at a2 b2
    obtain ⟨q, c1, c2⟩ := calculate_score_halves num_iterations t _ ht
      (mul_pos (div_pos hf0 (by norm_num : (0 : ℚ) < 1000000000)) hc0)
    exact ⟨s1, s2, q, a1, b1, a2.trans c1, b2.trans c2⟩

/-- Witness of C16: the sample Linux host at one and at two seconds. -/
theorem cpu_score_halves_witness :
    ∃ s1 s2 q, Linux.cpu_benchmark { sample_cpu_env with elapsed := 1 } sample_impl = .ok s1 ∧
      Linux.cpu_benchmark { sample_cpu_env with elapsed := 2 * 1 } sample_impl = .ok s2 ∧
      s1.test_results.cpu_score = Dbl.fin q ∧ s2.test_results.cpu_score = Dbl.fin (q / 2) :=
  cpu_score_halves.1 sample_cpu_env sample_impl 1 rfl (by norm_num) (by decide)

/-! ## C17: the report is a function of its inputs -/

/-- C17: rendering twice with identical `SystemInfo` and `TestResults` gives
the same document text, whatever else differs between the two objects and
whatever file the report is written to; with different timestamps the two
documents still agree on every operand after the first four, which are the
head, the date, the text " at " and the time. -/
theorem report_deterministic (m : Markup) (fixed : Dbl → String)
    (date time date2 time2 file1 file2 : String) (s1 s2 : Impl)
    (hinfo : s1.sys_info = s2.sys_info) (hres : s1.test_results = s2.test_results) :
    document_text fixed (report_document m date time s1)
      = document_text fixed (report_document m date time s2) ∧
    (generate_html_report m true date time file1 s1).map Prod.fst
      = (generate_html_report m true date time file2 s2).map Prod.fst ∧
    (report_document m date time s1).take 4
      = [.text m.head, .text date, .text " at ", .text time] ∧
    (report_document m date2 time2 s2).take 4
      = [.text m.head, .text date2, .text " at ", .text time2] ∧
    (report_document m date time s1).drop 4 = (report_document m date2 time2 s2).drop 4 := by
  have hdoc : ∀ d t, report_document m d t s1 = report_document m d t s2 := by
    intro d t
    simp only [report_document, hinfo, hres]
  refine ⟨by rw [hdoc], ?_, rfl, rfl, ?_⟩
  · simp only [generate_html_report, Bool.true_eq_false, if_false, Except.map, hdoc]
  · rw [hdoc]
    rfl

/-- Witness of C17: the sample object before and after some console output. -/
theorem report_deterministic_witness :
    document_text (fun _ => "?") (report_document Linux.markup "Jan  1 2024" "00:00:00" sample_impl)
      = document_text (fun _ => "?")
          (report_document Linux.markup "Jan  1 2024" "00:00:00" sample_impl_later) :=
  (report_deterministic Linux.markup (fun _ => "?") "Jan  1 2024" "00:00:00" "Jan  2 2024"
    "12:00:00" "a.html" "b.html" sample_impl sample_impl_later rfl rfl).1

/-! ## C18: the console lock -/

/-- C18, the code at the failing input: two `print` calls lock the same
mutex and so do two `error` calls, but a `print` and an `error` lock two
different mutexes, because each of `SafeOutput::print` and `SafeOutput::error`
declares its own `static SafeOutputImpl instance`.  When the main thread calls
`error` while the monitor calls `print`, no lock waits, and under the listed
schedule the monitor's whole line lands inside the main thread's line; with
two `print` calls the same schedule leaves the first line intact. -/
theorem console_lock_split (a b : String) :
    (OutputCall.print a).locked = (OutputCall.print b).locked ∧
    (OutputCall.error a).locked = (OutputCall.error b).locked ∧
    (OutputCall.error a).locked ≠ (OutputCall.print b).locked ∧
    (console_run (.error "Failed to create D3D11 device") (.print "[TEMP] CPU: 45.0")
        [.main, .main, .monitor, .monitor, .monitor, .monitor, .main, .main, .main]).screen
      = ["ERROR: ", "[TEMP] CPU: 45.0", "\n", "Failed to create D3D11 device", "\n"] ∧
    (console_run (.error "Failed to create D3D11 device") (.print "[TEMP] CPU: 45.0")
        [.main, .main, .monitor]).held = [.in_print, .in_error] ∧
    (console_run (.print "[GPU] Score") (.print "[TEMP] CPU: 45.0")
        [.main, .main, .monitor, .monitor, .monitor, .monitor, .main, .main, .main]).screen
      = ["[GPU] Score", "\n"] := by
  refine ⟨rfl, rfl, fun h => SafeOutputImpl.noConfusion h, ?_, ?_, ?_⟩ <;> rfl

/-! ## C19: the monitor loop -/

theorem monitor_loop_false (b : Backend) (k : Nat) :
    ∀ (polls : List Bool) (j : Nat) (s : Impl),
      monitor_loop b (List.replicate k false ++ polls) j s
        = monitor_loop b polls (j + k)
            { s with trace := s.trace ++ (List.range k).map (fun i => sample_line b (j + i)) } := by
  induction k with
  | zero => intro polls j s; simp
  | succ k ih =>
    intro polls j s
    rw [List.replicate_succ, List.cons_append, monitor_loop, ih polls (j + 1) (monitor_sample b j s)]
    have hj : j + 1 + k = j + (k + 1) := by omega
    rw [hj]
    congr 1
    simp only [monitor_sample, Impl.print, Impl.emit, List.range_succ_eq_map, List.map_cons,
      List.map_map, List.append_assoc, List.singleton_append, sample_line, Nat.add_zero]
    congr 3
    apply List.map_congr_left
    intro i _
    simp only [Function.comp, Nat.succ_eq_add_one]
    have : j + 1 + i = j + (i + 1) := by omega
    rw [this]

theorem monitor_temperatures_stops (b : Backend) (k : Nat) (rest : List Bool) (s : Impl) :
    (monitor_temperatures b (List.replicate k false ++ true :: rest) s).2 = true ∧
    (monitor_temperatures b (List.replicate k false ++ true :: rest) s).1.trace
      = s.trace ++ .print (.text "[MONITOR] Starting temperature monitoring...") ::
          ((List.range k).map (sample_line b) ++
            [.print (.text "[MONITOR] Temperature monitoring stopped")]) := by
  unfold monitor_temperatures
  simp only [monitor_loop_false, monitor_loop, if_true]
  refine ⟨trivial, ?_⟩
  simp [Impl.print, Impl.emit]

theorem monitor_temperatures_running (b : Backend) (k : Nat) (s : Impl) :
    (monitor_temperatures b (List.replicate k false) s).2 = false ∧
    (monitor_temperatures b (List.replicate k false) s).1.trace
      = s.trace ++ .print (.text "[MONITOR] Starting temperature monitoring...") ::
          (List.range k).map (sample_line b) := by
  have h := monitor_loop_false b k [] 0
    (s.print (.text "[MONITOR] Starting temperature monitoring..."))
  simp only [List.append_nil] at h
  unfold monitor_temperatures
  simp only [h, monitor_loop]
  simp [Impl.print, Impl.emit]

theorem monitor_step_started (b : Backend) (r : Run)
    (hm : (monitor_step b r).monitor = .not_started) : r.monitor = .not_started := by
  by_cases ht : r.pc = .terminated
  · simpa [monitor_step, ht] using hm
  · cases hm0 : r.monitor with
    | not_started => rfl
    | entry => simp [monitor_step, ht, hm0] at hm
    | loop_top => by_cases hf : r.stop_monitoring = true <;> simp [monitor_step, ht, hm0, hf] at hm
    | loop_body => simp [monitor_step, ht, hm0] at hm
    | done => simp [monitor_step, ht, hm0] at hm

theorem well_started_step (b : Backend) (r : Run) (t : Tid) (h : r.well_started) :
    (step b r t).well_started := by
  obtain ⟨h1, h2⟩ := h
  cases t with
  | monitor =>
    have hpc := monitor_step_pc b r
    have hfl := monitor_step_flag b r
    refine ⟨?_, ?_⟩
    · intro hm
      simp only [step, hpc]
      exact h1 (monitor_step_started b r hm)
    · intro hf
      simp only [step, hpc]
      simp only [step, hfl] at hf
      exact h2 hf
  | main =>
    obtain ⟨impl, flag, pc, mon, k⟩ := r
    simp only at h1 h2
    unfold Run.well_started
    simp only [step, main_step]
    cases pc with
    | banner =>
      have hf : flag ≠ true := fun hf => by simpa using h2 hf
      simp [hf]
    | flag_init => simp
    | thread_start =>
      have hf : flag ≠ true := fun hf => by simpa using h2 hf
      simp [hf]
    | cpu =>
      have hm : mon ≠ .not_started := fun hm => by simpa using h1 hm
      have hf : flag ≠ true := fun hf => by simpa using h2 hf
      cases hb : b.cpu_benchmark (impl.emit .enter_cpu_benchmark) <;> simp [hm, hf]
    | gpu =>
      have hm : mon ≠ .not_started := fun hm => by simpa using h1 hm
      have hf : flag ≠ true := fun hf => by simpa using h2 hf
      cases hb : b.gpu_benchmark (impl.emit .enter_gpu_benchmark) <;> simp [hm, hf]
    | flag_store =>
      have hm : mon ≠ .not_started := fun hm => by simpa using h1 hm
      simp [hm]
    | join =>
      have hm : mon ≠ .not_started := fun hm => by simpa using h1 hm
      by_cases hd : mon = .done
      · simp [hd]
      · simp [hd, hm]
    | finish =>
      have hm : mon ≠ .not_started := fun hm => by simpa using h1 hm
      simp [hm]
    | returned => exact ⟨h1, h2⟩
    | terminated => exact ⟨h1, h2⟩

theorem well_started_exec (b : Backend) (sched : List Tid) (r : Run) (h : r.well_started) :
    (exec b sched r).well_started :=
  exec_invariant b Run.well_started (fun r t hr => well_started_step b r t hr) sched r h

theorem well_started_run (b : Backend) (sched : List Tid) (s : Impl) :
    (run_full_diagnostics b sched s).well_started :=
  well_started_exec b sched _ (by simp [Run.well_started, Run.start])

theorem stopped_step (b : Backend) (r : Run) (t : Tid) (h : r.well_started)
    (hf : r.stop_monitoring = true) :
    (step b r t).stop_monitoring = true ∧ (step b r t).pending_samples = r.pending_samples := by
  have hpc := h.2 hf
  cases t with
  | monitor =>
    refine ⟨by simp only [step, monitor_step_flag]; exact hf, ?_⟩
    have hnt : r.pc ≠ .terminated := by
      rcases hpc with hpc | hpc | hpc <;> simp [hpc]
    cases hm : r.monitor <;>
      simp [step, monitor_step, hnt, hm, hf, Run.pending_samples]
  | main =>
    obtain ⟨impl, flag, pc, mon, k⟩ := r
    simp only at hf hpc
    subst hf
    rcases hpc with hpc | hpc | hpc
    · subst hpc
      by_cases hd : mon = .done
      · simp [step, main_step, hd, Run.pending_samples]
      · simp [step, main_step, hd, Run.pending_samples]
    · subst hpc
      simp [step, main_step, Run.pending_samples]
    · subst hpc
      simp [step, main_step, Run.pending_samples]

theorem stopped_exec (b : Backend) (sched : List Tid) :
    ∀ r : Run, r.well_started → r.stop_monitoring = true →
      (exec b sched r).stop_monitoring = true ∧
      (exec b sched r).pending_samples = r.pending_samples := by
  induction sched with
  | nil => intro r _ hf; exact ⟨hf, rfl⟩
  | cons t l ih =>
    intro r h hf
    obtain ⟨a1, a2⟩ := stopped_step b r t h hf
    obtain ⟨b1, b2⟩ := ih (step b r t) (well_started_step b r t h) a1
    exact ⟨b1, b2.trans a2⟩

theorem stopped_monitor_returns (b : Backend) (r : Run) (h : r.well_started)
    (hf : r.stop_monitoring = true) :
    (exec b [.monitor, .monitor] r).monitor = .done := by
  have hpc := h.2 hf
  have hnt : r.pc ≠ .terminated := by
    rcases hpc with hpc | hpc | hpc <;> simp [hpc]
  have hns : r.monitor ≠ .not_started := by
    intro hm
    rcases h.1 hm with h1 | h1 | h1 <;> rcases hpc with h2 | h2 | h2 <;> simp [h1] at h2
  cases hm : r.monitor with
  | not_started => exact absurd hm hns
  | entry => simp [exec, step, monitor_step, hnt, hm, hf]
  | loop_top => simp [exec, step, monitor_step, hnt, hm, hf]
  | loop_body => simp [exec, step, monitor_step, hnt, hm, hf]
  | done => simp [exec, step, monitor_step, hnt, hm, hf]

theorem sample_lines_append (l1 l2 : List Event) :
    sample_lines (l1 ++ l2) = sample_lines l1 + sample_lines l2 := by
  simp [sample_lines, List.countP_append]

theorem sample_lines_emit (s : Impl) (e : Event) (he : e.is_sample = false) :
    sample_lines (s.emit e).trace = sample_lines s.trace := by
  simp [Impl.emit, sample_lines_append, sample_lines, he]

theorem host_cpu_benchmark_samples (h : Host) (s s1 : Impl)
    (hok : h.backend.cpu_benchmark s = .ok s1) :
    sample_lines s1.trace = sample_lines s.trace := by
  cases h with
  | linux cpu gpu thermal draw =>
    simp only [Host.backend, Linux.cpu_benchmark] at hok
    cases hf : cpu.fault with
    | some e => simp [hf] at hok
    | none =>
      simp only [hf, Except.ok.injEq] at hok
      subst hok
      simp [Impl.print, Impl.emit, Impl.set_cpu_score, Impl.set_cpu_temp, sample_lines,
        List.countP_append, Event.is_sample]
  | macos cpu gpu cd gd =>
    simp only [Host.backend, MacOS.cpu_benchmark] at hok
    cases hf : cpu.fault with
    | some e => simp [hf] at hok
    | none =>
      simp only [hf, Except.ok.injEq] at hok
      subst hok
      simp [Impl.print, Impl.emit, Impl.set_cpu_score, Impl.set_cpu_temp, sample_lines,
        List.countP_append, Event.is_sample]
  | windows cpu gpu cd gd =>
    simp only [Host.backend, Windows.cpu_benchmark] at hok
    cases hf : cpu.fault with
    | some e => simp [hf] at hok
    | none =>
      simp only [hf, Except.ok.injEq] at hok
      subst hok
      simp [Impl.print, Impl.emit, Impl.set_cpu_score, Impl.set_cpu_temp, sample_lines,
        List.countP_append, Event.is_sample]

theorem host_gpu_benchmark_samples (h : Host) (s s1 : Impl)
    (hok : h.backend.gpu_benchmark s = .ok s1) :
    sample_lines s1.trace = sample_lines s.trace := by
  cases h with
  | linux cpu gpu thermal draw =>
    simp only [Host.backend, Linux.gpu_benchmark] at hok
    cases hf : gpu.fault with
    | some e => simp [hf] at hok
    | none =>
      simp only [hf, Except.ok.injEq] at hok
      subst hok
      simp [Impl.print, Impl.emit, Impl.set_gpu_score, sample_lines, List.countP_append,
        Event.is_sample]
  | macos cpu gpu cd gd =>
    simp only [Host.backend, MacOS.gpu_benchmark] at hok
    cases hf : gpu.fault with
    | some e => simp [hf] at hok
    | none =>
      simp only [hf, Except.ok.injEq] at hok
      subst hok
      simp [Impl.print, Impl.emit, Impl.set_gpu_score, sample_lines, List.countP_append,
        Event.is_sample]
  | windows cpu gpu cd gd =>
    simp only [Host.backend, Windows.gpu_benchmark] at hok
    cases hf : gpu.fault with
    | some e => simp [hf] at hok
    | none =>
      cases hd : gpu.device with
      | false =>
        simp only [hf, hd, if_true, Except.ok.injEq] at hok
        subst hok
        simp [Impl.print, Impl.error, Impl.emit, sample_lines, List.countP_append,
          Event.is_sample]
      | true =>
        simp only [hf, hd, Bool.true_eq_false, if_false, Except.ok.injEq] at hok
        subst hok
        cases ha : gpu.adapter <;>
          simp [Windows.gpu_information, ha, Impl.print, Impl.emit, Impl.set_gpu_score,
            Impl.set_gpu_name, Impl.set_gpu_memory, sample_lines, List.countP_append,
            Event.is_sample]

theorem samples_step (h : Host) (c : Nat) (r : Run) (t : Tid)
    (hinv : sample_lines r.impl.trace = c + r.samples) :
    sample_lines (step h.backend r t).impl.trace = c + (step h.backend r t).samples := by
  cases t with
  | monitor =>
    by_cases ht : r.pc = .terminated
    · simpa [step, monitor_step, ht] using hinv
    · cases hm : r.monitor with
      | not_started => simpa [step, monitor_step, ht, hm] using hinv
      | entry =>
        simp [step, monitor_step, ht, hm, Impl.print, Impl.emit, sample_lines_append, hinv]
        simp [sample_lines, Event.is_sample]
      | loop_top =>
        by_cases hf : r.stop_monitoring = true
        · simp [step, monitor_step, ht, hm, hf, Impl.print, Impl.emit, sample_lines_append, hinv]
          simp [sample_lines, Event.is_sample]
        · simpa [step, monitor_step, ht, hm, hf] using hinv
      | loop_body =>
        simp [step, monitor_step, ht, hm, monitor_sample, Impl.print, Impl.emit,
          sample_lines_append, hinv]
        simp [sample_lines, Event.is_sample]
        omega
      | done => simpa [step, monitor_step, ht, hm] using hinv
  | main =>
    obtain ⟨impl, flag, pc, mon, k⟩ := r
    simp only at hinv
    simp only [step, main_step]
    cases pc with
    | banner => simp [Impl.print, sample_lines_emit, Event.is_sample, hinv]
    | flag_init => simp [sample_lines_emit, Event.is_sample, hinv]
    | thread_start => simp [sample_lines_emit, Event.is_sample, hinv]
    | cpu =>
      cases hb : h.backend.cpu_benchmark (impl.emit .enter_cpu_benchmark) with
      | error e => simp [sample_lines_emit, Event.is_sample, hinv]
      | ok s1 =>
        simp only
        rw [host_cpu_benchmark_samples h _ _ hb]
        simp [sample_lines_emit, Event.is_sample, hinv]
    | gpu =>
      cases hb : h.backend.gpu_benchmark (impl.emit .enter_gpu_benchmark) with
      | error e => simp [sample_lines_emit, Event.is_sample, hinv]
      | ok s1 =>
        simp only
        rw [host_gpu_benchmark_samples h _ _ hb]
        simp [sample_lines_emit, Event.is_sample, hinv]
    | flag_store => simp [sample_lines_emit, Event.is_sample, hinv]
    | join =>
      by_cases hd : mon = .done
      · rw [if_pos hd]; simp [sample_lines_emit, Event.is_sample, hinv]
      · rw [if_neg hd]; exact hinv
    | finish => simp [Impl.print, sample_lines_emit, Event.is_sample, hinv]
    | returned => exact hinv
    | terminated => exact hinv

theorem samples_run (h : Host) (s : Impl) (sched : List Tid) :
    sample_lines (run_full_diagnostics h.backend sched s).impl.trace
      = sample_lines s.trace + (run_full_diagnostics h.backend sched s).samples :=
  exec_invariant h.backend
    (fun r => sample_lines r.impl.trace = sample_lines s.trace + r.samples)
    (fun r t hr => samples_step h _ r t hr) sched _ (by simp [Run.start])

/-- C19: for every sequence of values read from the stop flag at the top of
the loop, `monitor_temperatures` prints one `[TEMP]` line per read of false
(for iterations 0, 1, ...) and returns at the first read of true without a
further sample, so a flag that is true at the first read gives no sample; as
long as every read gives false it keeps running.  In a run, under every
interleaving, the `[TEMP]` lines in the trace are the iterations the monitor
has made, and once the flag has been set at most one more sample is made (the
one whose test of the flag came before the store) and the monitor returns
after at most two more of its steps. -/
theorem monitor_sampling (h : Host) (s : Impl) (k : Nat) (rest : List Bool)
    (sched later : List Tid) :
    (monitor_temperatures h.backend (List.replicate k false ++ true :: rest) s).2 = true ∧
    (monitor_temperatures h.backend (List.replicate k false ++ true :: rest) s).1.trace
      = s.trace ++ .print (.text "[MONITOR] Starting temperature monitoring...") ::
          ((List.range k).map (sample_line h.backend) ++
            [.print (.text "[MONITOR] Temperature monitoring stopped")]) ∧
    (monitor_temperatures h.backend (true :: rest) s).1.trace
      = s.trace ++ [.print (.text "[MONITOR] Starting temperature monitoring..."),
          .print (.text "[MONITOR] Temperature monitoring stopped")] ∧
    (monitor_temperatures h.backend (List.replicate k false) s).2 = false ∧
    (monitor_temperatures h.backend (List.replicate k false) s).1.trace
      = s.trace ++ .print (.text "[MONITOR] Starting temperature monitoring...") ::
          (List.range k).map (sample_line h.backend) ∧
    sample_lines (run_full_diagnostics h.backend sched s).impl.trace
      = sample_lines s.trace + (run_full_diagnostics h.backend sched s).samples ∧
    ((run_full_diagnostics h.backend sched s).stop_monitoring = true →
      (exec h.backend later (run_full_diagnostics h.backend sched s)).samples
        ≤ (run_full_diagnostics h.backend sched s).samples + 1 ∧
      (exec h.backend [.monitor, .monitor] (run_full_diagnostics h.backend sched s)).monitor
        = .done) := by
  obtain ⟨a1, a2⟩ := monitor_temperatures_stops h.backend k rest s
  obtain ⟨b1, b2⟩ := monitor_temperatures_running h.backend k s
  have a3 := (monitor_temperatures_stops h.backend 0 rest s).2
  simp only [List.replicate_zero, List.nil_append, List.range_zero, List.map_nil] at a3
  refine ⟨a1, a2, a3, b1, b2, samples_run h s sched, fun hf => ⟨?_, ?_⟩⟩
  · have hw := well_started_run h.backend sched s
    obtain ⟨_, c2⟩ := stopped_exec h.backend later _ hw hf
    have hle : (exec h.backend later (run_full_diagnostics h.backend sched s)).samples
        ≤ (exec h.backend later (run_full_diagnostics h.backend sched s)).pending_samples := by
      unfold Run.pending_samples; omega
    have hge : (run_full_diagnostics h.backend sched s).pending_samples
        ≤ (run_full_diagnostics h.backend sched s).samples + 1 := by
      unfold Run.pending_samples; split <;> omega
    omega
  · exact stopped_monitor_returns h.backend _ (well_started_run h.backend sched s) hf

/-- Witness of C19: on the sample host, when the flag is stored while the
monitor is inside its first iteration, the flag is set with no sample made
yet, and exactly one sample is made afterwards. -/
theorem monitor_sampling_witness :
    (run_full_diagnostics sample_host.backend late_stop_schedule sample_impl).stop_monitoring
      = true ∧
    (run_full_diagnostics sample_host.backend late_stop_schedule sample_impl).samples = 0 ∧
    (exec sample_host.backend [.monitor, .monitor]
      (run_full_diagnostics sample_host.backend late_stop_schedule sample_impl)).samples = 1 ∧
    (exec sample_host.backend [.monitor, .monitor]
      (run_full_diagnostics sample_host.backend late_stop_schedule sample_impl)).samples
      ≤ (run_full_diagnostics sample_host.backend late_stop_schedule sample_impl).samples + 1 := by
  have hf : (run_full_diagnostics sample_host.backend late_stop_schedule
      sample_impl).stop_monitoring = true := by
    simp [run_full_diagnostics, late_stop_schedule, exec, step, main_step, monitor_step,
      Run.start, sample_host, Host.backend, Linux.cpu_benchmark, Linux.gpu_benchmark,
      sample_cpu_env, sample_gpu_env]
  refine ⟨hf, ?_, ?_,
    ((monitor_sampling sample_host sample_impl 0 [] late_stop_schedule
      [.monitor, .monitor]).2.2.2.2.2.2 hf).1⟩
  · simp [run_full_diagnostics, late_stop_schedule, exec, step, main_step, monitor_step,
      Run.start, sample_host, Host.backend, Linux.cpu_benchmark, Linux.gpu_benchmark,
      sample_cpu_env, sample_gpu_env]
  · simp [run_full_diagnostics, late_stop_schedule, exec, step, main_step, monitor_step,
      Run.start, sample_host, Host.backend, Linux.cpu_benchmark, Linux.gpu_benchmark,
      sample_cpu_env, sample_gpu_env]

/-! ## C20: the GPU score and the iterations of its loop -/

theorem for_lt_count {σ : Type} (body : Int → σ × Nat → σ × Nat)
    (hbody : ∀ i st, (body i st).2 = st.2 + 1) (hi : Int) :
    ∀ (n : Nat) (i : Int) (st : σ × Nat), (hi - i).toNat = n →
      (for_lt body i hi st).2 = st.2 + n := by
  intro n
  induction n with
  | zero =>
    intro i st hn
    rw [for_lt]
    have : ¬ i < hi := by omega
    simp [this]
  | succ n ih =>
    intro i st hn
    rw [for_lt]
    have hlt : i < hi := by omega
    simp only [hlt, dif_pos]
    rw [ih (i + 1) (body i st) (by omega), hbody]
    omega

theorem linux_gpu_benchmark_score (env : Linux.GpuEnv) (s : Impl) (hf : env.fault = none) :
    ∃ s1, Linux.gpu_benchmark env s = .ok s1 ∧
      s1.test_results.gpu_score = Dbl.div (Dbl.ofInt 10000000) (Dbl.fin env.elapsed) := by
  refine ⟨_, by simp [Linux.gpu_benchmark, hf]; rfl, ?_⟩
  simp [Impl.print, Impl.emit, Impl.set_gpu_score]

theorem macos_gpu_benchmark_score (env : MacOS.GpuEnv) (s : Impl) (hf : env.fault = none) :
    ∃ s1, MacOS.gpu_benchmark env s = .ok s1 ∧
      s1.test_results.gpu_score = Dbl.div (Dbl.ofInt 15000000) (Dbl.fin env.elapsed) := by
  refine ⟨_, by simp [MacOS.gpu_benchmark, hf]; rfl, ?_⟩
  simp [Impl.print, Impl.emit, Impl.set_gpu_score]

/-- C20, the code at the failing input: the body of the simulated-GPU loop
runs 9999999 times on Linux and 14999999 times on macOS (the loop variable
starts at 1 and the test is `i < N`), while the recorded `gpu_score` is
`10000000 / elapsed` on Linux and `15000000 / elapsed` on macOS; on the sample
Linux host (two seconds) the score is 5000000, not 9999999 / 2. -/
theorem gpu_score_numerator (trig : Int → Dbl) (s : Impl) :
    Linux.gpu_work.2 = 9999999 ∧ (MacOS.gpu_work trig).2 = 14999999 ∧
    (∀ env : Linux.GpuEnv, env.fault = none →
      ∃ s1, Linux.gpu_benchmark env s = .ok s1 ∧
        s1.test_results.gpu_score = Dbl.div (Dbl.ofInt 10000000) (Dbl.fin env.elapsed)) ∧
    (∀ env : MacOS.GpuEnv, env.fault = none →
      ∃ s1, MacOS.gpu_benchmark env s = .ok s1 ∧
        s1.test_results.gpu_score = Dbl.div (Dbl.ofInt 15000000) (Dbl.fin env.elapsed)) ∧
    (∃ s1, Linux.gpu_benchmark sample_gpu_env s = .ok s1 ∧
      s1.test_results.gpu_score = Dbl.fin 5000000 ∧
      s1.test_results.gpu_score
        ≠ Dbl.div (Dbl.ofInt Linux.gpu_work.2) (Dbl.fin sample_gpu_env.elapsed)) := by
  have hl : Linux.gpu_work.2 = 9999999 := by
    unfold Linux.gpu_work
    rw [for_lt_count _ (fun _ _ => rfl) 10000000 9999999 1 _ (by decide)]
  have hm : (MacOS.gpu_work trig).2 = 14999999 := by
    unfold MacOS.gpu_work
    rw [for_lt_count _ (fun _ _ => rfl) 15000000 14999999 1 _ (by decide)]
  refine ⟨hl, hm, fun env hf => linux_gpu_benchmark_score env s hf,
    fun env hf => macos_gpu_benchmark_score env s hf, ?_⟩
  obtain ⟨s1, h1, h2⟩ := linux_gpu_benchmark_score sample_gpu_env s rfl
  have he : sample_gpu_env.elapsed = 2 := rfl
  have hs : s1.test_results.gpu_score = Dbl.fin 5000000 := by
    rw [h2, he]
    simp [Dbl.div, Dbl.ofInt]
    norm_num
  refine ⟨s1, h1, hs, ?_⟩
  rw [hs, hl, he]
  simp [Dbl.div, Dbl.ofInt]
  norm_num

/-! ## C21: the terms of the CPU workload -/

theorem int_mul_exact (i : Int) (h1 : 1 ≤ i) (h2 : i ≤ 46340) :
    int_mul i i = i * i ∧ int_mul i i ≠ 0 := by
  have hlo : 1 ≤ i * i := by nlinarith
  have hhi : i * i ≤ 2147395600 := by nlinarith
  unfold int_mul wrap_int
  generalize i * i = m at hlo hhi
  constructor <;> omega

theorem int_mul_self_ne_zero (i : Int) (h1 : 1 ≤ i) (h2 : i < 65536) : int_mul i i ≠ 0 := by
  lift i to ℕ using (by omega)
  have hk1 : 1 ≤ i := by exact_mod_cast h1
  have hk2 : i < 65536 := by exact_mod_cast h2
  have hnd : ¬ 4294967296 ∣ i * i := by
    intro hd
    have h16 : (65536 : ℕ) ^ 2 ∣ i ^ 2 := by
      have e1 : (65536 : ℕ) ^ 2 = 4294967296 := by norm_num
      rw [e1, pow_two]
      exact hd
    have := (Nat.pow_dvd_pow_iff (by norm_num : (2 : ℕ) ≠ 0)).mp h16
    have := Nat.le_of_dvd (by omega) this
    omega
  have hmod : (i * i) % 4294967296 ≠ 0 := fun h => hnd (Nat.dvd_of_mod_eq_zero h)
  unfold int_mul wrap_int
  have hc : (i : ℤ) * (i : ℤ) = ((i * i : ℕ) : ℤ) := by push_cast; ring
  rw [hc]
  generalize i * i = m at hmod
  omega

theorem for_le_count {σ : Type} (body : Int → σ × Nat → σ × Nat)
    (hbody : ∀ i st, (body i st).2 = st.2 + 1) (hi : Int) :
    ∀ (n : Nat) (i : Int) (st : σ × Nat), (hi + 1 - i).toNat = n →
      (for_le body i hi st).2 = st.2 + n := by
  intro n
  induction n with
  | zero =>
    intro i st hn
    rw [for_le]
    have : ¬ i ≤ hi := by omega
    simp [this]
  | succ n ih =>
    intro i st hn
    rw [for_le]
    have hle : i ≤ hi := by omega
    simp only [hle, dif_pos]
    rw [ih (i + 1) (body i st) (by omega), hbody]
    omega

theorem for_le_invariant {σ : Type} (body : Int → σ → σ) (P : Int → σ → Prop) (hi : Int)
    (hstep : ∀ i st, i ≤ hi → P i st → P (i + 1) (body i st)) :
    ∀ (n : Nat) (i : Int) (st : σ), (hi + 1 - i).toNat = n → i ≤ hi + 1 → P i st →
      P (hi + 1) (for_le body i hi st) := by
  intro n
  induction n with
  | zero =>
    intro i st hn hle hP
    rw [for_le]
    have hnot : ¬ i ≤ hi := by omega
    have hi1 : i = hi + 1 := by omega
    simp only [hnot, dif_neg, not_false_eq_true]
    rw [← hi1]
    exact hP
  | succ n ih =>
    intro i st hn hle hP
    rw [for_le]
    have hle1 : i ≤ hi := by omega
    simp only [hle1, dif_pos]
    exact ih (i + 1) (body i st) (by omega) (by omega) (hstep i st hle1 hP)

theorem cpu_term_of_ne_zero (i : Int) (h : int_mul i i ≠ 0) :
    cpu_term i = Dbl.fin (1 / (int_mul i i : ℚ)) := by
  have hq : ((int_mul i i : Int) : ℚ) ≠ 0 := by exact_mod_cast h
  simp [cpu_term, Dbl.ofInt, Dbl.div, hq]

theorem cpu_term_of_zero (i : Int) (h : int_mul i i = 0) : cpu_term i = Dbl.pinf := by
  simp [cpu_term, Dbl.ofInt, Dbl.div, h, Dbl.signed]

theorem cpu_work_sum : cpu_work.1 = Dbl.pinf := by
  have hinv := for_le_invariant (fun i (st : Dbl × Nat) => (Dbl.add st.1 (cpu_term i), st.2 + 1))
    (fun i st => 1 ≤ i ∧ (i ≤ 65536 → ∃ q : ℚ, st.1 = Dbl.fin q) ∧
      (65536 < i → st.1 = Dbl.pinf)) num_iterations
    (by
      intro i st _ ⟨h1, hfin, hinf⟩
      refine ⟨by omega, ?_, ?_⟩
      · intro hle
        obtain ⟨q, hq⟩ := hfin (by omega)
        simp only [hq, cpu_term_of_ne_zero i (int_mul_self_ne_zero i h1 (by omega)), Dbl.add]
        exact ⟨_, rfl⟩
      · intro hgt
        by_cases h6 : i = 65536
        · obtain ⟨q, hq⟩ := hfin (by omega)
          have hz : int_mul i i = 0 := by subst h6; decide
          simp only [hq, cpu_term_of_zero i hz, Dbl.add]
        · have hs := hinf (by omega)
          by_cases hz : int_mul i i = 0
          · simp only [hs, cpu_term_of_zero i hz, Dbl.add]
          · simp only [hs, cpu_term_of_ne_zero i hz, Dbl.add])
    100000000 1 (Dbl.fin 0, 0) (by decide) (by decide)
    ⟨le_refl _, fun _ => ⟨0, rfl⟩, fun h => absurd h (by decide)⟩
  exact hinv.2.2 (by decide)

/-- C21, the code at the failing inputs: the body of the CPU loop runs for
every `i` from 1 to 100000000, and the `int` product `i * i` (wrap-around
modulo `2^32`) is the square `i^2`, and non-zero, only up to `i = 46340`.  At
`i = 46341` it is -2147479015 instead of 2147488281, and the term added is
negative; at `i = 65536` it is 0 and the term added is `+Inf`, so the final
`sum` is `+Inf` and not a partial sum of the series. -/
theorem cpu_term_overflow :
    cpu_work.2 = 100000000 ∧
    (∀ i : Int, 1 ≤ i → i ≤ 46340 → int_mul i i = i * i ∧ int_mul i i ≠ 0) ∧
    (int_mul 46341 46341 = -2147479015 ∧ (46341 : Int) * 46341 = 2147488281 ∧
      cpu_term 46341 = Dbl.fin (-1 / 2147479015)) ∧
    (int_mul 65536 65536 = 0 ∧ cpu_term 65536 = Dbl.pinf) ∧
    cpu_work.1 = Dbl.pinf := by
  refine ⟨?_, int_mul_exact, ⟨by decide, by decide, ?_⟩,
    ⟨by decide, cpu_term_of_zero 65536 (by decide)⟩, cpu_work_sum⟩
  · unfold cpu_work
    rw [for_le_count _ (fun _ _ => rfl) num_iterations 100000000 1 _ (by decide)]
  · rw [cpu_term_of_ne_zero 46341 (by decide)]
    have h : int_mul 46341 46341 = -2147479015 := by decide
    rw [h]
    norm_num

/-! ## C22: the Linux and the macOS score for one frequency -/

theorem Linux.max_freq_fold_const (freq_files : Nat → Option ℚ) (v : ℚ) (l : List Nat)
    (hl : ∀ i ∈ l, freq_files i = some v) :
    l.foldl (fun base_freq i =>
      match freq_files i with
      | none => base_freq
      | some v =>
        let freq_val := Dbl.div (Dbl.fin v) (Dbl.fin 1000)
        if Dbl.gt freq_val base_freq then freq_val else base_freq) (Dbl.fin (v / 1000))
      = Dbl.fin (v / 1000) := by
  induction l with
  | nil => rfl
  | cons i l ih =>
    simp only [List.foldl_cons, hl i (List.mem_cons_self _ _),
      Dbl.div_fin v 1000 (by norm_num), Dbl.gt, Dbl.lt, lt_self_iff_false, decide_False]
    exact ih (fun j hj => hl j (List.mem_cons_of_mem _ hj))

theorem Linux.max_freq_const (freq_files : Nat → Option ℚ) (v : ℚ) (hv : 0 < v) (c : Nat)
    (hc : 0 < c) (hfiles : ∀ i, i < c → freq_files i = some v) :
    Linux.max_freq freq_files c = Dbl.fin (v / 1000) := by
  obtain ⟨n, rfl⟩ : ∃ n, c = n + 1 := ⟨c - 1, by omega⟩
  have hl : ∀ i ∈ List.range (n + 1), freq_files i = some v :=
    fun i hi => hfiles i (List.mem_range.mp hi)
  unfold Linux.max_freq
  rw [List.range_succ_eq_map] at hl ⊢
  have hpos : (0 : ℚ) < v / 1000 := by positivity
  simp only [List.foldl_cons, hl 0 (List.mem_cons_self _ _),
    Dbl.div_fin v 1000 (by norm_num), Dbl.gt, Dbl.lt, hpos, decide_True, if_true]
  exact Linux.max_freq_fold_const freq_files v _ (fun j hj => hl j (List.mem_cons_of_mem _ hj))

/-- C22, as amended: in exact rational arithmetic, when both backends see the
same clock frequency `F` Hz (on Linux every core's `cpuinfo_max_freq` holds
`F / 1000` kHz, on macOS `hw.cpufrequency` gives `F`), with `F` non-zero, the
same core count `c > 0` and the same elapsed time `t > 0`, the `cpu_score` the
macOS `cpu_benchmark` records is exactly 1000 times the one the Linux
`cpu_benchmark` records: the Linux `base_freq` is `F / 10^6` (MHz) and the
macOS `base_freq` is `F / 10^9` (GHz). -/
theorem macos_score_is_thousandfold (F c : Nat) (t : ℚ) (linux : Linux.CpuEnv)
    (macos : MacOS.CpuEnv) (s : Impl)
    (hF : 0 < F) (hc : 0 < c) (ht : 0 < t) (hcores : s.sys_info.cpu_cores = c)
    (hlf : linux.fault = none) (hmf : macos.fault = none)
    (hlt : linux.elapsed = t) (hmt : macos.elapsed = t)
    (hfiles : ∀ i, i < c → linux.freq_files i = some ((F : ℚ) / 1000))
    (hsysctl : macos.cpufrequency = some F) :
    Linux.base_freq linux.freq_files c = Dbl.fin ((F : ℚ) / 1000000) ∧
    MacOS.base_freq macos.cpufrequency = Dbl.fin ((F : ℚ) / 1000000000) ∧
    ∃ s1 s2 q, Linux.cpu_benchmark linux s = .ok s1 ∧ MacOS.cpu_benchmark macos s = .ok s2 ∧
      s1.test_results.cpu_score = Dbl.fin q ∧
      s2.test_results.cpu_score = Dbl.fin (1000 * q) := by
  have hFq : (0 : ℚ) < F := by exact_mod_cast hF
  have hcq : (0 : ℚ) < c := by exact_mod_cast hc
  have hmax : Linux.max_freq linux.freq_files c = Dbl.fin ((F : ℚ) / 1000000) := by
    rw [Linux.max_freq_const linux.freq_files ((F : ℚ) / 1000) (by positivity) c hc hfiles]
    congr 1
    ring
  have hbl : Linux.base_freq linux.freq_files c = Dbl.fin ((F : ℚ) / 1000000) := by
    have hne : (F : ℚ) / 1000000 ≠ 0 := by positivity
    simp [Linux.base_freq, hmax, Dbl.eq, hne]
  have hbm : MacOS.base_freq macos.cpufrequency = Dbl.fin ((F : ℚ) / 1000000000) := by
    simp [MacOS.base_freq, MacOS.freq, hsysctl, Dbl.ofInt, Dbl.div]
  refine ⟨hbl, hbm, ?_⟩
  obtain ⟨s1, a1, a2⟩ := linux_cpu_benchmark_score linux s hlf
  obtain ⟨s2, b1, b2⟩ := macos_cpu_benchmark_score macos s hmf
  rw [hcores, hbl, hlt] at a2
  rw [hcores, hbm, hmt] at b2
  simp only [Dbl.mul, Dbl.ofInt] at a2 b2
  rw [calculate_score_fin _ _ _ ht.ne' (by positivity)] at a2 b2
  refine ⟨s1, s2, _, a1, b1, a2, ?_⟩
  rw [b2]
  congr 1
  push_cast
  field_simp
  ring

/-- Witness of C22: 2.4 GHz, four cores, one second, in exact arithmetic. -/
theorem macos_score_is_thousandfold_witness :
    ∃ s1 s2 q, Linux.cpu_benchmark clock_2400_cpu_env sample_impl = .ok s1 ∧
      MacOS.cpu_benchmark sample_macos_cpu_env sample_impl = .ok s2 ∧
      s1.test_results.cpu_score = Dbl.fin q ∧
      s2.test_results.cpu_score = Dbl.fin (1000 * q) :=
  (macos_score_is_thousandfold 2400000000 4 1 clock_2400_cpu_env sample_macos_cpu_env
    sample_impl (by norm_num) (by norm_num) (by norm_num) rfl rfl rfl rfl rfl
    (by intro i _; simp [clock_2400_cpu_env]; norm_num) rfl).2.2

/-! ## C22: the Linux and the macOS score in binary64 arithmetic -/

theorem log2_eval (n k : Nat) (h1 : 2 ^ k ≤ n) (h2 : n < 2 ^ (k + 1)) : Nat.log2 n = k := by
  rw [Nat.log2_eq_log_two]
  have hn : n ≠ 0 := by
    have : 0 < 2 ^ k := by positivity
    omega
  exact (Nat.log_eq_iff (Or.inr ⟨by norm_num, hn⟩)).mpr ⟨h1, h2⟩

theorem round64_pos (n d : Nat) (hn : 0 < n) (hd : 0 < d) (h : Nat.Coprime n d) :
    round64 ((n : ℚ) / d) =
      if 2 ^ 1024 ≤ round_pos n d then Dbl.pinf else Dbl.fin (round_pos n d) := by
  have hpos : (0 : ℚ) < (n : ℚ) / d := by positivity
  have hnum : ((n : ℚ) / d).num = n := by
    have := Rat.num_div_eq_of_coprime (a := (n : ℤ)) (b := (d : ℤ)) (by exact_mod_cast hd)
      (by simpa using h)
    simpa using this
  have hden : ((n : ℚ) / d).den = d := by
    have := Rat.den_div_eq_of_coprime (a := (n : ℤ)) (b := (d : ℤ)) (by exact_mod_cast hd)
      (by simpa using h)
    simpa using this
  unfold round64
  rw [if_neg hpos.ne', hnum, hden]
  simp [hpos, Dbl.signed]

/-- Evaluation of `round64` at a positive fraction in lowest terms, from the
bit lengths `k1`, `k2` of its terms, the exponent `p`, the two shifts `a`, `b`
and the rounded significand `m`. -/
theorem round64_eval (n d k1 k2 a b m : Nat) (p : Int)
    (hn : 0 < n) (hd : 0 < d) (hcop : Nat.Coprime n d)
    (h1 : 2 ^ k1 ≤ n ∧ n < 2 ^ (k1 + 1)) (h2 : 2 ^ k2 ≤ d ∧ d < 2 ^ (k2 + 1))
    (hp : max (if d * 2 ^ ((k1 : Int) - (k2 : Int)).toNat
        ≤ n * 2 ^ (-((k1 : Int) - (k2 : Int))).toNat
      then (k1 : Int) - (k2 : Int) else (k1 : Int) - (k2 : Int) - 1) (-1022) = p)
    (ha : (52 - p).toNat = a) (hb : (-(52 - p)).toNat = b)
    (hm : nearest_even (n * 2 ^ a) (d * 2 ^ b) = m)
    (hfin : m * 2 ^ b < 2 ^ 64 * 2 ^ a) :
    round64 ((n : ℚ) / d) = Dbl.fin (((m * 2 ^ b : Nat) : ℚ) / ((2 ^ a : Nat) : ℚ)) := by
  have hr : round_pos n d = ((m * 2 ^ b : Nat) : ℚ) / ((2 ^ a : Nat) : ℚ) := by
    unfold round_pos binary_exponent
    rw [log2_eval n k1 h1.1 h1.2, log2_eval d k2 h2.1 h2.2]
    simp only [hp, ha, hb, hm]
    rw [Rat.mkRat_eq_div]
    push_cast
    rfl
  have hlt : ¬ (2 : ℚ) ^ 1024 ≤ round_pos n d := by
    have hq : (((m * 2 ^ b : Nat) : ℚ)) < ((2 ^ 64 * 2 ^ a : Nat) : ℚ) := by exact_mod_cast hfin
    have hpow : (2 : ℚ) ^ 64 ≤ 2 ^ 1024 := pow_le_pow_right₀ (by norm_num) (by norm_num)
    have ha0 : (0 : ℚ) < ((2 ^ a : Nat) : ℚ) := by positivity
    rw [hr, not_le, div_lt_iff₀ ha0]
    calc ((m * 2 ^ b : Nat) : ℚ) < ((2 ^ 64 * 2 ^ a : Nat) : ℚ) := hq
      _ = 2 ^ 64 * ((2 ^ a : Nat) : ℚ) := by push_cast; rfl
      _ ≤ 2 ^ 1024 * ((2 ^ a : Nat) : ℚ) := mul_le_mul_of_nonneg_right hpow ha0.le
  rw [round64_pos n d hn hd hcop, if_neg hlt, hr]

/-- An integer below `2 ^ 53` converts to `double` exactly. -/
theorem round64_nat (n : Nat) (h : n < 2 ^ 53) : round64 (n : ℚ) = Dbl.fin n := by
  rcases Nat.eq_zero_or_pos n with h0 | hpos
  · subst h0
    simp [round64]
  have hk : Nat.log2 n < 53 := by
    rw [Nat.log2_lt hpos.ne']
    exact h
  have hle : 2 ^ Nat.log2 n ≤ n := Nat.log2_self_le hpos.ne'
  have hlt : n < 2 ^ (Nat.log2 n + 1) := Nat.lt_log2_self
  have := round64_eval n 1 (Nat.log2 n) 0 (52 - Nat.log2 n) 0 (n * 2 ^ (52 - Nat.log2 n))
    (Nat.log2 n) hpos (by norm_num) (by simp) ⟨hle, hlt⟩ (by norm_num)
    (by
      have e1 : ((Nat.log2 n : Int) - ((0 : Nat) : Int)).toNat = Nat.log2 n := by simp
      have e2 : (-((Nat.log2 n : Int) - ((0 : Nat) : Int))).toNat = 0 := by simp
      rw [e1, e2]
      simp only [one_mul, pow_zero, mul_one, if_pos hle]
      simp
      omega)
    (by omega) (by omega)
    (by simp [nearest_even, Nat.mod_one])
    (by
      have : 2 ^ (52 - Nat.log2 n) * 2 ^ Nat.log2 n = 2 ^ 52 := by
        rw [← pow_add]
        congr 1
        omega
      calc n * 2 ^ (52 - Nat.log2 n) * 2 ^ 0
          < 2 ^ (Nat.log2 n + 1) * 2 ^ (52 - Nat.log2 n) * 2 ^ 0 := by
            apply Nat.mul_lt_mul_of_pos_right _ (by positivity)
            exact Nat.mul_lt_mul_of_pos_right hlt (by positivity)
        _ = 2 ^ 53 := by
            rw [pow_zero, mul_one, ← pow_add]
            congr 1
            omega
        _ ≤ 2 ^ 64 * 2 ^ (52 - Nat.log2 n) := by
            calc 2 ^ 53 ≤ 2 ^ 64 := Nat.pow_le_pow_right (by norm_num) (by norm_num)
              _ ≤ 2 ^ 64 * 2 ^ (52 - Nat.log2 n) := Nat.le_mul_of_pos_right _ (by positivity))
  simp only [Nat.cast_one, div_one] at this
  rw [this]
  congr 1
  push_cast
  field_simp

theorem round64_linux_ratio :
    round64 (31250/3) = Dbl.fin (5726623061333333/549755813888) := by
  have := round64_eval 31250 3 14 1 39 0 5726623061333333 13
    (by decide) (by decide) (by norm_num) (by decide) (by decide) (by decide) (by decide)
    (by decide) (by decide) (by decide)
  norm_num at this
  exact this

theorem round64_linux_score :
    round64 (3579139413333333125/34359738368) = Dbl.fin (3495253333333333/33554432) := by
  have := round64_eval 3579139413333333125 34359738368 61 35 26 0 6990506666666666 26
    (by decide) (by decide) (by norm_num) (by decide) (by decide) (by decide) (by decide)
    (by decide) (by decide) (by decide)
  norm_num at this
  exact this

theorem round64_macos_freq :
    round64 (12/5) = Dbl.fin (5404319552844595/2251799813685248) := by
  have := round64_eval 12 5 3 2 51 0 5404319552844595 1
    (by decide) (by decide) (by norm_num) (by decide) (by decide) (by decide) (by decide)
    (by decide) (by decide) (by decide)
  norm_num at this
  exact this

theorem round64_macos_perf :
    round64 (5404319552844595/562949953421312) = Dbl.fin (5404319552844595/562949953421312) := by
  have := round64_eval 5404319552844595 562949953421312 52 49 49 0 5404319552844595 3
    (by decide) (by decide) (by norm_num) (by decide) (by decide) (by decide) (by decide)
    (by decide) (by decide) (by decide)
  norm_num at this
  exact this

theorem round64_macos_ratio :
    round64 (11258999068426240000000/1080863910568919) = Dbl.fin (2796202666666667/268435456) := by
  have := round64_eval 11258999068426240000000 1080863910568919 73 49 29 0 5592405333333334 23
    (by decide) (by decide) (by norm_num) (by decide) (by decide) (by decide) (by decide)
    (by decide) (by decide) (by decide)
  norm_num at this
  exact this

theorem round64_macos_score :
    round64 (1747626666666666875/16777216) = Dbl.fin (6826666666666667/65536) := by
  have := round64_eval 1747626666666666875 16777216 60 24 16 0 6826666666666667 36
    (by decide) (by decide) (by norm_num) (by decide) (by decide) (by decide) (by decide)
    (by decide) (by decide) (by decide)
  norm_num at this
  exact this

theorem round64_1 : round64 1 = Dbl.fin 1 := by
  simpa using round64_nat 1 (by norm_num)

theorem round64_4 : round64 4 = Dbl.fin 4 := by
  simpa using round64_nat 4 (by norm_num)

theorem round64_2400 : round64 2400 = Dbl.fin 2400 := by
  simpa using round64_nat 2400 (by norm_num)

theorem round64_9600 : round64 9600 = Dbl.fin 9600 := by
  simpa using round64_nat 9600 (by norm_num)

theorem round64_10000 : round64 10000 = Dbl.fin 10000 := by
  simpa using round64_nat 10000 (by norm_num)

theorem round64_2400000 : round64 2400000 = Dbl.fin 2400000 := by
  simpa using round64_nat 2400000 (by norm_num)

theorem round64_100000000 : round64 100000000 = Dbl.fin 100000000 := by
  simpa using round64_nat 100000000 (by norm_num)

theorem round64_2400000000 : round64 2400000000 = Dbl.fin 2400000000 := by
  simpa using round64_nat 2400000000 (by norm_num)

theorem Dbl.div64_fin (a b : ℚ) (hb : b ≠ 0) :
    Dbl.div64 (Dbl.fin a) (Dbl.fin b) = round64 (a / b) := by
  simp [Dbl.div64, Dbl.div, Dbl.round, hb]

theorem Dbl.mul64_fin (a b : ℚ) : Dbl.mul64 (Dbl.fin a) (Dbl.fin b) = round64 (a * b) := rfl

theorem Dbl.ofInt64_eq (n : Int) : Dbl.ofInt64 n = round64 (n : ℚ) := rfl

theorem linux_max_freq64_2400 :
    Linux.max_freq64 (fun _ => some 2400000) 4 = Dbl.fin 2400 := by
  have hv : Dbl.div64 (round64 2400000) (Dbl.fin 1000) = Dbl.fin 2400 := by
    rw [round64_2400000, Dbl.div64_fin _ _ (by norm_num)]
    norm_num [round64_2400]
  have h4 : List.range 4 = [0, 1, 2, 3] := rfl
  unfold Linux.max_freq64
  rw [h4]
  simp only [List.foldl_cons, List.foldl_nil, hv]
  simp [Dbl.gt, Dbl.lt]

theorem linux_base_freq64_2400 :
    Linux.base_freq64 (fun _ => some 2400000) 4 = Dbl.fin 2400 := by
  unfold Linux.base_freq64
  rw [linux_max_freq64_2400]
  simp [Dbl.eq]

theorem calculate_score64_fin (t b : ℚ) (ht : t ≠ 0) (hb : b ≠ 0) (a r : ℚ)
    (ha : round64 (100000000 / t) = Dbl.fin a) (hr : round64 (a / b) = Dbl.fin r) :
    calculate_score64 num_iterations (Dbl.fin t) (Dbl.fin b) = round64 (r * 10000) := by
  have h1 : Dbl.ofInt64 num_iterations = Dbl.fin 100000000 := by
    rw [Dbl.ofInt64_eq]
    have : ((num_iterations : Int) : ℚ) = 100000000 := by norm_num [num_iterations]
    rw [this, round64_100000000]
  have h2 : Dbl.ofInt64 10000 = Dbl.fin 10000 := by
    rw [Dbl.ofInt64_eq]
    have : (((10000 : Int)) : ℚ) = 10000 := by norm_num
    rw [this, round64_10000]
  unfold calculate_score64
  simp only [h1, h2, Dbl.div64_fin _ _ ht, ha, Dbl.div64_fin _ _ hb, hr, Dbl.mul64_fin]

theorem linux_cpu_score64_2400 :
    Linux.cpu_score64 clock_2400_cpu_env sample_impl
      = Dbl.fin (3495253333333333 / 33554432) := by
  have hc : Dbl.ofInt64 ((sample_impl.sys_info.cpu_cores : Nat) : Int) = Dbl.fin 4 := by
    rw [Dbl.ofInt64_eq]
    have : ((((sample_impl.sys_info.cpu_cores : Nat) : Int)) : ℚ) = 4 := by
      norm_num [sample_impl, sample_info]
    rw [this, round64_4]
  have hf : Linux.base_freq64 clock_2400_cpu_env.freq_files sample_impl.sys_info.cpu_cores
      = Dbl.fin 2400 := linux_base_freq64_2400
  have ht : round64 clock_2400_cpu_env.elapsed = Dbl.fin 1 := round64_1
  have hp : Dbl.mul64 (Dbl.fin 2400) (Dbl.fin 4) = Dbl.fin 9600 := by
    rw [Dbl.mul64_fin]
    norm_num [round64_9600]
  unfold Linux.cpu_score64
  simp only [hc, hf, ht, hp]
  rw [calculate_score64_fin 1 9600 (by norm_num) (by norm_num) 100000000
    (5726623061333333 / 549755813888) (by norm_num [round64_100000000])
    (by norm_num [round64_linux_ratio])]
  norm_num [round64_linux_score]

theorem macos_cpu_score64_2400 :
    MacOS.cpu_score64 sample_macos_cpu_env sample_impl
      = Dbl.fin (6826666666666667 / 65536) := by
  have hc : Dbl.ofInt64 ((sample_impl.sys_info.cpu_cores : Nat) : Int) = Dbl.fin 4 := by
    rw [Dbl.ofInt64_eq]
    have : ((((sample_impl.sys_info.cpu_cores : Nat) : Int)) : ℚ) = 4 := by
      norm_num [sample_impl, sample_info]
    rw [this, round64_4]
  have hf : MacOS.base_freq64 sample_macos_cpu_env.cpufrequency
      = Dbl.fin (5404319552844595 / 2251799813685248) := by
    unfold MacOS.base_freq64
    rw [Dbl.ofInt64_eq]
    have : (((MacOS.freq sample_macos_cpu_env.cpufrequency : Nat) : Int) : ℚ) = 2400000000 := by
      norm_num [MacOS.freq, sample_macos_cpu_env]
    rw [this, round64_2400000000, Dbl.div64_fin _ _ (by norm_num)]
    norm_num [round64_macos_freq]
  have ht : round64 sample_macos_cpu_env.elapsed = Dbl.fin 1 := round64_1
  have hp : Dbl.mul64 (Dbl.fin (5404319552844595 / 2251799813685248)) (Dbl.fin 4)
      = Dbl.fin (5404319552844595 / 562949953421312) := by
    rw [Dbl.mul64_fin]
    norm_num [round64_macos_perf]
  unfold MacOS.cpu_score64
  simp only [hc, hf, ht, hp]
  rw [calculate_score64_fin 1 (5404319552844595 / 562949953421312) (by norm_num) (by norm_num)
    100000000 (2796202666666667 / 268435456) (by norm_num [round64_100000000])
    (by norm_num [round64_macos_ratio])]
  norm_num [round64_macos_score]

theorem round64_2 : round64 2 = Dbl.fin 2 := by
  simpa using round64_nat 2 (by norm_num)

theorem round64_8 : round64 8 = Dbl.fin 8 := by
  simpa using round64_nat 8 (by norm_num)

theorem round64_2000 : round64 2000 = Dbl.fin 2000 := by
  simpa using round64_nat 2000 (by norm_num)

theorem round64_8000 : round64 8000 = Dbl.fin 8000 := by
  simpa using round64_nat 8000 (by norm_num)

theorem round64_12500 : round64 12500 = Dbl.fin 12500 := by
  simpa using round64_nat 12500 (by norm_num)

theorem round64_2000000 : round64 2000000 = Dbl.fin 2000000 := by
  simpa using round64_nat 2000000 (by norm_num)

theorem round64_12500000 : round64 12500000 = Dbl.fin 12500000 := by
  simpa using round64_nat 12500000 (by norm_num)

theorem round64_125000000 : round64 125000000 = Dbl.fin 125000000 := by
  simpa using round64_nat 125000000 (by norm_num)

theorem round64_2000000000 : round64 2000000000 = Dbl.fin 2000000000 := by
  simpa using round64_nat 2000000000 (by norm_num)

theorem round64_125000000000 : round64 125000000000 = Dbl.fin 125000000000 := by
  simpa using round64_nat 125000000000 (by norm_num)

theorem linux_max_freq64_2000 :
    Linux.max_freq64 (fun _ => some 2000000) 4 = Dbl.fin 2000 := by
  have hv : Dbl.div64 (round64 2000000) (Dbl.fin 1000) = Dbl.fin 2000 := by
    rw [round64_2000000, Dbl.div64_fin _ _ (by norm_num)]
    norm_num [round64_2000]
  have h4 : List.range 4 = [0, 1, 2, 3] := rfl
  unfold Linux.max_freq64
  rw [h4]
  simp only [List.foldl_cons, List.foldl_nil, hv]
  simp [Dbl.gt, Dbl.lt]

/-- At 2 GHz, four cores and one second every intermediate result is a
binary64 value, and the binary64 scores are the exact ones: 125000000 on Linux
and 125000000000 on macOS. -/
theorem cpu_score64_2000 :
    Linux.cpu_score64 sample_cpu_env sample_impl = Dbl.fin 125000000 ∧
    MacOS.cpu_score64 { sample_macos_cpu_env with cpufrequency := some 2000000000 } sample_impl
      = Dbl.fin 125000000000 := by
  have hc : Dbl.ofInt64 ((sample_impl.sys_info.cpu_cores : Nat) : Int) = Dbl.fin 4 := by
    rw [Dbl.ofInt64_eq]
    have : ((((sample_impl.sys_info.cpu_cores : Nat) : Int)) : ℚ) = 4 := by
      norm_num [sample_impl, sample_info]
    rw [this, round64_4]
  constructor
  · have hf : Linux.base_freq64 sample_cpu_env.freq_files sample_impl.sys_info.cpu_cores
        = Dbl.fin 2000 := by
      show Linux.base_freq64 (fun _ => some 2000000) 4 = Dbl.fin 2000
      unfold Linux.base_freq64
      rw [linux_max_freq64_2000]
      simp [Dbl.eq]
    have ht : round64 sample_cpu_env.elapsed = Dbl.fin 1 := round64_1
    have hp : Dbl.mul64 (Dbl.fin 2000) (Dbl.fin 4) = Dbl.fin 8000 := by
      rw [Dbl.mul64_fin]
      norm_num [round64_8000]
    unfold Linux.cpu_score64
    simp only [hc, hf, ht, hp]
    rw [calculate_score64_fin 1 8000 (by norm_num) (by norm_num) 100000000 12500
      (by norm_num [round64_100000000]) (by norm_num [round64_12500])]
    norm_num [round64_125000000]
  · have hf : MacOS.base_freq64 (some 2000000000) = Dbl.fin 2 := by
      unfold MacOS.base_freq64
      rw [Dbl.ofInt64_eq]
      have : (((MacOS.freq (some 2000000000) : Nat) : Int) : ℚ) = 2000000000 := by
        norm_num [MacOS.freq]
      rw [this, round64_2000000000, Dbl.div64_fin _ _ (by norm_num)]
      norm_num [round64_2]
    have ht : round64 sample_macos_cpu_env.elapsed = Dbl.fin 1 := round64_1
    have hp : Dbl.mul64 (Dbl.fin 2) (Dbl.fin 4) = Dbl.fin 8 := by
      rw [Dbl.mul64_fin]
      norm_num [round64_8]
    unfold MacOS.cpu_score64
    simp only [hc, hf, ht, hp]
    rw [calculate_score64_fin 1 8 (by norm_num) (by norm_num) 100000000 12500000
      (by norm_num [round64_100000000]) (by norm_num [round64_12500000])]
    norm_num [round64_125000000000]

/-- C22, counterexample: at 2.4 GHz (2400000 kHz on Linux, 2400000000 Hz on
macOS), four cores and one second, with every arithmetic result rounded to
binary64, the Linux score is 3495253333333333 / 2^25 (104166666.66666666) and
the macOS score is 6826666666666667 / 2^16 (104166666666.66667), which is not
1000 times the Linux score. -/
theorem macos_score_rounding_counterexample :
    (∀ i, clock_2400_cpu_env.freq_files i = some ((2400000000 : ℚ) / 1000)) ∧
    sample_macos_cpu_env.cpufrequency = some 2400000000 ∧
    sample_impl.sys_info.cpu_cores = 4 ∧
    clock_2400_cpu_env.elapsed = 1 ∧ sample_macos_cpu_env.elapsed = 1 ∧
    Linux.cpu_score64 clock_2400_cpu_env sample_impl
      = Dbl.fin (3495253333333333 / 33554432) ∧
    MacOS.cpu_score64 sample_macos_cpu_env sample_impl
      = Dbl.fin (6826666666666667 / 65536) ∧
    (6826666666666667 / 65536 : ℚ) ≠ 1000 * (3495253333333333 / 33554432) := by
  refine ⟨fun i => ?_, rfl, rfl, rfl, rfl, linux_cpu_score64_2400, macos_cpu_score64_2400, ?_⟩
  · show some (2400000 : ℚ) = some (2400000000 / 1000)
    norm_num
  · norm_num

end PCTester
